import Mathlib

/-!
# Ex09 (forward / deferred shading demo): a shallow embedding of `Ex09.cpp`

The C++ translation unit keeps all of its state in globals and talks to three
external collaborators: the OpenGL driver, the mesh provider (`MeshObj::render`)
and the camera controller.  The embedding below makes that explicit:

* `State` collects the globals of `Ex09.cpp` (plus a small model of the `new[]` /
  `delete[]` heap and of the texture names handed out by `glGenTextures`);
* every call that acts on a collaborator is recorded as a `Call`; a function returns
  the list of calls it issued together with the new state;
* values the collaborators hand back (handles, log lengths, uniform locations, decoded
  images, file contents, camera matrices) are inputs of the embedded function, and the
  pure queries that fetch them (`glGet...`) are not recorded; nor is output to `std::cout`,
  except the printing of a non-empty compiler or linker log (`printCompilerLog`,
  `printLinkerLog`), on which the control flow of `attachAndLink` depends;
* undefined behaviour of the C++ code (`top()` of an empty stack, indexing a vector
  past its end, signed overflow, `delete[]` of a freed buffer, reading a local that was
  never assigned) is the result `none`, or `Outcome.undefined` for a callback.

Floating point payloads (`float`, `glm::vec3`, `glm::mat4`) are never inspected by
the code under study, only copied and handed to `glm`; the scalar type `F` and the
matrix type `M` are therefore parameters, with the `glm` operations in `GlmOps`.
-/

namespace Ex09

/-! ## Data model (lines 24-131 of `Ex09.cpp`) -/

/-- Payload of a `glm::vec3`. -/
structure Vec3 (F : Type) where
  x : F
  y : F
  z : F
deriving DecidableEq

/-- The `glm` matrix operations used by `renderScene`. -/
class GlmOps (M : Type) where
  /-- Product of two matrices, `a * b` (the code uses `a *= b`). -/
  mul : M → M → M
  /-- Matrix `glm::mat4(1)`. -/
  identity : M
  /-- Matrix `glm::translate(glm::vec3(x, y, z))` for integer coordinates. -/
  translate : Int → Int → Int → M
  /-- Matrix `glm::scale(glm::vec3(k))` for an integer factor. -/
  scale : Int → M
  /-- Matrix `glm::ortho(0.0f, 1.0f, 0.0f, 1.0f)`. -/
  ortho01 : M

/-- Mirror of `struct UniformLocation_Light`: the five `GLint` locations of one shader light slot. -/
structure UniformLocation_Light where
  ambient_color : Int
  diffuse_color : Int
  specular_color : Int
  power : Int
  position : Int
deriving DecidableEq

/-- Mirror of `struct Material`. -/
structure Material (F : Type) where
  ambient_color : Vec3 F
  diffuse_color : Vec3 F
  specular_color : Vec3 F
  specular_shininess : F
deriving DecidableEq

/-- Mirror of `struct LightSource`. -/
structure LightSource (F : Type) where
  enabled : Bool
  ambient_color : Vec3 F
  diffuse_color : Vec3 F
  specular_color : Vec3 F
  position : Vec3 F
  power : F
deriving DecidableEq

/-- Mirror of `struct Texture`.  The pointer `data` is `none` for `NULL` and `some b` for the
address of heap buffer `b` (whether or not that buffer is still allocated). -/
structure Texture where
  isInitialized : Bool
  data : Option Nat
  width : Nat
  height : Nat
  glTextureLocation : Nat
  uniformLocation : Int
  uniformEnabledLocation : Int
deriving DecidableEq

/-- The value built by the constructor `Texture()`; also what `textures[id]` yields for a new key. -/
def Texture.default : Texture :=
  { isInitialized := false, data := none, width := 0, height := 0,
    glTextureLocation := 0, uniformLocation := -1, uniformEnabledLocation := -1 }

/-- The two kinds of mesh whose `render()` the file calls. -/
inductive Mesh where
  | sceneObject
  | screenQuad
deriving DecidableEq

/-- Shader stage passed to `glCreateShader`. -/
inductive ShaderType where
  | GL_VERTEX_SHADER
  | GL_FRAGMENT_SHADER
deriving DecidableEq

/-- Texture filter / wrap parameters set by the two texture constructors. -/
inductive TexParam where
  | minFilterNearest
  | magFilterNearest
  | wrapSRepeat
  | wrapTRepeat
  | magFilterLinear
  | minFilterLinearMipmapLinear
  | baseLevel0
  | maxLevel4
deriving DecidableEq

/-- The values of `CameraController::MouseState` that `mouseEvent` assigns. -/
inductive MouseState where
  | NO_BTN
  | LEFT_BTN
  | RIGHT_BTN
deriving DecidableEq

set_option maxHeartbeats 1600000 in
/-- One call into a collaborator (OpenGL, GLUT, mesh provider, camera), in program order.
`lightSlot key` records the access `uniformLocations_Lights[key]` (a `std::map::operator[]`,
which creates a zeroed entry when the key is missing). -/
inductive Call (F M : Type) where
  | glClearColor
  | glEnableDepthTest
  | glCreateProgram (result : Nat)
  | glCreateShader (shaderType : ShaderType) (result : Nat)
  | glShaderSource (shader : Nat) (source : String)
  | glCompileShader (shader : Nat)
  | glAttachShader (program shader : Nat)
  | glDeleteShader (shader : Nat)
  | glLinkProgram (program : Nat)
  | printCompilerLog (shader : Nat)
  | printLinkerLog (program : Nat)
  | glDeleteProgram (program : Nat)
  | glUseProgram (program : Nat)
  | glBindFragDataLocation (program colorNumber : Nat) (name : String)
  | glUniformMatrix4fv (location : Int) (value : M)
  | glUniform3fv (location : Int) (value : Vec3 F)
  | glUniform1f (location : Int) (value : F)
  | glUniform1i (location : Int) (value : Int)
  | glGenTextures (name : Nat)
  | glActiveTexture (unit : Nat)
  | glBindTexture (texture : Nat)
  | glTexParameter (param : TexParam)
  | glTexImage2D_RGBA32F (width height : Nat)
  | glTexImage2D_RGB (width height : Nat) (data : Nat)
  | glGenerateMipmap
  | glGenFramebuffers (name : Nat)
  | glBindFramebuffer (framebuffer : Nat)
  | glFramebufferTexture2D (attachment texture : Nat)
  | glGenRenderbuffers (name : Nat)
  | glBindRenderbuffer (renderbuffer : Nat)
  | glRenderbufferStorage (width height : Nat)
  | glFramebufferRenderbuffer (renderbuffer : Nat)
  | glDrawBuffers (attachments : List Nat)
  | glClear
  | glViewport (width height : Nat)
  | glutSwapBuffers
  | glutPostRedisplay
  | render (mesh : Mesh)
  | lightSlot (key : String)
  | cameraSetFar1000
  | cameraKey (key : Nat)
  | cameraUpdateMouseBtn (mouseState : MouseState) (x y : Int)
  | cameraUpdateMousePos (x y : Int)
  | screenQuadSetData
  | loadObjFile (fileName name : String)
  | cvLoadImage (fileName : String)
  | cvFlip
  | cvReleaseImage
  | glutMainLoop
deriving DecidableEq

/-- Model of the free store as far as `Ex09.cpp` uses it for texture data: the buffers
obtained from `new unsigned char[]` that are still allocated, and how many were ever
allocated (buffer numbers are `1, 2, ...`, never reused). -/
structure Heap where
  live : List Nat
  count : Nat
deriving DecidableEq

/-- The globals of `Ex09.cpp`, the heap of `unsigned char[]` buffers and the number of
texture names the driver has generated so far. -/
structure State (F M : Type) where
  useDeferredShading : Bool
  shaderProgram : Nat
  shaderPass : Nat × Nat
  uniformLocations : String → Int
  uniformLocations_Lights : String → UniformLocation_Light
  materialIndex : Nat
  materialCount : Nat
  materials : List (Material F)
  lightCount : Nat
  lights : List (LightSource F)
  textures : String → Texture
  glm_ProjectionMatrix : List M
  glm_ModelViewMatrix : List M
  windowWidth : Nat
  windowHeight : Nat
  screenQuad : Bool
  fbo : Nat
  rb : Nat
  heap : Heap
  /-- Number of texture names `glGenTextures` has handed out; names are `1, 2, ...`. -/
  textureNames : Nat

/-- The globals as they are when `main` starts: zero-initialised scalars, empty containers.
A missing key of a `std::map` reads as the value-initialised entry. -/
def State.initial (F M : Type) : State F M :=
  { useDeferredShading := false, shaderProgram := 0, shaderPass := (0, 0),
    uniformLocations := fun _ => 0,
    uniformLocations_Lights := fun _ => ⟨0, 0, 0, 0, 0⟩,
    materialIndex := 0, materialCount := 0, materials := [],
    lightCount := 0, lights := [],
    textures := fun _ => Texture.default,
    glm_ProjectionMatrix := [], glm_ModelViewMatrix := [],
    windowWidth := 0, windowHeight := 0, screenQuad := false, fbo := 0, rb := 0,
    heap := ⟨[], 0⟩, textureNames := 0 }

/-- Largest value of the C type `int`. -/
def INT_MAX : Int := 2 ^ 31 - 1

/-- Number of values of the C type `unsigned int`. -/
def UINT_RANGE : Nat := 2 ^ 32

section Embedding

variable {F M : Type}

/-! ## `setupLightAndMaterial` (lines 656-679) -/

/-- The key `sstr << "light_" << shaderLightIdx` builds. -/
def lightKey (shaderLightIdx : Int) : String :=
  "light_" ++ toString shaderLightIdx

/-- The five uniform uploads of lines 664-668 for one light and one slot. -/
def uploadLight (light : UniformLocation_Light) (l : LightSource F) : List (Call F M) :=
  [ .glUniform3fv light.position l.position,
    .glUniform3fv light.ambient_color l.ambient_color,
    .glUniform3fv light.diffuse_color l.diffuse_color,
    .glUniform3fv light.specular_color l.specular_color,
    .glUniform1f light.power l.power ]

/-- The loop of lines 659-671, run over the remaining indices `i` with the current value of
`shaderLightIdx`; returns the final `shaderLightIdx` and the calls issued. -/
def setupLights (s : State F M) : List Nat → Int → Option (Int × List (Call F M))
  | [], shaderLightIdx => some (shaderLightIdx, [])
  | i :: rest, shaderLightIdx =>
    match s.lights[i]? with
    | none => none
    | some l =>
      if l.enabled then
        if shaderLightIdx + 1 > INT_MAX then none
        else
          match setupLights s rest (shaderLightIdx + 1) with
          | none => none
          | some (n, calls) =>
            some (n, Call.lightSlot (lightKey shaderLightIdx) ::
              (uploadLight (s.uniformLocations_Lights (lightKey shaderLightIdx)) l ++ calls))
      else setupLights s rest shaderLightIdx

/-- The four material uploads of lines 675-678. -/
def uploadMaterial (s : State F M) (m : Material F) : List (Call F M) :=
  [ .glUniform3fv (s.uniformLocations "material.ambient") m.ambient_color,
    .glUniform3fv (s.uniformLocations "material.diffuse") m.diffuse_color,
    .glUniform3fv (s.uniformLocations "material.specular") m.specular_color,
    .glUniform1f (s.uniformLocations "material.shininess") m.specular_shininess ]

/-- Embedding of `setupLightAndMaterial`: the calls it issues (it changes no global). -/
def setupLightAndMaterial (s : State F M) : Option (List (Call F M)) :=
  match setupLights s (List.range s.lightCount) 0 with
  | none => none
  | some (shaderLightIdx, calls) =>
    match s.materials[s.materialIndex]? with
    | none => none
    | some m =>
      some (calls ++ Call.glUniform1i (s.uniformLocations "usedLightCount") shaderLightIdx ::
        uploadMaterial s m)

/-! ## Texture registry (lines 510-581) -/

/-- Result of `new unsigned char[n]`: a fresh buffer, recorded as allocated. -/
def Heap.alloc (h : Heap) : Nat × Heap :=
  (h.count + 1, { live := (h.count + 1) :: h.live, count := h.count + 1 })

/-- Result of `delete[] p` for a non-null `p`: undefined when `p` is not an allocated buffer. -/
def Heap.free (h : Heap) (p : Nat) : Option Heap :=
  if p ∈ h.live then some { h with live := h.live.erase p } else none

/-- What `cvLoadImage` hands back when decoding succeeds. -/
structure IplImage where
  width : Nat
  height : Nat
  imageSize : Nat
deriving DecidableEq

/-- Assignment to the registry entry `textures[texID]`. -/
def State.setTexture (s : State F M) (texID : String) (t : Texture) : State F M :=
  { s with textures := Function.update s.textures texID t }

/-- Embedding of `createEmptyTexture`. -/
def createEmptyTexture (texID : String) (width height : Nat) (s : State F M) :
    State F M × List (Call F M) :=
  let texture := s.textures texID
  let texture := { texture with width := width, height := height }
  let name := s.textureNames + 1
  let texture := { texture with glTextureLocation := name }
  let calls : List (Call F M) :=
    [ .glGenTextures name, .glBindTexture name,
      .glTexParameter .minFilterNearest, .glTexParameter .magFilterNearest,
      .glTexImage2D_RGBA32F width height ]
  let texture := { texture with data := none }
  let texture := { texture with isInitialized := true }
  ({ s with textureNames := name }.setTexture texID texture, calls)

/-- Embedding of `loadTextureData`; `image` is the outcome of `cvLoadImage`
(`none` for a null image). -/
def loadTextureData (image : Option IplImage) (textureFile : String) (texture : Texture)
    (heap : Heap) : Option (Texture × Heap × List (Call F M)) :=
  match image with
  | some img =>
    let texture := { texture with width := img.width, height := img.height }
    let released : Option (Texture × Heap) :=
      match texture.data with
      | some p =>
        match heap.free p with
        | none => none
        | some heap => some ({ texture with data := none }, heap)
      | none => some (texture, heap)
    match released with
    | none => none
    | some (texture, heap) =>
      let (p, heap) := heap.alloc
      let texture := { texture with data := some p }
      let texture := { texture with isInitialized := true }
      some (texture, heap, [.cvLoadImage textureFile, .cvFlip, .cvReleaseImage])
  | none =>
    let texture := { texture with isInitialized := false }
    some (texture, heap, [.cvLoadImage textureFile, .cvReleaseImage])

/-- Embedding of `createTextureFromFile`; `image` is what decoding `fileName` yields. -/
def createTextureFromFile (image : Option IplImage) (texID fileName : String)
    (s : State F M) : Option (State F M × List (Call F M)) :=
  match loadTextureData image fileName (s.textures texID) s.heap with
  | none => none
  | some (texture, heap, calls) =>
    match texture.data with
    | some p =>
      let name := s.textureNames + 1
      let texture := { texture with glTextureLocation := name }
      -- `glTexImage2D` reads the buffer and `delete[]` releases it: both need it allocated
      match heap.free p with
      | none => none
      | some heap =>
        some ({ s with heap := heap, textureNames := name }.setTexture texID texture,
          calls ++
          [ .glGenTextures name, .glBindTexture name,
            .glTexParameter .wrapSRepeat, .glTexParameter .wrapTRepeat,
            .glTexParameter .magFilterLinear, .glTexParameter .minFilterLinearMipmapLinear,
            .glTexImage2D_RGB texture.width texture.height p,
            .glGenerateMipmap, .glTexParameter .baseLevel0, .glTexParameter .maxLevel4 ])
    | none => some ({ s with heap := heap }.setTexture texID texture, calls)

/-- Embedding of `initTextures`; the two arguments are the decoding outcomes of the two files. -/
def initTextures (diffuse normal : Option IplImage) (s : State F M) :
    Option (State F M × List (Call F M)) :=
  match createTextureFromFile diffuse "diffuse" "../textures/diffuse.jpg" s with
  | none => none
  | some (s, c1) =>
    match createTextureFromFile normal "normal" "../textures/normals.jpg" s with
    | none => none
    | some (s, c2) => some (s, c1 ++ c2)

/-! ## Shader program manager (lines 217-293, 419-508) -/

/-- Embedding of `getUniformStructLocStr`; the C++ default `arrayIndex = -1` is passed explicitly. -/
def getUniformStructLocStr (structName memberName : String) (arrayIndex : Int) : String :=
  structName ++ (if arrayIndex ≥ 0 then "[" ++ toString arrayIndex ++ "]" else "") ++
    "." ++ memberName

/-- What the collaborators answer while one program is created: the file system for the shader
sources, the handles returned by `glCreateProgram` and `glCreateShader`, and the lengths
reported by `glGetShaderInfoLog` / `glGetProgramInfoLog`. -/
structure ShaderEnv where
  files : String → Option String
  glCreateProgram : Nat
  glCreateShader : ShaderType → Nat
  shaderInfoLogLength : ShaderType → Int
  programInfoLogLength : Int

/-- Embedding of `deleteShader`. -/
def deleteShader (s : State F M) : State F M × List (Call F M) :=
  if !s.useDeferredShading then
    ({ s with shaderProgram := 0 }, [.glUseProgram 0, .glDeleteProgram s.shaderProgram])
  else
    ({ s with shaderPass := (0, 0) },
      [.glUseProgram 0, .glDeleteProgram s.shaderPass.1, .glDeleteProgram s.shaderPass.2])

/-- Embedding of `enableShader`; an index other than 0 or 1 reads past `shaderPass`. -/
def enableShader (pass : Int) (s : State F M) : Option (Bool × List (Call F M)) :=
  if !s.useDeferredShading then
    some (decide (s.shaderProgram > 0),
      if s.shaderProgram > 0 then [.glUseProgram s.shaderProgram] else [])
  else
    let entry : Option Nat :=
      if pass = 0 then some s.shaderPass.1
      else if pass = 1 then some s.shaderPass.2
      else none
    match entry with
    | none => none
    | some p => some (decide (p > 0), if p ≠ 0 then [.glUseProgram p] else [])

/-- Embedding of `disableShader`. -/
def disableShader : List (Call F M) :=
  [.glUseProgram 0]

/-- Embedding of `loadShaderSource`: the contents of the file, `none` when it cannot be opened. -/
def loadShaderSource (env : ShaderEnv) (fileName : String) : Option String :=
  env.files fileName

/-- Embedding of `loadShaderFile`: the handle returned and the calls issued. -/
def loadShaderFile (env : ShaderEnv) (fileName : String) (shaderType : ShaderType) :
    Nat × List (Call F M) :=
  let shader := env.glCreateShader shaderType
  if shader = 0 then (0, [.glCreateShader shaderType shader])
  else
    match loadShaderSource env fileName with
    | none => (0, [.glCreateShader shaderType shader])
    | some shaderSrc =>
      let logLength := env.shaderInfoLogLength shaderType
      (shader, [.glCreateShader shaderType shader, .glShaderSource shader shaderSrc,
        .glCompileShader shader] ++
        (if logLength > 0 then [.printCompilerLog shader] else []))

/-- Embedding of `loadShaderCode`: the returned flag, the two handles written through the
reference parameters, the new state and the calls issued. -/
def loadShaderCode (env : ShaderEnv) (vertProgramCode fragmentProgramCode : String)
    (s : State F M) : (Bool × Nat × Nat) × State F M × List (Call F M) :=
  let (vertProgram, c1) := loadShaderFile env vertProgramCode .GL_VERTEX_SHADER
  let (fragProgram, c2) := loadShaderFile env fragmentProgramCode .GL_FRAGMENT_SHADER
  if vertProgram = 0 then
    let (s, c3) := deleteShader s
    ((false, vertProgram, fragProgram), s, c1 ++ c2 ++ c3)
  else if fragProgram = 0 then
    let (s, c3) := deleteShader s
    ((false, vertProgram, fragProgram), s, c1 ++ c2 ++ c3)
  else ((true, vertProgram, fragProgram), s, c1 ++ c2)

/-- Embedding of `attachAndLink`. -/
def attachAndLink (env : ShaderEnv) (shaderProgram vertexProgram fragmentProgram : Nat) :
    Bool × List (Call F M) :=
  let calls : List (Call F M) :=
    [ .glAttachShader shaderProgram vertexProgram, .glAttachShader shaderProgram fragmentProgram,
      .glDeleteShader vertexProgram, .glDeleteShader fragmentProgram,
      .glLinkProgram shaderProgram ]
  let logLength := env.programInfoLogLength
  if logLength > 0 then (false, calls ++ [.printLinkerLog shaderProgram]) else (true, calls)

/-- Embedding of `createShader`: the returned program handle, the new state, the calls issued. -/
def createShader (env : ShaderEnv) (vertexProgramCode fragmentProgramCode : String)
    (s : State F M) : Nat × State F M × List (Call F M) :=
  let program := env.glCreateProgram
  if program = 0 then (0, s, [.glCreateProgram program])
  else
    match loadShaderCode env vertexProgramCode fragmentProgramCode s with
    | ((false, _, _), s, c1) =>
      (0, s, Call.glCreateProgram program :: (c1 ++ [.glDeleteProgram program]))
    | ((true, vertexShader, fragmentShader), s, c1) =>
      match attachAndLink env program vertexShader fragmentShader with
      | (false, c2) =>
        (0, s, Call.glCreateProgram program :: (c1 ++ c2 ++ [.glDeleteProgram program]))
      | (true, c2) => (program, s, Call.glCreateProgram program :: (c1 ++ c2))

/-! ## `initShader` (lines 299-417) -/

/-- Assignment `uniformLocations[key] = location`. -/
def State.setUniform (s : State F M) (key : String) (location : Int) : State F M :=
  { s with uniformLocations := Function.update s.uniformLocations key location }

/-- Assignment `textures[texID].uniformLocation = location`. -/
def State.setTextureUniform (s : State F M) (texID : String) (location : Int) : State F M :=
  s.setTexture texID { s.textures texID with uniformLocation := location }

/-- Assignment `uniformLocations_Lights[key] = lightLocation`. -/
def State.setLightLocation (s : State F M) (key : String) (lightLocation : UniformLocation_Light) :
    State F M :=
  { s with uniformLocations_Lights := Function.update s.uniformLocations_Lights key lightLocation }

/-- The `UniformLocation_Light` filled in by one iteration of the light-location loops;
`loc` is `glGetUniformLocation`. -/
def lightLocation (loc : Nat → String → Int) (program : Nat) (i : Int) : UniformLocation_Light :=
  { ambient_color := loc program (getUniformStructLocStr "lightSource" "ambient_color" i),
    diffuse_color := loc program (getUniformStructLocStr "lightSource" "diffuse_color" i),
    specular_color := loc program (getUniformStructLocStr "lightSource" "specular_color" i),
    power := loc program (getUniformStructLocStr "lightSource" "power" i),
    position := loc program (getUniformStructLocStr "lightSource" "position" i) }

/-- The loop `for (int i = 0; i < 10; ++i)` that stores `uniformLocations_Lights["light_i"]`. -/
def storeLightLocations (loc : Nat → String → Int) (program : Nat) (s : State F M) : State F M :=
  (List.range 10).foldl
    (fun s (i : Nat) => s.setLightLocation (lightKey (Int.ofNat i)) (lightLocation loc program (Int.ofNat i)))
    s

/-- Embedding of `initShader`; `loc` is `glGetUniformLocation`, `env1` and `env2` are the
answers of the collaborators during the first and the second call of `createShader`. -/
def initShader (loc : Nat → String → Int) (env1 env2 : ShaderEnv) (s : State F M) :
    State F M × List (Call F M) :=
  if !s.useDeferredShading then
    let (program, s, c1) :=
      createShader env1 "../shader/normal_mapping.vert" "../shader/normal_mapping.frag" s
    let s := { s with shaderProgram := program }
    if s.shaderProgram = 0 then (s, c1)
    else
      let s := s.setUniform "projection" (loc s.shaderProgram "projection")
      let s := s.setUniform "modelview" (loc s.shaderProgram "modelview")
      let s := s.setUniform "view" (loc s.shaderProgram "view")
      let s := s.setUniform "material.ambient" (loc s.shaderProgram "material.ambient_color")
      let s := s.setUniform "material.diffuse" (loc s.shaderProgram "material.diffuse_color")
      let s := s.setUniform "material.specular" (loc s.shaderProgram "material.specular_color")
      let s := s.setUniform "material.shininess"
        (loc s.shaderProgram "material.specular_shininess")
      let s := storeLightLocations loc s.shaderProgram s
      let s := s.setUniform "usedLightCount" (loc s.shaderProgram "usedLightCount")
      let s := s.setTextureUniform "diffuse" (loc s.shaderProgram "diffuseTexture")
      let s := s.setTextureUniform "normal" (loc s.shaderProgram "normalMap")
      (s, c1 ++ [.glBindFragDataLocation s.shaderProgram 0 "color"])
  else
    let (program, s, c1) :=
      createShader env1 "../shader/deferred_pass1.vert" "../shader/deferred_pass1.frag" s
    let s := { s with shaderPass := (program, s.shaderPass.2) }
    if s.shaderPass.1 = 0 then (s, c1)
    else
      let (program, s, c2) :=
        createShader env2 "../shader/deferred_pass2.vert" "../shader/deferred_pass2.frag" s
      let s := { s with shaderPass := (s.shaderPass.1, program) }
      if s.shaderPass.2 = 0 then (s, c1 ++ c2)
      else
        let p0 := s.shaderPass.1
        let p1 := s.shaderPass.2
        let s := s.setUniform "projection" (loc p0 "projection")
        let s := s.setUniform "modelview" (loc p0 "modelview")
        let s := s.setTextureUniform "normal" (loc p0 "normalMap")
        let s := s.setUniform "projection_p1" (loc p1 "projection")
        let s := s.setUniform "modelview_p1" (loc p1 "modelview")
        let s := s.setUniform "view_p1" (loc p1 "view")
        let s := storeLightLocations loc p1 s
        let s := s.setUniform "usedLightCount" (loc p1 "usedLightCount")
        let s := s.setTextureUniform "diffuse" (loc p1 "diffuseTexture")
        let s := s.setUniform "material.ambient" (loc p1 "material.ambient_color")
        let s := s.setUniform "material.diffuse" (loc p1 "material.diffuse_color")
        let s := s.setUniform "material.specular" (loc p1 "material.specular_color")
        let s := s.setUniform "material.shininess" (loc p1 "material.specular_shininess")
        let s := storeLightLocations loc p1 s
        let s := s.setUniform "usedLightCount" (loc p1 "usedLightCount")
        (s, c1 ++ c2 ++
          [ .glBindFragDataLocation p0 0 "vertex_pos",
            .glBindFragDataLocation p0 1 "vertex_normal",
            .glBindFragDataLocation p0 2 "vertex_texcoord",
            .glBindFragDataLocation p1 0 "color",
            .glUseProgram p0, .glUseProgram p1 ])

/-! ## `initScene` and `initFBO` (lines 583-653) -/

/-- The floating point values `initScene` stores: `glm::vec3(1.0, 1.0, 1.0)`, the shininess
`5.0`, `glm::vec3(0.15, 0.15, 0.15)`, the power `0.25f`, and the position
`glm::vec3(5 * sin(angle), 3, 5 * cos(angle))` computed in iteration `i` of the light loop. -/
structure SceneValues (F : Type) where
  white : Vec3 F
  shininess : F
  lightAmbient : Vec3 F
  lightPower : F
  lightPosition : Nat → Vec3 F

/-- Embedding of `initScene`. -/
def initScene (v : SceneValues F) (s : State F M) : State F M × List (Call F M) :=
  let mat : Material F :=
    { ambient_color := v.white, diffuse_color := v.white, specular_color := v.white,
      specular_shininess := v.shininess }
  let s := { s with materials := s.materials ++ [mat] }
  let s := { s with materialCount := s.materials.length % UINT_RANGE }
  let s := { s with materialIndex := 0 }
  let light : Nat → LightSource F := fun i =>
    { enabled := true, ambient_color := v.lightAmbient, diffuse_color := v.white,
      specular_color := v.white, position := v.lightPosition i, power := v.lightPower }
  let numLights := 10
  let s := (List.range numLights).foldl (fun s i => { s with lights := s.lights ++ [light i] }) s
  let s := { s with lightCount := s.lights.length % UINT_RANGE }
  (s, [.cameraSetFar1000, .loadObjFile "../meshes/head.obj" "sceneObject"])

/-- Embedding of `initFBO`; `fboName` and `rbName` are the names written by
`glGenFramebuffers` and `glGenRenderbuffers`, `loc` is `glGetUniformLocation`. -/
def initFBO (loc : Nat → String → Int) (fboName rbName : Nat) (s : State F M) :
    State F M × List (Call F M) :=
  let s := { s with fbo := fboName }
  let (s, c1) := createEmptyTexture "def_vertexMap" s.windowWidth s.windowHeight s
  let (s, c2) := createEmptyTexture "def_normalMap" s.windowWidth s.windowHeight s
  let (s, c3) := createEmptyTexture "def_texCoordMap" s.windowWidth s.windowHeight s
  let s := s.setTextureUniform "def_vertexMap" (loc s.shaderPass.2 "def_vertexMap")
  let s := s.setTextureUniform "def_normalMap" (loc s.shaderPass.2 "def_normalMap")
  let s := s.setTextureUniform "def_texCoordMap" (loc s.shaderPass.2 "def_texCoordMap")
  let s := { s with rb := rbName }
  (s, [.glGenFramebuffers fboName, .glBindFramebuffer s.fbo] ++ c1 ++ c2 ++ c3 ++
    [ .glFramebufferTexture2D 0 (s.textures "def_vertexMap").glTextureLocation,
      .glFramebufferTexture2D 1 (s.textures "def_normalMap").glTextureLocation,
      .glFramebufferTexture2D 2 (s.textures "def_texCoordMap").glTextureLocation,
      .glGenRenderbuffers rbName, .glBindRenderbuffer s.rb,
      .glRenderbufferStorage s.windowWidth s.windowHeight,
      .glFramebufferRenderbuffer s.rb,
      .glBindFramebuffer 0 ])

/-! ## `renderScene` and `updateGL` (lines 681-861)

Both functions are straight-line code around two counted loops, so they are embedded as the
list of their statements in execution order (`renderSceneSteps`, `updateGLSteps`); running
a prefix of the list gives the state at an intermediate program point. -/

/-- One statement: a state transformer that also reports the calls it issued; `none` is
undefined behaviour. -/
abbrev Step (F M : Type) := State F M → Option (State F M × List (Call F M))

/-- Run the statements in order, concatenating the calls. -/
def runSteps : List (Step F M) → State F M → Option (State F M × List (Call F M))
  | [], s => some (s, [])
  | st :: rest, s =>
    match st s with
    | none => none
    | some (s1, c1) =>
      match runSteps rest s1 with
      | none => none
      | some (s2, c2) => some (s2, c1 ++ c2)

/-- A statement that is a single call whose arguments are read from the globals. -/
def emit (f : State F M → Call F M) : Step F M :=
  fun s => some (s, [f s])

/-- Statement `glm_ModelViewMatrix.push(glm_ModelViewMatrix.top())`. -/
def mvPushTop : Step F M := fun s =>
  match s.glm_ModelViewMatrix with
  | [] => none
  | t :: rest => some ({ s with glm_ModelViewMatrix := t :: t :: rest }, [])

/-- Statement `glm_ModelViewMatrix.top() *= m`. -/
def mvMulTop [GlmOps M] (m : M) : Step F M := fun s =>
  match s.glm_ModelViewMatrix with
  | [] => none
  | t :: rest => some ({ s with glm_ModelViewMatrix := GlmOps.mul t m :: rest }, [])

/-- Statement `glm_ModelViewMatrix.top() = m`. -/
def mvSetTop (m : M) : Step F M := fun s =>
  match s.glm_ModelViewMatrix with
  | [] => none
  | _ :: rest => some ({ s with glm_ModelViewMatrix := m :: rest }, [])

/-- Statement `glm_ModelViewMatrix.pop()`. -/
def mvPop : Step F M := fun s =>
  match s.glm_ModelViewMatrix with
  | [] => none
  | _ :: rest => some ({ s with glm_ModelViewMatrix := rest }, [])

/-- Statement `glUniformMatrix4fv(uniformLocations[key], 1, false, value_ptr(glm_ModelViewMatrix.top()))`. -/
def mvUploadTop (key : String) : Step F M := fun s =>
  match s.glm_ModelViewMatrix with
  | [] => none
  | t :: _ => some (s, [.glUniformMatrix4fv (s.uniformLocations key) t])

/-- Statement `setupLightAndMaterial();`. -/
def setupLightAndMaterialStep : Step F M := fun s =>
  match setupLightAndMaterial s with
  | none => none
  | some calls => some (s, calls)

/-- The statements `glActiveTexture(GL_TEXTUREunit); glBindTexture(GL_TEXTURE_2D,
textures[texID].glTextureLocation); glUniform1i(textures[texID].uniformLocation, unit);`. -/
def bindTextureSteps (texID : String) (unit : Nat) : List (Step F M) :=
  [ emit (fun _ => .glActiveTexture unit),
    emit (fun s => .glBindTexture (s.textures texID).glTextureLocation),
    emit (fun s => .glUniform1i (s.textures texID).uniformLocation unit) ]

/-- The values `lo, lo + 1, ..., hi - 1` taken by the counter of `for (int v = lo; v < hi; ++v)`. -/
def intRange (lo hi : Int) : List Int :=
  (List.range (hi - lo).toNat).map (fun (k : Nat) => lo + Int.ofNat k)

/-- The body of the inner grid loop (lines 744-755 and 782-793) for one placement. -/
def gridBody [GlmOps M] (x y : Int) : List (Step F M) :=
  [ mvPushTop,
    mvMulTop (GlmOps.translate x 0 y),
    mvMulTop (GlmOps.scale 2),
    mvUploadTop "modelview",
    emit (fun _ => .render .sceneObject),
    mvPop ]

/-- The nested loops `for (int y = -10; y < 11; ++y) for (int x = -10; x < 11; ++x)`. -/
def gridLoop [GlmOps M] : List (Step F M) :=
  (intRange (-10) 11).flatMap (fun y => (intRange (-10) 11).flatMap (fun x => gridBody x y))

/-- Statement `if (!screenQuad) initScreenFillingQuad();`. -/
def ensureScreenQuad : Step F M := fun s =>
  if !s.screenQuad then some ({ s with screenQuad := true }, [.screenQuadSetData])
  else some (s, [])

/-- The statements of `renderScene` for the given value of `useDeferredShading`. -/
def renderSceneSteps [GlmOps M] (useDeferredShading : Bool) : List (Step F M) :=
  if !useDeferredShading then
    [ emit (fun s => .glUseProgram s.shaderProgram),
      mvUploadTop "view",
      setupLightAndMaterialStep ] ++
    bindTextureSteps "diffuse" 0 ++
    bindTextureSteps "normal" 1 ++
    gridLoop
  else
    [ emit (fun s => .glUseProgram s.shaderPass.1),
      emit (fun s => .glBindFramebuffer s.fbo),
      emit (fun _ => .glDrawBuffers [0, 1, 2]) ] ++
    bindTextureSteps "normal" 0 ++
    [ emit (fun _ => .glClear) ] ++
    gridLoop ++
    [ emit (fun s => .glUseProgram s.shaderPass.2),
      emit (fun _ => .glBindFramebuffer 0),
      emit (fun s => .glUniformMatrix4fv (s.uniformLocations "projection_p1") GlmOps.ortho01),
      emit (fun s => .glUniformMatrix4fv (s.uniformLocations "modelview_p1") GlmOps.identity),
      mvUploadTop "view_p1",
      setupLightAndMaterialStep ] ++
    bindTextureSteps "diffuse" 0 ++
    bindTextureSteps "def_vertexMap" 1 ++
    bindTextureSteps "def_normalMap" 2 ++
    bindTextureSteps "def_texCoordMap" 3 ++
    [ ensureScreenQuad,
      emit (fun _ => .render .screenQuad) ]

/-- Embedding of `renderScene`. -/
def renderScene [GlmOps M] (s : State F M) : Option (State F M × List (Call F M)) :=
  runSteps (renderSceneSteps s.useDeferredShading) s

/-- Statement `glm_ProjectionMatrix.top() = m`. -/
def projSetTop (m : M) : Step F M := fun s =>
  match s.glm_ProjectionMatrix with
  | [] => none
  | _ :: rest => some ({ s with glm_ProjectionMatrix := m :: rest }, [])

/-- Statement `glUniformMatrix4fv(uniformLocations[key], 1, false, value_ptr(glm_ProjectionMatrix.top()))`. -/
def projUploadTop (key : String) : Step F M := fun s =>
  match s.glm_ProjectionMatrix with
  | [] => none
  | t :: _ => some (s, [.glUniformMatrix4fv (s.uniformLocations key) t])

/-- The statements of `updateGL`; `projection` and `modelview` are what
`camera.getProjectionMat()` and `camera.getModelViewMat()` return. -/
def updateGLSteps [GlmOps M] (projection modelview : M) (useDeferredShading : Bool) :
    List (Step F M) :=
  [ emit (fun _ => .glClear),
    emit (fun s => .glViewport s.windowWidth s.windowHeight),
    projSetTop projection,
    projUploadTop "projection",
    mvSetTop modelview ] ++
  renderSceneSteps useDeferredShading ++
  [ emit (fun _ => .glutSwapBuffers) ]

/-- Embedding of `updateGL`. -/
def updateGL [GlmOps M] (projection modelview : M) (s : State F M) :
    Option (State F M × List (Call F M)) :=
  runSteps (updateGLSteps projection modelview s.useDeferredShading) s

/-! ## Input handling and `main` (lines 155-215, 863-977) -/

/-- Embedding of `toggleLightSource`. -/
def toggleLightSource (i : Nat) (s : State F M) : Option (State F M) :=
  if i < s.lightCount then
    match s.lights[i]? with
    | none => none
    | some l => some { s with lights := s.lights.set i { l with enabled := !l.enabled } }
  else some s

/-- How a callback or the program ends: undefined behaviour, process exit (`exit(0)` or
`return 0` from `main`), or still running in the given state; the calls issued so far
are reported in the last two cases. -/
inductive Outcome (F M : Type) where
  | undefined
  | exit (calls : List (Call F M))
  | running (s : State F M) (calls : List (Call F M))

/-- The light index `keyStr << key; keyStr >> lightIdx` yields for a digit key. -/
def digitValue (key : Char) : Int :=
  (key.toNat : Int) - 48

/-- Embedding of `keyboardEvent` (the mouse position arguments are unused). -/
def keyboardEvent (key : Char) (s : State F M) : Outcome F M :=
  if key = 'x' ∨ key = Char.ofNat 27 then .exit []
  else if key ∈ ['w', 's', 'a', 'd', 'z', 'h', 'r', 'f', 't', 'g'] then
    .running s [.cameraKey key.toNat, .glutPostRedisplay]
  else if key = 'm' then
    let s := { s with materialIndex := (s.materialIndex + 1) % UINT_RANGE }
    let s := if s.materialIndex ≥ s.materialCount then { s with materialIndex := 0 } else s
    .running s [.glutPostRedisplay]
  else if key.isDigit then
    let lightIdx := digitValue key
    let lightIdx := if lightIdx = 0 then 10 else lightIdx
    if lightIdx > 0 then
      match toggleLightSource (lightIdx - 1).toNat s with
      | none => .undefined
      | some s => .running s [.glutPostRedisplay]
    else .running s [.glutPostRedisplay]
  else .running s [.glutPostRedisplay]

/-- Value of `GLUT_DOWN` in `freeglut_std.h`. -/
def GLUT_DOWN : Int := 0

/-- Value of `GLUT_LEFT_BUTTON` in `freeglut_std.h`. -/
def GLUT_LEFT_BUTTON : Int := 0

/-- Value of `GLUT_RIGHT_BUTTON` in `freeglut_std.h`. -/
def GLUT_RIGHT_BUTTON : Int := 2

/-- The local `mouseState` of `mouseEvent` when it is passed to `camera.updateMouseBtn`:
`none` when no branch has assigned it (a press of a button other than the left or the right
one), so that the call reads an indeterminate value. -/
def mouseEvent_mouseState (button state : Int) : Option MouseState :=
  if state = GLUT_DOWN then
    if button = GLUT_LEFT_BUTTON then some .LEFT_BTN
    else if button = GLUT_RIGHT_BUTTON then some .RIGHT_BTN
    else none
  else some .NO_BTN

/-- Embedding of `mouseEvent`. -/
def mouseEvent (button state x y : Int) (s : State F M) : Outcome F M :=
  match mouseEvent_mouseState button state with
  | none => .undefined
  | some mouseState => .running s [.cameraUpdateMouseBtn mouseState x y, .glutPostRedisplay]

/-- Embedding of `mouseMoveEvent`. -/
def mouseMoveEvent (x y : Int) (s : State F M) : Outcome F M :=
  .running s [.cameraUpdateMousePos x y, .glutPostRedisplay]

/-- Embedding of `idle`. -/
def idle (s : State F M) : Outcome F M :=
  .running s [.glutPostRedisplay]

/-- A callback invocation delivered by GLUT during `glutMainLoop`, one constructor for each
callback `main` registers (`updateGL`, `idle`, `keyboardEvent`, `mouseEvent`,
`mouseMoveEvent`); a display event carries the matrices the camera returns in that frame. -/
inductive Event (M : Type) where
  | display (projection modelview : M)
  | idle
  | keyboard (key : Char)
  | mouse (button state x y : Int)
  | motion (x y : Int)

/-- Whether the callback for the event passes an assigned `mouseState` to the camera; only a
mouse event can fail to. -/
def Event.mouseStateAssigned : Event M → Bool
  | .mouse button state _ _ => (mouseEvent_mouseState button state).isSome
  | _ => true

/-- The callback GLUT invokes for the event, as registered by `main` (lines 173-177). -/
def dispatch [GlmOps M] (e : Event M) (s : State F M) : Outcome F M :=
  match e with
  | .display projection modelview =>
    match updateGL projection modelview s with
    | none => .undefined
    | some (s, c) => .running s c
  | .idle => idle s
  | .keyboard key => keyboardEvent key s
  | .mouse button state x y => mouseEvent button state x y s
  | .motion x y => mouseMoveEvent x y s

/-- The render loop: the registered callbacks run for the events in order. -/
def mainLoop [GlmOps M] : List (Event M) → State F M → Outcome F M
  | [], s => .running s []
  | e :: rest, s =>
    match dispatch e s with
    | .undefined => .undefined
    | .exit c => .exit c
    | .running s c =>
      match mainLoop rest s with
      | .undefined => .undefined
      | .exit c2 => .exit (c ++ c2)
      | .running s2 c2 => .running s2 (c ++ c2)

/-- Everything the environment supplies to one run of `main`. -/
structure MainEnv (F M : Type) where
  atoi : String → Int
  glGetUniformLocation : Nat → String → Int
  shader1 : ShaderEnv
  shader2 : ShaderEnv
  diffuseImage : Option IplImage
  normalImage : Option IplImage
  fboName : Nat
  rbName : Nat
  scene : SceneValues F
  events : List (Event M)

/-- Lines 156-159 of `main`: the value given to `useDeferredShading`; `argv` is the whole
argument vector (program name first), `argc` its length. -/
def main_useDeferredShading (atoi : String → Int) (argv : List String) : Bool :=
  let useDeferredShading := false
  if argv.length > 1 then
    if atoi (argv.getD 1 "") > 0 then true else useDeferredShading
  else useDeferredShading

/-- Embedding of `initGL`. -/
def initGL : List (Call F M) :=
  [.glClearColor, .glEnableDepthTest]

/-- The globals after lines 156-191 of `main`: the pipeline mode is chosen, the window size
is set and both matrix stacks hold the identity. -/
def main_globals [GlmOps M] (atoi : String → Int) (argv : List String) : State F M :=
  let s : State F M :=
    { State.initial F M with useDeferredShading := main_useDeferredShading atoi argv }
  let s := { s with windowWidth := 512, windowHeight := 512 }
  let s := { s with glm_ProjectionMatrix := GlmOps.identity :: s.glm_ProjectionMatrix }
  { s with glm_ModelViewMatrix := GlmOps.identity :: s.glm_ModelViewMatrix }

/-- Lines 156-198 of `main`: everything before the render loop is entered (window creation
through GLUT and GLEW is not recorded). -/
def main_init [GlmOps M] (env : MainEnv F M) (argv : List String) :
    Option (State F M × List (Call F M)) :=
  let s : State F M := main_globals env.atoi argv
  let c0 : List (Call F M) := initGL
  let (s, c1) := initShader env.glGetUniformLocation env.shader1 env.shader2 s
  match initTextures env.diffuseImage env.normalImage s with
  | none => none
  | some (s, c2) =>
    let (s, c3) :=
      if s.useDeferredShading then initFBO env.glGetUniformLocation env.fboName env.rbName s
      else (s, [])
    let (s, c4) := initScene env.scene s
    some (s, c0 ++ c1 ++ c2 ++ c3 ++ c4)

/-- Embedding of `main`, for the finite prefix `env.events` of callbacks delivered by
`glutMainLoop`. -/
def main [GlmOps M] (env : MainEnv F M) (argv : List String) : Outcome F M :=
  match main_init env argv with
  | none => .undefined
  | some (s, c) =>
    match enableShader 0 s with
    | none => .undefined
    | some (true, c5) =>
      match mainLoop env.events s with
      | .undefined => .undefined
      | .exit c6 => .exit (c ++ c5 ++ Call.glutMainLoop :: c6)
      | .running s c6 => .running s (c ++ c5 ++ Call.glutMainLoop :: c6)
    | some (false, c5) => .exit (c ++ c5)

/-! ## Observations on call traces -/

/-- The keys of `uniformLocations_Lights` accessed, in order. -/
def lightSlotKeys : List (Call F M) → List String
  | [] => []
  | .lightSlot key :: rest => key :: lightSlotKeys rest
  | _ :: rest => lightSlotKeys rest

/-- The values passed to `glUniform1i`, in order. -/
def uniform1iValues : List (Call F M) → List Int
  | [] => []
  | .glUniform1i _ value :: rest => value :: uniform1iValues rest
  | _ :: rest => uniform1iValues rest

/-- Whether the call is a draw call, that is a `render()` of some mesh. -/
def Call.isRender : Call F M → Bool
  | .render _ => true
  | _ => false

/-- Whether the call draws the scene mesh (one grid placement). -/
def Call.isSceneDraw : Call F M → Bool
  | .render .sceneObject => true
  | _ => false

/-- Whether the call binds a framebuffer. -/
def Call.isBindFramebuffer : Call F M → Bool
  | .glBindFramebuffer _ => true
  | _ => false

/-- Whether the call is one of those `setupLightAndMaterial` issues: a light slot access or a
`glUniform3fv` / `glUniform1f` / `glUniform1i` upload. -/
def Call.isShadingUpload : Call F M → Bool
  | .lightSlot _ => true
  | .glUniform3fv _ _ => true
  | .glUniform1f _ _ => true
  | .glUniform1i _ _ => true
  | _ => false

/-- The keys `light_0, ..., light_9` under which the loops of `initShader` store the
locations of the shader's ten light slots. -/
def registeredLightKeys : List String :=
  (List.range 10).map (fun (i : Nat) => lightKey (Int.ofNat i))

/-- Whether the call attaches a shader to a program or links a program. -/
def Call.isAttachOrLink : Call F M → Bool
  | .glAttachShader _ _ => true
  | .glLinkProgram _ => true
  | _ => false

/-- What `setupLightAndMaterial` issues for the enabled light `p.2` that is number `p.1`
among the enabled lights: the access to slot `light_(p.1)` and the five uploads to the
locations stored there. -/
def slotUpload (s : State F M) (p : Nat × LightSource F) : List (Call F M) :=
  Call.lightSlot (lightKey (p.1 : Int)) ::
    uploadLight (s.uniformLocations_Lights (lightKey (p.1 : Int))) p.2

/-! ## Texture registry: sequences of calls and handle validity -/

/-- One call of a texture constructor, with the decoding outcome for `createTextureFromFile`. -/
inductive TextureOp where
  | createEmpty (texID : String) (width height : Nat)
  | createFromFile (image : Option IplImage) (texID fileName : String)
deriving DecidableEq

/-- The state after one texture constructor call. -/
def TextureOp.run (op : TextureOp) (s : State F M) : Option (State F M) :=
  match op with
  | .createEmpty texID width height => some (createEmptyTexture texID width height s).1
  | .createFromFile image texID fileName =>
    match createTextureFromFile image texID fileName s with
    | none => none
    | some (s, _) => some s

/-- The state after a sequence of texture constructor calls. -/
def runTextureOps : List TextureOp → State F M → Option (State F M)
  | [], s => some s
  | op :: rest, s =>
    match op.run s with
    | none => none
    | some s1 => runTextureOps rest s1

/-- A texture handle is valid when it is non-zero and was generated by `glGenTextures`
(the driver has handed out the names `1, ..., textureNames`). -/
def validHandle (s : State F M) (t : Texture) : Prop :=
  t.glTextureLocation ≠ 0 ∧ t.glTextureLocation ≤ s.textureNames

/-- Along the run of `ops` from `s`, every `createTextureFromFile` whose decoding fails
targets an entry whose `glTextureLocation` is still zero. -/
def failedDecodesHitUnsetEntries : List TextureOp → State F M → Prop
  | [], _ => True
  | op :: rest, s =>
    (match op with
      | .createFromFile none texID _ => (s.textures texID).glTextureLocation = 0
      | _ => True) ∧
    (match op.run s with
      | some s1 => failedDecodesHitUnsetEntries rest s1
      | none => True)

/-! ## Frames: well-formed states, expected call lists, intermediate program points -/

/-- The conditions under which rendering a frame has defined behaviour: the model-view stack
is not empty, `lightCount` does not exceed the size of `lights`, the number of enabled
lights fits into `int`, and `materialIndex` is an index into `materials`. -/
def FrameReady (s : State F M) : Prop :=
  s.glm_ModelViewMatrix ≠ [] ∧
  s.lightCount ≤ s.lights.length ∧
  ((((s.lights.take s.lightCount).filter (·.enabled)).length : Nat) : Int) ≤ INT_MAX ∧
  s.materialIndex < s.materials.length

/-- Every prefix of the statement list runs from `s` without undefined behaviour, and at the
program point it reaches the model-view stack has at least `d` entries. -/
def StackNeverBelow (d : Nat) (steps : List (Step F M)) (s : State F M) : Prop :=
  ∀ n, ∃ s1 c, runSteps (steps.take n) s = some (s1, c) ∧ d ≤ s1.glm_ModelViewMatrix.length

/-! ### Bindings and storage read off a call trace -/

/-- The framebuffer bound to `GL_FRAMEBUFFER` after the call when `bound` was bound before. -/
def Call.framebufferAfter (bound : Nat) : Call F M → Nat
  | .glBindFramebuffer framebuffer => framebuffer
  | _ => bound

/-- The framebuffer bound to `GL_FRAMEBUFFER` after the calls when `bound` was bound before. -/
def boundFramebuffer (bound : Nat) (calls : List (Call F M)) : Nat :=
  calls.foldl Call.framebufferAfter bound

/-- The program in use after the call when `bound` was in use before. -/
def Call.programAfter (bound : Nat) : Call F M → Nat
  | .glUseProgram program => program
  | _ => bound

/-- The program in use after the calls when `bound` was in use before. -/
def boundProgram (bound : Nat) (calls : List (Call F M)) : Nat :=
  calls.foldl Call.programAfter bound

/-- Storage allocated through a binding point: the object bound there and, in program order,
`(object, width, height)` for every allocation. -/
structure StorageLog where
  bound : Nat
  allocated : List (Nat × Nat × Nat)
deriving DecidableEq

/-- Effect of one call on the 2D texture binding and the texture images allocated. -/
def Call.textureStorageAfter (log : StorageLog) : Call F M → StorageLog
  | .glBindTexture texture => { log with bound := texture }
  | .glTexImage2D_RGBA32F width height =>
    { log with allocated := log.allocated ++ [(log.bound, width, height)] }
  | .glTexImage2D_RGB width height _ =>
    { log with allocated := log.allocated ++ [(log.bound, width, height)] }
  | _ => log

/-- The `(texture, width, height)` of the texture images the calls allocate, starting with
texture `bound` bound. -/
def textureStorage (bound : Nat) (calls : List (Call F M)) : List (Nat × Nat × Nat) :=
  (calls.foldl Call.textureStorageAfter ⟨bound, []⟩).allocated

/-- Effect of one call on the render-buffer binding and the render-buffer storage allocated. -/
def Call.renderbufferStorageAfter (log : StorageLog) : Call F M → StorageLog
  | .glBindRenderbuffer renderbuffer => { log with bound := renderbuffer }
  | .glRenderbufferStorage width height =>
    { log with allocated := log.allocated ++ [(log.bound, width, height)] }
  | _ => log

/-- The `(renderbuffer, width, height)` of the render-buffer storage the calls allocate,
starting with render buffer `bound` bound. -/
def renderbufferStorage (bound : Nat) (calls : List (Call F M)) : List (Nat × Nat × Nat) :=
  (calls.foldl Call.renderbufferStorageAfter ⟨bound, []⟩).allocated

/-- The `(color attachment, texture)` pairs of the `glFramebufferTexture2D` calls. -/
def colorAttachments (calls : List (Call F M)) : List (Nat × Nat) :=
  calls.filterMap (fun c =>
    match c with
    | .glFramebufferTexture2D attachment texture => some (attachment, texture)
    | _ => none)

/-- The render buffers attached as depth attachment by `glFramebufferRenderbuffer` calls. -/
def depthAttachments (calls : List (Call F M)) : List Nat :=
  calls.filterMap (fun c =>
    match c with
    | .glFramebufferRenderbuffer renderbuffer => some renderbuffer
    | _ => none)

/-- The shader objects the calls create: the non-zero results of `glCreateShader`. -/
def createdShaders (calls : List (Call F M)) : List Nat :=
  calls.filterMap (fun c =>
    match c with
    | .glCreateShader _ result => if result = 0 then none else some result
    | _ => none)

/-- The shader objects the calls pass to `glDeleteShader`. -/
def deletedShaders (calls : List (Call F M)) : List Nat :=
  calls.filterMap (fun c =>
    match c with
    | .glDeleteShader shader => some shader
    | _ => none)

/-- Whether the call belongs to the render loop: `glutMainLoop` itself, or a call that only
the callbacks issue (`render()`, `glutSwapBuffers`, `glutPostRedisplay`). -/
def Call.isLoopCall : Call F M → Bool
  | .glutMainLoop => true
  | .render _ => true
  | .glutSwapBuffers => true
  | .glutPostRedisplay => true
  | _ => false

/-- None of the calls belongs to the render loop. -/
def NoLoopCalls (calls : List (Call F M)) : Prop :=
  ∀ c ∈ calls, c.isLoopCall = false

/-- The calls issued up to the point the outcome describes (none are known after undefined
behaviour). -/
def Outcome.calls : Outcome F M → List (Call F M)
  | .undefined => []
  | .exit calls => calls
  | .running _ calls => calls

/-- The handle `enableShader()` tests before `main` enters the render loop. -/
def firstPassProgram (s : State F M) : Nat :=
  if s.useDeferredShading then s.shaderPass.1 else s.shaderProgram

/-- The programs the calls select with `glUseProgram`, in order. -/
def usedPrograms (calls : List (Call F M)) : List Nat :=
  calls.filterMap (fun c =>
    match c with
    | .glUseProgram program => some program
    | _ => none)

/-- The programs `renderScene` selects in one frame: `shaderProgram` in forward mode,
`shaderPass[0]` then `shaderPass[1]` in deferred mode. -/
def framePrograms (s : State F M) : List Nat :=
  if s.useDeferredShading then [s.shaderPass.1, s.shaderPass.2] else [s.shaderProgram]

/-- The program in use when `setupLightAndMaterial` runs: `shaderProgram` in forward mode,
`shaderPass[1]` in deferred mode. -/
def shadingProgram (s : State F M) : Nat :=
  if s.useDeferredShading then s.shaderPass.2 else s.shaderProgram

/-- The globals that `initShader` sets and no callback assigns: the pipeline mode, the
program handles and the two maps of uniform locations. -/
def State.shaderSetup (s : State F M) :
    Bool × Nat × (Nat × Nat) × (String → Int) × (String → UniformLocation_Light) :=
  (s.useDeferredShading, s.shaderProgram, s.shaderPass, s.uniformLocations,
    s.uniformLocations_Lights)

/-- Every prefix of the statement list runs from `s` without undefined behaviour, and `P`
holds of the state at the program point it reaches. -/
def AtEveryPoint (P : State F M → Prop) (steps : List (Step F M)) (s : State F M) : Prop :=
  ∀ n, ∃ s1 c, runSteps (steps.take n) s = some (s1, c) ∧ P s1

/-- The model-view stack is `base`, or `base` with one more entry pushed on top. -/
def StackOnBase (base : List M) (s : State F M) : Prop :=
  s.glm_ModelViewMatrix = base ∨ ∃ m, s.glm_ModelViewMatrix = m :: base

/-- The calls of one grid placement `(x, y)` when the top of the model-view stack is `t`. -/
def placementCalls [GlmOps M] (s : State F M) (t : M) (x y : Int) : List (Call F M) :=
  [ .glUniformMatrix4fv (s.uniformLocations "modelview")
      (GlmOps.mul (GlmOps.mul t (GlmOps.translate x 0 y)) (GlmOps.scale 2)),
    .render .sceneObject ]

/-- The calls of the whole grid loop when the top of the model-view stack is `t`. -/
def gridCalls [GlmOps M] (s : State F M) (t : M) : List (Call F M) :=
  (intRange (-10) 11).flatMap (fun y => (intRange (-10) 11).flatMap (fun x => placementCalls s t x y))

/-- The calls of `bindTextureSteps texID unit`. -/
def bindTextureCalls (s : State F M) (texID : String) (unit : Nat) : List (Call F M) :=
  [ .glActiveTexture unit,
    .glBindTexture (s.textures texID).glTextureLocation,
    .glUniform1i (s.textures texID).uniformLocation unit ]

/-- The calls of a forward-mode `renderScene` with stack top `t` and light/material calls `setup`. -/
def forwardCalls [GlmOps M] (s : State F M) (t : M) (setup : List (Call F M)) : List (Call F M) :=
  [ .glUseProgram s.shaderProgram, .glUniformMatrix4fv (s.uniformLocations "view") t ] ++ setup ++
    bindTextureCalls s "diffuse" 0 ++ bindTextureCalls s "normal" 1 ++ gridCalls s t

/-- The calls of pass 1 of a deferred-mode `renderScene`, up to and including the grid loop. -/
def geometryPassCalls [GlmOps M] (s : State F M) (t : M) : List (Call F M) :=
  [ .glUseProgram s.shaderPass.1, .glBindFramebuffer s.fbo, .glDrawBuffers [0, 1, 2] ] ++
    bindTextureCalls s "normal" 0 ++ [ .glClear ] ++ gridCalls s t ++
    [ .glUseProgram s.shaderPass.2 ]

/-- The calls of a deferred-mode `renderScene` after `glBindFramebuffer(GL_FRAMEBUFFER, 0)`. -/
def compositePassCalls [GlmOps M] (s : State F M) (t : M) (setup : List (Call F M)) :
    List (Call F M) :=
  [ .glUniformMatrix4fv (s.uniformLocations "projection_p1") GlmOps.ortho01,
    .glUniformMatrix4fv (s.uniformLocations "modelview_p1") GlmOps.identity,
    .glUniformMatrix4fv (s.uniformLocations "view_p1") t ] ++ setup ++
    bindTextureCalls s "diffuse" 0 ++ bindTextureCalls s "def_vertexMap" 1 ++
    bindTextureCalls s "def_normalMap" 2 ++ bindTextureCalls s "def_texCoordMap" 3 ++
    (if !s.screenQuad then [ .screenQuadSetData ] else []) ++ [ .render .screenQuad ]

/-- The handles of the three G-buffer textures. -/
def gBufferHandles (s : State F M) : List Nat :=
  [ (s.textures "def_vertexMap").glTextureLocation,
    (s.textures "def_normalMap").glTextureLocation,
    (s.textures "def_texCoordMap").glTextureLocation ]

/-- What holds of the globals whenever a callback of the render loop starts: both matrix
stacks are non-empty, the light and material indices are in range, at most ten lights are
counted, and in deferred mode the handle of the normal map is none of the G-buffer
handles.  It implies `FrameReady`. -/
def RunReady (s : State F M) : Prop :=
  s.glm_ModelViewMatrix ≠ [] ∧
  s.glm_ProjectionMatrix ≠ [] ∧
  s.lightCount ≤ s.lights.length ∧
  s.lightCount ≤ 10 ∧
  s.materialIndex < s.materials.length ∧
  s.materialCount ≤ s.materials.length ∧
  (s.useDeferredShading = true →
    (s.textures "normal").glTextureLocation ∉ gBufferHandles s)

/-- The statement leaves `useDeferredShading` as it is. -/
def KeepsMode (st : Step F M) : Prop :=
  ∀ s s1 c, st s = some (s1, c) → s1.useDeferredShading = s.useDeferredShading

/-- The index of the light a digit key stands for: digit `d` in `1..9` is light `d` (index
`d - 1`), digit `0` is light 10 (index 9). -/
def digitLight (d : Nat) : Nat :=
  if d = 0 then 9 else d - 1

/-! ## Example inputs -/

/-- Matrices as formal expressions over the `glm` operations; `camera n` stands for a matrix
supplied by the camera. -/
inductive SymMat where
  | identity
  | translate (x y z : Int)
  | scale (k : Int)
  | ortho01
  | camera (n : Nat)
  | mul (a b : SymMat)
deriving DecidableEq

instance : GlmOps SymMat :=
  { mul := SymMat.mul, identity := SymMat.identity, translate := SymMat.translate,
    scale := SymMat.scale, ortho01 := SymMat.ortho01 }

/-- A light that differs from the others only in its position `(i, i, i)`. -/
def exampleLight (i : Nat) (enabled : Bool) : LightSource Nat :=
  { enabled := enabled, ambient_color := ⟨0, 0, 0⟩, diffuse_color := ⟨1, 1, 1⟩,
    specular_color := ⟨1, 1, 1⟩, position := ⟨i, i, i⟩, power := 7 }

/-- A material. -/
def exampleMaterial : Material Nat :=
  { ambient_color := ⟨1, 1, 1⟩, diffuse_color := ⟨1, 1, 1⟩, specular_color := ⟨1, 1, 1⟩,
    specular_shininess := 5 }

/-- Ten lights of which those with index 1, 3 and 5 are enabled, one material, and light
slots whose locations are `5 j + 1, ..., 5 j + 5` for the keys `light_j` with `j < 3`. -/
def exampleLights135 : State Nat SymMat :=
  { State.initial Nat SymMat with
    lights := (List.range 10).map (fun i => exampleLight i (decide (i = 1 ∨ i = 3 ∨ i = 5))),
    lightCount := 10,
    materials := [exampleMaterial],
    materialCount := 1,
    glm_ModelViewMatrix := [.camera 1],
    glm_ProjectionMatrix := [.camera 0],
    uniformLocations := fun key => if key = "usedLightCount" then 100 else 50,
    uniformLocations_Lights := fun key =>
      if key = "light_0" then ⟨1, 2, 3, 4, 5⟩
      else if key = "light_1" then ⟨6, 7, 8, 9, 10⟩
      else if key = "light_2" then ⟨11, 12, 13, 14, 15⟩
      else ⟨0, 0, 0, 0, 0⟩ }

/-- The calls `initTextures` and `initFBO` make, in the case that decoding `normals.jpg` fails. -/
def exampleTextureOps : List TextureOp :=
  [ .createFromFile (some ⟨4, 4, 48⟩) "diffuse" "../textures/diffuse.jpg",
    .createFromFile none "normal" "../textures/normals.jpg",
    .createEmpty "def_vertexMap" 512 512,
    .createEmpty "def_normalMap" 512 512,
    .createEmpty "def_texCoordMap" 512 512 ]

/-- A render target is created and a failing image load then targets the same entry. -/
def exampleReloadOps : List TextureOp :=
  [ .createEmpty "def_vertexMap" 512 512,
    .createFromFile none "def_vertexMap" "missing.jpg" ]

/-- Scene values for the examples: light `i` is placed at `(i, 3, i)`. -/
def exampleScene : SceneValues Nat :=
  { white := ⟨1, 1, 1⟩, shininess := 5, lightAmbient := ⟨0, 0, 0⟩, lightPower := 1,
    lightPosition := fun i => ⟨i, 3, i⟩ }

/-- A `glGetUniformLocation` for the examples: in program `p` the uniform `name` has the
location `100 p + (length of name)`, so that locations of different programs differ. -/
def exampleLocations : Nat → String → Int :=
  fun program name => 100 * (program : Int) + (name.length : Int)

/-- An environment in which the program and the vertex shader are created (handles 7 and 8)
but the fragment shader source cannot be opened. -/
def exampleMissingFragment : ShaderEnv :=
  { files := fun name => if name = "../shader/normal_mapping.vert" then some "void main() {}" else none,
    glCreateProgram := 7,
    glCreateShader := fun ty => match ty with
      | .GL_VERTEX_SHADER => 8
      | .GL_FRAGMENT_SHADER => 9,
    shaderInfoLogLength := fun _ => 0,
    programInfoLogLength := 0 }

/-- An environment in which both stages are created (handles 8 and 9) from existing source
files, the program gets handle `program` and linking reports an empty log. -/
def exampleShaderEnv (program : Nat) : ShaderEnv :=
  { files := fun _ => some "void main() {}",
    glCreateProgram := program,
    glCreateShader := fun ty => match ty with
      | .GL_VERTEX_SHADER => 8
      | .GL_FRAGMENT_SHADER => 9,
    shaderInfoLogLength := fun _ => 0,
    programInfoLogLength := 0 }

/-- A stand-in for `atoi` on the arguments used in the examples. -/
def exampleAtoi : String → Int :=
  fun arg => if arg = "1" then 1 else if arg = "-1" then -1 else 0

/-- A complete environment for `main`: everything succeeds; the user presses `3` and `m`,
then one frame is displayed. -/
def exampleEnv : MainEnv Nat SymMat :=
  { atoi := exampleAtoi,
    glGetUniformLocation := exampleLocations,
    shader1 := exampleShaderEnv 1,
    shader2 := exampleShaderEnv 2,
    diffuseImage := some ⟨4, 4, 48⟩,
    normalImage := some ⟨4, 4, 48⟩,
    fboName := 1,
    rbName := 1,
    scene := exampleScene,
    events := [.keyboard '3', .keyboard 'm', .display (.camera 0) (.camera 1)] }

/-- The state in which the render loop starts when the program is run with the argument `1`
in the example environment (deferred mode): programs 1 and 2, framebuffer 1, image textures
1 and 2, G-buffer textures 3, 4 and 5, ten enabled lights. -/
def exampleDeferred : State Nat SymMat :=
  match main_init exampleEnv ["Ex09", "1"] with
  | some (s, _) => s
  | none => State.initial Nat SymMat

/-- An environment in which the program (handle 7) and both stages (handles 8 and 9) are
created from existing source files, both compiler logs have length 12 and the linker log has
length 5. -/
def exampleLinkFailure : ShaderEnv :=
  { files := fun _ => some "void main() {}",
    glCreateProgram := 7,
    glCreateShader := fun ty => match ty with
      | .GL_VERTEX_SHADER => 8
      | .GL_FRAGMENT_SHADER => 9,
    shaderInfoLogLength := fun _ => 12,
    programInfoLogLength := 5 }

/-- An environment in which the first program cannot be created (its fragment shader source
is missing); GLUT would deliver a display event and an idle event. -/
def exampleNoProgramEnv : MainEnv Nat SymMat :=
  { exampleEnv with
    shader1 := exampleMissingFragment,
    events := [.display (.camera 0) (.camera 1), .idle] }

/-- An environment in which the first program is created and the second fails at link time;
a frame is displayed, the user presses `3`, presses the left mouse button and drags, and
another frame is displayed. -/
def exampleSecondLinkFailureEnv : MainEnv Nat SymMat :=
  { exampleEnv with
    shader2 := exampleLinkFailure,
    events := [.display (.camera 0) (.camera 1), .keyboard '3', .mouse 0 0 5 5, .motion 6 5,
      .display (.camera 2) (.camera 3)] }

/-- The state in which the render loop starts when the program is run with the argument `1`
and the second program fails at link time: `shaderPass` is `(1, 0)`. -/
def exampleLinkFailureStart : State Nat SymMat :=
  match main_init exampleSecondLinkFailureEnv ["Ex09", "1"] with
  | some (s, _) => s
  | none => State.initial Nat SymMat

end Embedding

/-! ## Auxiliary lemmas -/

section Lemmas

variable {F M : Type}

theorem setupLights_range (s : State F M) :
    ∀ (n k j : Nat), k + n ≤ s.lights.length →
      ((j + (((s.lights.drop k).take n).filter (·.enabled)).length : Nat) : Int) ≤ INT_MAX →
      setupLights s (List.range' k n) (j : Int) =
        some (((j + (((s.lights.drop k).take n).filter (·.enabled)).length : Nat) : Int),
          ((((s.lights.drop k).take n).filter (·.enabled)).enumFrom j).flatMap (slotUpload s)) := by
  intro n
  induction n with
  | zero => intro k j _ _; simp [setupLights]
  | succ n ih =>
    intro k j hk hj
    have hlt : k < s.lights.length := by omega
    have hdrop : s.lights.drop k = s.lights[k] :: s.lights.drop (k + 1) :=
      List.drop_eq_getElem_cons hlt
    rw [List.range'_succ, setupLights, List.getElem?_eq_getElem hlt]
    simp only [hdrop, List.take_succ_cons] at hj ⊢
    by_cases hen : s.lights[k].enabled = true
    · simp only [hen, List.filter_cons_of_pos, List.length_cons, if_true] at hj ⊢
      have hj1 : ¬ ((j : Int) + 1 > INT_MAX) := by
        have : ((j + 1 : Nat) : Int) ≤ INT_MAX := by
          refine le_trans ?_ hj
          exact_mod_cast (by omega)
        push_cast at this
        omega
      have hj2 : ((j + 1 + (((s.lights.drop (k + 1)).take n).filter (·.enabled)).length : Nat) : Int)
          ≤ INT_MAX := by
        refine le_trans ?_ hj
        exact_mod_cast (by omega)
      have := ih (k + 1) (j + 1) (by omega) hj2
      rw [if_neg hj1]
      have hcast : ((j : Int) + 1) = ((j + 1 : Nat) : Int) := by push_cast; rfl
      rw [hcast, this]
      simp only [List.enumFrom_cons, List.flatMap_cons, slotUpload, List.cons_append,
        Option.some.injEq, Prod.mk.injEq, and_true]
      congr 1
      omega
    · simp only [hen, Bool.false_eq_true, if_false, List.filter_cons_of_neg,
        not_false_eq_true] at hj ⊢
      exact ih (k + 1) j (by omega) hj

theorem set_getElem_same {α : Type} (l : List α) (i : Nat) (h : i < l.length) :
    l.set i l[i] = l := by
  apply List.ext_getElem?
  intro j
  by_cases hj : i = j
  · subst hj; simp [List.getElem?_set_self h, List.getElem?_eq_getElem h]
  · simp [List.getElem?_set, hj]

/-- What `createTextureFromFile` does when no buffer is allocated on entry. -/
theorem createTextureFromFile_cases (image : Option IplImage) (texID fileName : String)
    (s s1 : State F M) (c : List (Call F M)) (hlive : s.heap.live = [])
    (h : createTextureFromFile image texID fileName s = some (s1, c)) :
    s1.heap.live = [] ∧
    (∀ id, id ≠ texID → s1.textures id = s.textures id) ∧
    ((∃ img p, image = some img ∧ (s.textures texID).data = none ∧
        s1.textureNames = s.textureNames + 1 ∧
        s1.textures texID = { s.textures texID with
          width := img.width, height := img.height, data := some p, isInitialized := true,
          glTextureLocation := s.textureNames + 1 } ∧ p = s.heap.count + 1) ∨
     (image = none ∧ (s.textures texID).data = none ∧ s1.textureNames = s.textureNames ∧
        s1.textures texID = { s.textures texID with isInitialized := false })) := by
  rcases hs : s.heap with ⟨live, count⟩
  simp only [hs] at hlive
  subst hlive
  cases image with
  | none =>
    cases hd : (s.textures texID).data with
    | none =>
      simp only [createTextureFromFile, loadTextureData, hd, hs] at h
      simp only [Option.some.injEq, Prod.mk.injEq] at h
      obtain ⟨rfl, -⟩ := h
      refine ⟨?_, ?_, Or.inr ⟨rfl, rfl, ?_, ?_⟩⟩
      · simp [State.setTexture]
      · intro id hid; simp [State.setTexture, Function.update, hid]
      · simp [State.setTexture]
      · simp [State.setTexture, hd]
    | some p =>
      simp [createTextureFromFile, loadTextureData, hd, hs, Heap.free] at h
  | some img =>
    cases hd : (s.textures texID).data with
    | none =>
      simp only [createTextureFromFile, loadTextureData, hd, hs, Heap.alloc, Heap.free,
        List.mem_cons, true_or, if_true, List.erase_cons_head] at h
      simp only [Option.some.injEq, Prod.mk.injEq] at h
      obtain ⟨rfl, -⟩ := h
      refine ⟨?_, ?_, Or.inl ⟨img, count + 1, rfl, rfl, ?_, ?_, ?_⟩⟩
      · simp [State.setTexture]
      · intro id hid; simp [State.setTexture, Function.update, hid]
      · simp [State.setTexture]
      · simp [State.setTexture]
      · simp [hs]
    | some p =>
      simp [createTextureFromFile, loadTextureData, hd, hs, Heap.free] at h

/-- Effect of one texture constructor call on the fields the handle invariant talks about. -/
theorem TextureOp.run_effect (op : TextureOp) (s s1 : State F M) (hlive : s.heap.live = [])
    (h : op.run s = some s1) :
    s1.heap.live = [] ∧
    ∃ texID, (∀ id, id ≠ texID → s1.textures id = s.textures id) ∧
      (((s1.textures texID).isInitialized = true ∧
          (s1.textures texID).glTextureLocation = s.textureNames + 1 ∧
          s1.textureNames = s.textureNames + 1) ∨
       ((∃ fileName, op = .createFromFile none texID fileName) ∧
          (s1.textures texID).isInitialized = false ∧
          (s1.textures texID).glTextureLocation = (s.textures texID).glTextureLocation ∧
          s1.textureNames = s.textureNames)) := by
  cases op with
  | createEmpty texID width height =>
    simp only [TextureOp.run, Option.some.injEq] at h
    subst h
    refine ⟨by simpa [createEmptyTexture, State.setTexture] using hlive, texID, ?_, Or.inl ?_⟩
    · intro id hid; simp [createEmptyTexture, State.setTexture, Function.update, hid]
    · simp [createEmptyTexture, State.setTexture]
  | createFromFile image texID fileName =>
    simp only [TextureOp.run] at h
    cases hc : createTextureFromFile image texID fileName s with
    | none => simp [hc] at h
    | some r =>
      obtain ⟨s2, c⟩ := r
      simp only [hc, Option.some.injEq] at h
      subst h
      obtain ⟨h1, h2, h3⟩ := createTextureFromFile_cases image texID fileName s s2 c hlive hc
      refine ⟨h1, texID, h2, ?_⟩
      rcases h3 with ⟨img, p, rfl, -, hn, ht, -⟩ | ⟨rfl, -, hn, ht⟩
      · exact Or.inl ⟨by rw [ht], by rw [ht], hn⟩
      · exact Or.inr ⟨⟨fileName, rfl⟩, by rw [ht], by rw [ht], hn⟩

/-- Along any defined run of texture constructor calls that starts with no buffer allocated,
handles stay within the generated names and an initialised entry has a non-zero handle. -/
theorem runTextureOps_initialized_valid (ops : List TextureOp) :
    ∀ (s s1 : State F M), s.heap.live = [] →
      (∀ id, (s.textures id).glTextureLocation ≤ s.textureNames ∧
        ((s.textures id).isInitialized = true → (s.textures id).glTextureLocation ≠ 0)) →
      runTextureOps ops s = some s1 →
      s1.heap.live = [] ∧
      (∀ id, (s1.textures id).glTextureLocation ≤ s1.textureNames ∧
        ((s1.textures id).isInitialized = true → (s1.textures id).glTextureLocation ≠ 0)) := by
  induction ops with
  | nil =>
    intro s s1 hl hi h
    simp only [runTextureOps, Option.some.injEq] at h
    subst h
    exact ⟨hl, hi⟩
  | cons op rest ih =>
    intro s s1 hl hi h
    simp only [runTextureOps] at h
    cases hr : op.run s with
    | none => simp [hr] at h
    | some s2 =>
      simp only [hr] at h
      obtain ⟨hl2, texID, hother, htarget⟩ := TextureOp.run_effect op s s2 hl hr
      refine ih s2 s1 hl2 ?_ h
      intro id
      by_cases hid : id = texID
      · subst hid
        rcases htarget with ⟨_, hloc, hn⟩ | ⟨_, hinit, hloc, hn⟩
        · rw [hloc, hn]; exact ⟨le_refl _, fun _ => by omega⟩
        · rw [hloc, hn, hinit]; exact ⟨(hi id).1, fun hf => by simp at hf⟩
      · rw [hother id hid]
        refine ⟨le_trans (hi id).1 ?_, (hi id).2⟩
        rcases htarget with ⟨_, _, hn⟩ | ⟨_, _, _, hn⟩ <;> omega

/-- When, in addition, failing decodes only hit entries without a handle, a non-zero handle
implies an initialised entry. -/
theorem runTextureOps_valid_initialized (ops : List TextureOp) :
    ∀ (s s1 : State F M), s.heap.live = [] →
      (∀ id, (s.textures id).glTextureLocation ≠ 0 → (s.textures id).isInitialized = true) →
      failedDecodesHitUnsetEntries ops s →
      runTextureOps ops s = some s1 →
      (∀ id, (s1.textures id).glTextureLocation ≠ 0 → (s1.textures id).isInitialized = true) := by
  induction ops with
  | nil =>
    intro s s1 _ hi _ h
    simp only [runTextureOps, Option.some.injEq] at h
    subst h
    exact hi
  | cons op rest ih =>
    intro s s1 hl hi hf h
    simp only [runTextureOps] at h
    cases hr : op.run s with
    | none => simp [hr] at h
    | some s2 =>
      simp only [hr] at h
      obtain ⟨hl2, texID, hother, htarget⟩ := TextureOp.run_effect op s s2 hl hr
      simp only [failedDecodesHitUnsetEntries, hr] at hf
      refine ih s2 s1 hl2 ?_ hf.2 h
      intro id
      by_cases hid : id = texID
      · subst hid
        rcases htarget with ⟨hinit, _, _⟩ | ⟨⟨fileName, hop⟩, _, hloc, _⟩
        · exact fun _ => hinit
        · subst hop
          have h0 := hf.1
          simp only at h0
          intro hne
          exact absurd (hloc.trans h0) hne
      · rw [hother id hid]
        exact hi id

/-! ### Running statement lists -/

theorem runSteps_append (a b : List (Step F M)) (s : State F M) :
    runSteps (a ++ b) s =
      match runSteps a s with
      | none => none
      | some (s1, c1) =>
        match runSteps b s1 with
        | none => none
        | some (s2, c2) => some (s2, c1 ++ c2) := by
  induction a generalizing s with
  | nil =>
    simp only [List.nil_append, runSteps, List.nil_append]
    cases runSteps b s with
    | none => rfl
    | some r => rfl
  | cons st rest ih =>
    rw [List.cons_append]
    simp only [runSteps]
    cases st s with
    | none => rfl
    | some r =>
      obtain ⟨s1, c1⟩ := r
      simp only []
      rw [ih s1]
      cases runSteps rest s1 with
      | none => rfl
      | some r2 =>
        obtain ⟨s2, c2⟩ := r2
        simp only []
        cases runSteps b s2 with
        | none => rfl
        | some r3 => simp [List.append_assoc]

theorem runSteps_append_some (a b : List (Step F M)) (s s1 s2 : State F M)
    (c1 c2 : List (Call F M)) (ha : runSteps a s = some (s1, c1))
    (hb : runSteps b s1 = some (s2, c2)) :
    runSteps (a ++ b) s = some (s2, c1 ++ c2) := by
  rw [runSteps_append, ha]
  simp only [hb]

/-- A loop whose body returns to the state it started from. -/
theorem runSteps_flatMap {α : Type} (l : List α) (body : α → List (Step F M))
    (out : α → List (Call F M)) (s : State F M)
    (h : ∀ a ∈ l, runSteps (body a) s = some (s, out a)) :
    runSteps (l.flatMap body) s = some (s, l.flatMap out) := by
  induction l with
  | nil => rfl
  | cons a rest ih =>
    rw [List.flatMap_cons, List.flatMap_cons]
    exact runSteps_append_some _ _ s s s _ _ (h a (List.mem_cons_self a rest))
      (ih (fun b hb => h b (List.mem_cons_of_mem a hb)))

theorem State.eta_modelView (s : State F M) (l : List M) (h : s.glm_ModelViewMatrix = l) :
    { s with glm_ModelViewMatrix := l } = s := by
  subst h
  rfl

theorem gridBody_run [GlmOps M] (s : State F M) (t : M) (rest : List M) (x y : Int)
    (hs : s.glm_ModelViewMatrix = t :: rest) :
    runSteps (gridBody x y) s = some (s, placementCalls s t x y) := by
  simp only [gridBody, runSteps, mvPushTop, mvMulTop, mvUploadTop, emit, mvPop, hs,
    List.nil_append, List.append_nil, List.cons_append, placementCalls]
  rw [State.eta_modelView s _ hs]

theorem gridLoop_run [GlmOps M] (s : State F M) (t : M) (rest : List M)
    (hs : s.glm_ModelViewMatrix = t :: rest) :
    runSteps gridLoop s = some (s, gridCalls s t) := by
  unfold gridLoop gridCalls
  apply runSteps_flatMap
  intro y _
  apply runSteps_flatMap
  intro x _
  exact gridBody_run s t rest x y hs

theorem bindTextureSteps_run (s : State F M) (texID : String) (unit : Nat) :
    runSteps (bindTextureSteps texID unit) s = some (s, bindTextureCalls s texID unit) := by
  simp [bindTextureSteps, runSteps, emit, bindTextureCalls]

theorem setupLightAndMaterial_defined (s : State F M) (h : FrameReady s) :
    ∃ setup, setupLightAndMaterial s = some setup := by
  obtain ⟨-, hcount, hint, hmat⟩ := h
  have h1 := setupLights_range s s.lightCount 0 0 (by omega) (by simpa using hint)
  simp only [List.drop_zero, Nat.zero_add, Nat.cast_zero] at h1
  rw [setupLightAndMaterial, List.range_eq_range', h1]
  simp only [List.getElem?_eq_getElem hmat]
  exact ⟨_, rfl⟩

theorem renderScene_forward [GlmOps M] (s : State F M) (t : M) (rest : List M)
    (setup : List (Call F M)) (hmode : s.useDeferredShading = false)
    (hs : s.glm_ModelViewMatrix = t :: rest) (hsetup : setupLightAndMaterial s = some setup) :
    renderScene s = some (s, forwardCalls s t setup) := by
  unfold renderScene renderSceneSteps forwardCalls
  simp only [hmode, Bool.not_false, if_true]
  refine runSteps_append_some _ _ s s s _ _ ?_ (gridLoop_run s t rest hs)
  refine runSteps_append_some _ _ s s s _ _ ?_ (bindTextureSteps_run s "normal" 1)
  refine runSteps_append_some _ _ s s s _ _ ?_ (bindTextureSteps_run s "diffuse" 0)
  simp [runSteps, emit, mvUploadTop, hs, setupLightAndMaterialStep, hsetup]

theorem ensureScreenQuad_run (s : State F M) :
    runSteps [ensureScreenQuad, emit (fun _ => Call.render Mesh.screenQuad)] s =
      some ({ s with screenQuad := true },
        (if !s.screenQuad then [Call.screenQuadSetData] else []) ++ [Call.render Mesh.screenQuad]) := by
  cases hq : s.screenQuad with
  | false => simp [runSteps, ensureScreenQuad, emit, hq]
  | true =>
    simp only [runSteps, ensureScreenQuad, emit, hq, Bool.not_true, Bool.false_eq_true, if_false,
      List.nil_append, List.append_nil, Option.some.injEq, Prod.mk.injEq, and_true]
    cases s
    simp only [State.mk.injEq, true_and, and_true] at hq ⊢
    simp [hq]

theorem renderScene_deferred [GlmOps M] (s : State F M) (t : M) (rest : List M)
    (setup : List (Call F M)) (hmode : s.useDeferredShading = true)
    (hs : s.glm_ModelViewMatrix = t :: rest) (hsetup : setupLightAndMaterial s = some setup) :
    renderScene s = some ({ s with screenQuad := true },
      geometryPassCalls s t ++ Call.glBindFramebuffer 0 :: compositePassCalls s t setup) := by
  unfold renderScene renderSceneSteps
  simp only [hmode, Bool.not_true, Bool.false_eq_true, if_false]
  have hA : runSteps ([ emit (fun s => Call.glUseProgram s.shaderPass.1),
      emit (fun s => Call.glBindFramebuffer s.fbo),
      emit (fun _ => Call.glDrawBuffers [0, 1, 2]) ] ++
      bindTextureSteps "normal" 0 ++ [ emit (fun _ => Call.glClear) ] ++ gridLoop) s =
      some (s, [ Call.glUseProgram s.shaderPass.1, Call.glBindFramebuffer s.fbo,
        Call.glDrawBuffers [0, 1, 2] ] ++ bindTextureCalls s "normal" 0 ++ [ Call.glClear ] ++
        gridCalls s t) := by
    refine runSteps_append_some _ _ s s s _ _ ?_ (gridLoop_run s t rest hs)
    refine runSteps_append_some _ _ s s s _ _ ?_ (by simp [runSteps, emit])
    refine runSteps_append_some _ _ s s s _ _ ?_ (bindTextureSteps_run s "normal" 0)
    simp [runSteps, emit]
  have hB : runSteps ([ emit (fun s => Call.glUseProgram s.shaderPass.2),
      emit (fun _ => Call.glBindFramebuffer 0),
      emit (fun s => Call.glUniformMatrix4fv (s.uniformLocations "projection_p1") GlmOps.ortho01),
      emit (fun s => Call.glUniformMatrix4fv (s.uniformLocations "modelview_p1") GlmOps.identity),
      mvUploadTop "view_p1",
      setupLightAndMaterialStep ] : List (Step F M)) s =
      some (s, [ Call.glUseProgram s.shaderPass.2, Call.glBindFramebuffer 0,
        Call.glUniformMatrix4fv (s.uniformLocations "projection_p1") GlmOps.ortho01,
        Call.glUniformMatrix4fv (s.uniformLocations "modelview_p1") GlmOps.identity,
        Call.glUniformMatrix4fv (s.uniformLocations "view_p1") t ] ++ setup) := by
    simp [runSteps, emit, mvUploadTop, hs, setupLightAndMaterialStep, hsetup]
  have hAll := runSteps_append_some _ _ s s _ _ _
    (runSteps_append_some _ _ s s s _ _
      (runSteps_append_some _ _ s s s _ _
        (runSteps_append_some _ _ s s s _ _
          (runSteps_append_some _ _ s s s _ _
            (runSteps_append_some _ _ s s s _ _ hA hB)
            (bindTextureSteps_run s "diffuse" 0))
          (bindTextureSteps_run s "def_vertexMap" 1))
        (bindTextureSteps_run s "def_normalMap" 2))
      (bindTextureSteps_run s "def_texCoordMap" 3))
    (ensureScreenQuad_run s)
  rw [hAll]
  simp [geometryPassCalls, compositePassCalls, List.append_assoc, hmode]

/-! ### Counting calls -/

theorem countP_flatMap_const {α β : Type} (p : β → Bool) (l : List α) (f : α → List β) (k : Nat)
    (h : ∀ a, (f a).countP p = k) : (l.flatMap f).countP p = l.length * k := by
  induction l with
  | nil => simp
  | cons a rest ih =>
    rw [List.flatMap_cons, List.countP_append, ih, h a, List.length_cons]
    ring

theorem intRange_length : (intRange (-10) 11).length = 21 := by
  unfold intRange
  rw [List.length_map, List.length_range]
  rfl

theorem countP_eq_zero_of_forall {β : Type} (p q : β → Bool) (l : List β)
    (hq : ∀ c ∈ l, q c = true) (hpq : ∀ c, q c = true → p c = false) : l.countP p = 0 := by
  rw [List.countP_eq_zero]
  intro c hc
  simp [hpq c (hq c hc)]

theorem setupLights_calls (s : State F M) :
    ∀ (l : List Nat) (idx n : Int) (calls : List (Call F M)),
      setupLights s l idx = some (n, calls) → ∀ c ∈ calls, c.isShadingUpload = true := by
  intro l
  induction l with
  | nil =>
    intro idx n calls h c hc
    simp only [setupLights, Option.some.injEq, Prod.mk.injEq] at h
    rw [← h.2] at hc
    simp at hc
  | cons i rest ih =>
    intro idx n calls h c hc
    simp only [setupLights] at h
    cases hl : s.lights[i]? with
    | none => simp [hl] at h
    | some l =>
      simp only [hl] at h
      by_cases hen : l.enabled = true
      · simp only [hen, if_true] at h
        by_cases hov : idx + 1 > INT_MAX
        · simp [hov] at h
        · simp only [hov, if_false] at h
          cases hr : setupLights s rest (idx + 1) with
          | none => simp [hr] at h
          | some r =>
            obtain ⟨n1, calls1⟩ := r
            simp only [hr, Option.some.injEq, Prod.mk.injEq] at h
            rw [← h.2] at hc
            simp only [List.mem_cons, List.mem_append, uploadLight] at hc
            rcases hc with rfl | hc | hc
            · rfl
            · simp only [List.mem_cons, List.mem_singleton, List.not_mem_nil, or_false] at hc
              rcases hc with rfl | rfl | rfl | rfl | rfl <;> rfl
            · exact ih _ _ _ hr c hc
      · simp only [hen, Bool.false_eq_true, if_false] at h
        exact ih _ _ _ h c hc

theorem setupLightAndMaterial_calls (s : State F M) (setup : List (Call F M))
    (h : setupLightAndMaterial s = some setup) : ∀ c ∈ setup, c.isShadingUpload = true := by
  intro c hc
  simp only [setupLightAndMaterial] at h
  cases hr : setupLights s (List.range s.lightCount) 0 with
  | none => simp [hr] at h
  | some r =>
    obtain ⟨n, calls⟩ := r
    simp only [hr] at h
    cases hm : s.materials[s.materialIndex]? with
    | none => simp [hm] at h
    | some m =>
      simp only [hm, Option.some.injEq] at h
      rw [← h] at hc
      simp only [List.mem_append, List.mem_cons, uploadMaterial] at hc
      rcases hc with hc | rfl | hc
      · exact setupLights_calls s _ _ _ _ hr c hc
      · rfl
      · simp only [List.not_mem_nil, or_false] at hc
        rcases hc with rfl | rfl | rfl | rfl <;> rfl

theorem gridCalls_countP_isRender [GlmOps M] (s : State F M) (t : M) :
    (gridCalls s t).countP Call.isRender = 441 := by
  unfold gridCalls
  rw [countP_flatMap_const Call.isRender _ _ 21, intRange_length]
  intro y
  rw [countP_flatMap_const Call.isRender _ _ 1, intRange_length]
  intro x
  rfl

theorem gridCalls_countP_isSceneDraw [GlmOps M] (s : State F M) (t : M) :
    (gridCalls s t).countP Call.isSceneDraw = 441 := by
  unfold gridCalls
  rw [countP_flatMap_const Call.isSceneDraw _ _ 21, intRange_length]
  intro y
  rw [countP_flatMap_const Call.isSceneDraw _ _ 1, intRange_length]
  intro x
  rfl

theorem frameReady_stack (s : State F M) (h : FrameReady s) :
    ∃ t rest, s.glm_ModelViewMatrix = t :: rest := by
  obtain ⟨hne, -⟩ := h
  cases hs : s.glm_ModelViewMatrix with
  | nil => exact absurd hs hne
  | cons t rest => exact ⟨t, rest, rfl⟩

/-! ### Intermediate program points -/

theorem runSteps_pure (l : List (Step F M)) (s : State F M)
    (h : ∀ st ∈ l, ∃ c, st s = some (s, c)) : ∃ c, runSteps l s = some (s, c) := by
  induction l with
  | nil => exact ⟨[], rfl⟩
  | cons st rest ih =>
    obtain ⟨c1, h1⟩ := h st (List.mem_cons_self st rest)
    obtain ⟨c2, h2⟩ := ih (fun st2 h2 => h st2 (List.mem_cons_of_mem st h2))
    exact ⟨c1 ++ c2, by simp [runSteps, h1, h2]⟩

theorem stackNeverBelow_pure (d : Nat) (l : List (Step F M)) (s : State F M)
    (hd : d ≤ s.glm_ModelViewMatrix.length) (h : ∀ st ∈ l, ∃ c, st s = some (s, c)) :
    StackNeverBelow d l s := by
  intro n
  obtain ⟨c, hc⟩ := runSteps_pure (l.take n) s (fun st hst => h st (List.mem_of_mem_take hst))
  exact ⟨s, c, hc, hd⟩

theorem stackNeverBelow_append (d : Nat) (a b : List (Step F M)) (s s1 : State F M)
    (c1 : List (Call F M)) (ha : StackNeverBelow d a s) (hrun : runSteps a s = some (s1, c1))
    (hb : StackNeverBelow d b s1) : StackNeverBelow d (a ++ b) s := by
  intro n
  rw [List.take_append_eq_append_take]
  by_cases hn : n ≤ a.length
  · obtain ⟨s2, c2, h2, hd⟩ := ha n
    have h0 : n - a.length = 0 := by omega
    rw [h0, List.take_zero, List.append_nil]
    exact ⟨s2, c2, h2, hd⟩
  · obtain ⟨s2, c2, h2, hd⟩ := hb (n - a.length)
    rw [List.take_of_length_le (by omega)]
    exact ⟨s2, c1 ++ c2, runSteps_append_some _ _ s s1 s2 c1 c2 hrun h2, hd⟩

theorem stackNeverBelow_flatMap {α : Type} (d : Nat) (l : List α) (body : α → List (Step F M))
    (s : State F M) (hd : d ≤ s.glm_ModelViewMatrix.length)
    (h : ∀ a ∈ l, StackNeverBelow d (body a) s ∧ ∃ c, runSteps (body a) s = some (s, c)) :
    StackNeverBelow d (l.flatMap body) s ∧ ∃ c, runSteps (l.flatMap body) s = some (s, c) := by
  induction l with
  | nil =>
    refine ⟨fun n => ⟨s, [], ?_, hd⟩, [], rfl⟩
    simp [runSteps]
  | cons a rest ih =>
    obtain ⟨h1, c1, hc1⟩ := h a (List.mem_cons_self a rest)
    obtain ⟨h2, c2, hc2⟩ := ih (fun b hb => h b (List.mem_cons_of_mem a hb))
    rw [List.flatMap_cons]
    exact ⟨stackNeverBelow_append d _ _ s s c1 h1 hc1 h2,
      c1 ++ c2, runSteps_append_some _ _ s s s c1 c2 hc1 hc2⟩

theorem gridBody_stackNeverBelow [GlmOps M] (s : State F M) (t : M) (rest : List M) (x y : Int)
    (hs : s.glm_ModelViewMatrix = t :: rest) :
    StackNeverBelow s.glm_ModelViewMatrix.length (gridBody x y) s := by
  intro n
  rcases n with _ | _ | _ | _ | _ | _ | n
  · exact ⟨s, [], rfl, le_refl _⟩
  · exact ⟨_, _, by simp [gridBody, runSteps, mvPushTop, hs]; exact ⟨rfl, rfl⟩, by simp [hs]⟩
  · exact ⟨_, _, by simp [gridBody, runSteps, mvPushTop, mvMulTop, hs]; exact ⟨rfl, rfl⟩,
      by simp [hs]⟩
  · exact ⟨_, _, by simp [gridBody, runSteps, mvPushTop, mvMulTop, hs]; exact ⟨rfl, rfl⟩,
      by simp [hs]⟩
  · exact ⟨_, _, by simp [gridBody, runSteps, mvPushTop, mvMulTop, mvUploadTop, hs]; exact ⟨rfl, rfl⟩,
      by simp [hs]⟩
  · exact ⟨_, _, by simp [gridBody, runSteps, mvPushTop, mvMulTop, mvUploadTop, emit, hs]; exact ⟨rfl, rfl⟩,
      by simp [hs]⟩
  · refine ⟨s, placementCalls s t x y, ?_, le_refl _⟩
    rw [List.take_of_length_le (by simp [gridBody])]
    exact gridBody_run s t rest x y hs

theorem gridLoop_stackNeverBelow [GlmOps M] (s : State F M) (t : M) (rest : List M)
    (hs : s.glm_ModelViewMatrix = t :: rest) :
    StackNeverBelow s.glm_ModelViewMatrix.length gridLoop s := by
  unfold gridLoop
  refine (stackNeverBelow_flatMap _ _ _ s (le_refl _) ?_).1
  intro y _
  refine stackNeverBelow_flatMap _ _ _ s (le_refl _) ?_
  intro x _
  exact ⟨gridBody_stackNeverBelow s t rest x y hs, _, gridBody_run s t rest x y hs⟩

theorem stackNeverBelow_pure_append (d : Nat) (l rest : List (Step F M)) (s : State F M)
    (hd : d ≤ s.glm_ModelViewMatrix.length) (h : ∀ st ∈ l, ∃ c, st s = some (s, c))
    (hrest : StackNeverBelow d rest s) : StackNeverBelow d (l ++ rest) s := by
  obtain ⟨c, hc⟩ := runSteps_pure l s h
  exact stackNeverBelow_append d l rest s s c (stackNeverBelow_pure d l s hd h) hc hrest

theorem bindTextureSteps_pure (s : State F M) (texID : String) (unit : Nat) :
    ∀ st ∈ bindTextureSteps texID unit, ∃ c, st s = some (s, c) := by
  intro st hst
  simp only [bindTextureSteps, List.mem_cons, List.mem_singleton, List.not_mem_nil,
    or_false] at hst
  rcases hst with rfl | rfl | rfl <;> exact ⟨_, rfl⟩

theorem screenQuadSteps_stackNeverBelow (s : State F M) :
    StackNeverBelow s.glm_ModelViewMatrix.length
      [ensureScreenQuad, emit (fun _ => Call.render Mesh.screenQuad)] s := by
  intro n
  rcases n with _ | _ | n
  · exact ⟨s, [], rfl, le_refl _⟩
  · cases hq : s.screenQuad with
    | false =>
      exact ⟨{ s with screenQuad := true }, [Call.screenQuadSetData],
        by simp [runSteps, ensureScreenQuad, hq], le_refl _⟩
    | true => exact ⟨s, [], by simp [runSteps, ensureScreenQuad, hq], le_refl _⟩
  · refine ⟨{ s with screenQuad := true },
      (if !s.screenQuad then [Call.screenQuadSetData] else []) ++ [Call.render Mesh.screenQuad],
      ?_, le_refl _⟩
    rw [List.take_of_length_le (by simp)]
    exact ensureScreenQuad_run s

theorem renderSceneSteps_stackNeverBelow [GlmOps M] (s : State F M) (t : M) (rest : List M)
    (setup : List (Call F M)) (hs : s.glm_ModelViewMatrix = t :: rest)
    (hsetup : setupLightAndMaterial s = some setup) :
    StackNeverBelow s.glm_ModelViewMatrix.length (renderSceneSteps s.useDeferredShading) s := by
  have hview : ∀ key, ∃ c, mvUploadTop key s = some (s, c) := fun key =>
    ⟨[Call.glUniformMatrix4fv (s.uniformLocations key) t], by simp [mvUploadTop, hs]⟩
  have hset : ∃ c, setupLightAndMaterialStep s = some (s, c) :=
    ⟨setup, by simp [setupLightAndMaterialStep, hsetup]⟩
  unfold renderSceneSteps
  cases s.useDeferredShading with
  | false =>
    simp only [Bool.not_false, if_true, List.append_assoc]
    refine stackNeverBelow_pure_append _ _ _ s (le_refl _) ?_ ?_
    · intro st hst
      simp only [List.mem_cons, List.mem_singleton, List.not_mem_nil, or_false] at hst
      rcases hst with rfl | rfl | rfl
      · exact ⟨_, rfl⟩
      · exact hview _
      · exact hset
    refine stackNeverBelow_pure_append _ _ _ s (le_refl _) (bindTextureSteps_pure s _ _) ?_
    refine stackNeverBelow_pure_append _ _ _ s (le_refl _) (bindTextureSteps_pure s _ _) ?_
    exact gridLoop_stackNeverBelow s t rest hs
  | true =>
    simp only [Bool.not_true, Bool.false_eq_true, if_false, List.append_assoc]
    refine stackNeverBelow_pure_append _ _ _ s (le_refl _) ?_ ?_
    · intro st hst
      simp only [List.mem_cons, List.mem_singleton, List.not_mem_nil, or_false] at hst
      rcases hst with rfl | rfl | rfl <;> exact ⟨_, rfl⟩
    refine stackNeverBelow_pure_append _ _ _ s (le_refl _) (bindTextureSteps_pure s _ _) ?_
    refine stackNeverBelow_pure_append _ _ _ s (le_refl _) ?_ ?_
    · intro st hst
      simp only [List.mem_singleton] at hst
      subst hst
      exact ⟨_, rfl⟩
    refine stackNeverBelow_append _ _ _ s s _ (gridLoop_stackNeverBelow s t rest hs)
      (gridLoop_run s t rest hs) ?_
    refine stackNeverBelow_pure_append _ _ _ s (le_refl _) ?_ ?_
    · intro st hst
      simp only [List.mem_cons, List.mem_singleton, List.not_mem_nil, or_false] at hst
      rcases hst with rfl | rfl | rfl | rfl | rfl | rfl
      · exact ⟨_, rfl⟩
      · exact ⟨_, rfl⟩
      · exact ⟨_, rfl⟩
      · exact ⟨_, rfl⟩
      · exact hview _
      · exact hset
    refine stackNeverBelow_pure_append _ _ _ s (le_refl _) (bindTextureSteps_pure s _ _) ?_
    refine stackNeverBelow_pure_append _ _ _ s (le_refl _) (bindTextureSteps_pure s _ _) ?_
    refine stackNeverBelow_pure_append _ _ _ s (le_refl _) (bindTextureSteps_pure s _ _) ?_
    refine stackNeverBelow_pure_append _ _ _ s (le_refl _) (bindTextureSteps_pure s _ _) ?_
    exact screenQuadSteps_stackNeverBelow s

/-! ### Shape of one frame -/

theorem bindTextureCalls_countP_isRender (s : State F M) (texID : String) (unit : Nat) :
    (bindTextureCalls s texID unit).countP Call.isRender = 0 := rfl

theorem bindTextureCalls_countP_isSceneDraw (s : State F M) (texID : String) (unit : Nat) :
    (bindTextureCalls s texID unit).countP Call.isSceneDraw = 0 := rfl

theorem bindTextureCalls_countP_isBindFramebuffer (s : State F M) (texID : String) (unit : Nat) :
    (bindTextureCalls s texID unit).countP Call.isBindFramebuffer = 0 := rfl

theorem setup_countP_isRender (setup : List (Call F M))
    (h : ∀ c ∈ setup, c.isShadingUpload = true) : setup.countP Call.isRender = 0 :=
  countP_eq_zero_of_forall _ _ setup h (fun c hc => by cases c <;> simp_all [Call.isShadingUpload, Call.isRender])

theorem setup_countP_isSceneDraw (setup : List (Call F M))
    (h : ∀ c ∈ setup, c.isShadingUpload = true) : setup.countP Call.isSceneDraw = 0 :=
  countP_eq_zero_of_forall _ _ setup h (fun c hc => by cases c <;> simp_all [Call.isShadingUpload, Call.isSceneDraw])

theorem setup_countP_isBindFramebuffer (setup : List (Call F M))
    (h : ∀ c ∈ setup, c.isShadingUpload = true) : setup.countP Call.isBindFramebuffer = 0 :=
  countP_eq_zero_of_forall _ _ setup h
    (fun c hc => by cases c <;> simp_all [Call.isShadingUpload, Call.isBindFramebuffer])

theorem forwardCalls_counts [GlmOps M] (s : State F M) (t : M) (setup : List (Call F M))
    (h : ∀ c ∈ setup, c.isShadingUpload = true) :
    (forwardCalls s t setup).countP Call.isSceneDraw = 441 ∧
    (forwardCalls s t setup).countP Call.isRender = 441 := by
  unfold forwardCalls
  simp only [List.countP_append, gridCalls_countP_isRender, gridCalls_countP_isSceneDraw,
    bindTextureCalls_countP_isRender, bindTextureCalls_countP_isSceneDraw,
    setup_countP_isRender setup h, setup_countP_isSceneDraw setup h]
  exact ⟨rfl, rfl⟩

theorem geometryPassCalls_counts [GlmOps M] (s : State F M) (t : M) :
    (geometryPassCalls s t).countP Call.isSceneDraw = 441 ∧
    (geometryPassCalls s t).countP Call.isRender = 441 := by
  unfold geometryPassCalls
  simp only [List.countP_append, gridCalls_countP_isRender, gridCalls_countP_isSceneDraw,
    bindTextureCalls_countP_isRender, bindTextureCalls_countP_isSceneDraw]
  exact ⟨rfl, rfl⟩

theorem compositePassCalls_counts [GlmOps M] (s : State F M) (t : M) (setup : List (Call F M))
    (h : ∀ c ∈ setup, c.isShadingUpload = true) :
    (compositePassCalls s t setup).countP Call.isSceneDraw = 0 ∧
    (compositePassCalls s t setup).countP Call.isRender = 1 ∧
    (compositePassCalls s t setup).countP Call.isBindFramebuffer = 0 := by
  unfold compositePassCalls
  simp only [List.countP_append, bindTextureCalls_countP_isRender,
    bindTextureCalls_countP_isSceneDraw, bindTextureCalls_countP_isBindFramebuffer,
    setup_countP_isRender setup h, setup_countP_isSceneDraw setup h,
    setup_countP_isBindFramebuffer setup h]
  cases s.screenQuad <;> exact ⟨rfl, rfl, rfl⟩

theorem mem_gridCalls [GlmOps M] (s : State F M) (t : M) (c : Call F M)
    (hc : c ∈ gridCalls s t) : (∃ m, c = Call.glUniformMatrix4fv (s.uniformLocations "modelview") m) ∨
      c = Call.render Mesh.sceneObject := by
  simp only [gridCalls, List.mem_flatMap, placementCalls, List.mem_cons, List.mem_singleton,
    List.not_mem_nil, or_false] at hc
  obtain ⟨y, -, x, -, h | h⟩ := hc
  · exact Or.inl ⟨_, h⟩
  · exact Or.inr h

theorem bindTexture_mem_geometryPassCalls [GlmOps M] (s : State F M) (t : M) (h : Nat)
    (hc : Call.glBindTexture h ∈ geometryPassCalls s t) :
    h = (s.textures "normal").glTextureLocation := by
  simp only [geometryPassCalls, bindTextureCalls, List.mem_append, List.mem_cons,
    List.mem_singleton, List.not_mem_nil, or_false, Call.glBindTexture.injEq] at hc
  rcases hc with ((((h1 | h1 | h1) | h1 | h1 | h1) | h1) | h1) | h1
  all_goals first
    | exact h1
    | exact absurd h1 (by simp)
    | (rcases mem_gridCalls s t _ h1 with ⟨m, hm⟩ | hm <;> exact absurd hm (by simp))

theorem gBuffer_bind_mem_compositePassCalls [GlmOps M] (s : State F M) (t : M)
    (setup : List (Call F M)) (h : Nat) (hh : h ∈ gBufferHandles s) :
    Call.glBindTexture h ∈ compositePassCalls s t setup := by
  simp only [gBufferHandles, List.mem_cons, List.mem_singleton, List.not_mem_nil, or_false] at hh
  simp only [compositePassCalls, bindTextureCalls, List.mem_append, List.mem_cons,
    List.mem_singleton, Call.glBindTexture.injEq]
  rcases hh with rfl | rfl | rfl <;> simp

/-! ### Light slots -/

theorem lightSlotKeys_append (a b : List (Call F M)) :
    lightSlotKeys (a ++ b) = lightSlotKeys a ++ lightSlotKeys b := by
  induction a with
  | nil => rfl
  | cons c rest ih => cases c <;> simp [lightSlotKeys, ih]

theorem uniform1iValues_append (a b : List (Call F M)) :
    uniform1iValues (a ++ b) = uniform1iValues a ++ uniform1iValues b := by
  induction a with
  | nil => rfl
  | cons c rest ih => cases c <;> simp [uniform1iValues, ih]

theorem slotUploads_keys (s : State F M) (l : List (LightSource F)) :
    ∀ j : Nat, lightSlotKeys ((l.enumFrom j).flatMap (slotUpload s)) =
        (List.range' j l.length).map (fun (i : Nat) => lightKey (Int.ofNat i)) ∧
      uniform1iValues ((l.enumFrom j).flatMap (slotUpload s)) = [] := by
  induction l with
  | nil => intro j; exact ⟨rfl, rfl⟩
  | cons a rest ih =>
    intro j
    obtain ⟨h1, h2⟩ := ih (j + 1)
    simp only [List.enumFrom_cons, List.flatMap_cons, lightSlotKeys_append,
      uniform1iValues_append, h1, h2, List.length_cons, List.range'_succ, List.map_cons]
    exact ⟨rfl, rfl⟩

theorem storeLightLocations_lights (loc : Nat → String → Int) (program : Nat) (s : State F M) :
    ∀ key ∈ registeredLightKeys, ∃ i : Nat, i < 10 ∧ key = lightKey (Int.ofNat i) ∧
      (storeLightLocations loc program s).uniformLocations_Lights key =
        lightLocation loc program (Int.ofNat i) := by
  have hgen : ∀ (l : List Nat) (s : State F M) (key : String),
      key ∈ l.map (fun (i : Nat) => lightKey (Int.ofNat i)) →
      ∃ i ∈ l, key = lightKey (Int.ofNat i) ∧
        (l.foldl (fun s (i : Nat) => s.setLightLocation (lightKey (Int.ofNat i))
          (lightLocation loc program (Int.ofNat i))) s).uniformLocations_Lights key =
          lightLocation loc program (Int.ofNat i) := by
    intro l
    induction l using List.reverseRecOn with
    | nil => intro s key h; simp at h
    | append_singleton l a ih =>
      intro s key h
      rw [List.foldl_append]
      by_cases hk : key = lightKey (Int.ofNat a)
      · refine ⟨a, by simp, hk, ?_⟩
        simp only [List.foldl_cons, List.foldl_nil, State.setLightLocation, hk]
        rw [Function.update_same]
      · simp only [List.map_append, List.map_cons, List.map_nil, List.mem_append,
          List.mem_singleton, hk, or_false] at h
        obtain ⟨i, hi, hki, hv⟩ := ih s key h
        refine ⟨i, by simp [hi], hki, ?_⟩
        simp only [List.foldl_cons, List.foldl_nil, State.setLightLocation]
        rw [Function.update_noteq hk]
        exact hv
  intro key hkey
  obtain ⟨i, hi, hki, hv⟩ := hgen (List.range 10) s key hkey
  exact ⟨i, List.mem_range.mp hi, hki, hv⟩

theorem foldl_push_lights (f : Nat → LightSource F) (l : List Nat) :
    ∀ s : State F M, (l.foldl (fun s i => { s with lights := s.lights ++ [f i] }) s).lights =
      s.lights ++ l.map f := by
  induction l with
  | nil => intro s; simp
  | cons a rest ih => intro s; simp [List.foldl_cons, ih]

theorem initScene_lights (v : SceneValues F) (s : State F M) :
    (initScene v s).1.lights.length = s.lights.length + 10 ∧
    (initScene v s).1.lightCount = (s.lights.length + 10) % UINT_RANGE := by
  simp only [initScene, foldl_push_lights, List.length_append, List.length_map,
    List.length_range, and_self]

/-! ### Shader creation -/

theorem mem_loadShaderFile (env : ShaderEnv) (fileName : String) (shaderType : ShaderType)
    (c : Call F M) (hc : c ∈ (loadShaderFile (F := F) (M := M) env fileName shaderType).2) :
    c = .glCreateShader shaderType (env.glCreateShader shaderType) ∨
    (∃ src, c = .glShaderSource (env.glCreateShader shaderType) src) ∨
    c = .glCompileShader (env.glCreateShader shaderType) ∨
    c = .printCompilerLog (env.glCreateShader shaderType) := by
  simp only [loadShaderFile] at hc
  by_cases h0 : env.glCreateShader shaderType = 0
  · simp only [h0, if_true, List.mem_singleton] at hc
    rw [h0]
    exact Or.inl hc
  · cases hsrc : loadShaderSource env fileName with
    | none =>
      simp only [h0, if_false, hsrc, List.mem_singleton] at hc
      exact Or.inl hc
    | some src =>
      simp only [h0, if_false, hsrc, List.mem_append, List.mem_cons, List.mem_singleton,
        List.not_mem_nil, or_false] at hc
      rcases hc with (h | h | h) | h
      · exact Or.inl h
      · exact Or.inr (Or.inl ⟨src, h⟩)
      · exact Or.inr (Or.inr (Or.inl h))
      · split at h
        · simp only [List.mem_singleton] at h
          exact Or.inr (Or.inr (Or.inr h))
        · simp at h

theorem loadShaderFile_calls (env : ShaderEnv) (fileName : String) (shaderType : ShaderType) :
    ∀ c ∈ (loadShaderFile (F := F) (M := M) env fileName shaderType).2,
      c.isAttachOrLink = false := by
  intro c hc
  rcases mem_loadShaderFile env fileName shaderType c hc with rfl | ⟨src, rfl⟩ | rfl | rfl <;> rfl

theorem deleteShader_calls (s : State F M) :
    ∀ c ∈ (deleteShader s).2, c.isAttachOrLink = false := by
  intro c hc
  unfold deleteShader at hc
  split at hc
  · simp only [List.mem_cons, List.mem_singleton, List.not_mem_nil, or_false] at hc
    rcases hc with rfl | rfl <;> rfl
  · simp only [List.mem_cons, List.mem_singleton, List.not_mem_nil, or_false] at hc
    rcases hc with rfl | rfl | rfl <;> rfl

theorem loadShaderCode_failure (env : ShaderEnv) (vertProgramCode fragmentProgramCode : String)
    (s : State F M)
    (hfail : (loadShaderFile (F := F) (M := M) env vertProgramCode .GL_VERTEX_SHADER).1 = 0 ∨
      (loadShaderFile (F := F) (M := M) env fragmentProgramCode .GL_FRAGMENT_SHADER).1 = 0) :
    ∃ v f s1 c, loadShaderCode env vertProgramCode fragmentProgramCode s = ((false, v, f), s1, c) ∧
      ∀ x ∈ c, x.isAttachOrLink = false := by
  unfold loadShaderCode
  rcases hv : loadShaderFile (F := F) (M := M) env vertProgramCode .GL_VERTEX_SHADER with ⟨v, c1⟩
  rcases hf : loadShaderFile (F := F) (M := M) env fragmentProgramCode .GL_FRAGMENT_SHADER
    with ⟨f, c2⟩
  have h1 := loadShaderFile_calls (F := F) (M := M) env vertProgramCode .GL_VERTEX_SHADER
  have h2 := loadShaderFile_calls (F := F) (M := M) env fragmentProgramCode .GL_FRAGMENT_SHADER
  rw [hv] at h1 hfail
  rw [hf] at h2 hfail
  have h3 := deleteShader_calls s
  simp only at hfail h1 h2 ⊢
  by_cases hv0 : v = 0
  · refine ⟨v, f, (deleteShader s).1, c1 ++ c2 ++ (deleteShader s).2, by simp [hv0], ?_⟩
    intro x hx
    simp only [List.mem_append] at hx
    rcases hx with (hx | hx) | hx
    · exact h1 x hx
    · exact h2 x hx
    · exact h3 x hx
  · have hf0 : f = 0 := by
      rcases hfail with h | h
      · exact absurd h hv0
      · exact h
    refine ⟨v, f, (deleteShader s).1, c1 ++ c2 ++ (deleteShader s).2, by simp [hv0, hf0], ?_⟩
    intro x hx
    simp only [List.mem_append] at hx
    rcases hx with (hx | hx) | hx
    · exact h1 x hx
    · exact h2 x hx
    · exact h3 x hx

/-! ### The pipeline mode is never written after start-up -/

theorem runSteps_keepsMode (l : List (Step F M)) (h : ∀ st ∈ l, KeepsMode st) :
    ∀ s s1 c, runSteps l s = some (s1, c) → s1.useDeferredShading = s.useDeferredShading := by
  induction l with
  | nil =>
    intro s s1 c hrun
    simp only [runSteps, Option.some.injEq, Prod.mk.injEq] at hrun
    rw [← hrun.1]
  | cons st rest ih =>
    intro s s1 c hrun
    simp only [runSteps] at hrun
    cases hst : st s with
    | none => simp [hst] at hrun
    | some r =>
      obtain ⟨s2, c2⟩ := r
      simp only [hst] at hrun
      cases hrest : runSteps rest s2 with
      | none => simp [hrest] at hrun
      | some r3 =>
        obtain ⟨s3, c3⟩ := r3
        simp only [hrest, Option.some.injEq, Prod.mk.injEq] at hrun
        rw [← hrun.1, ih (fun st2 h2 => h st2 (List.mem_cons_of_mem st h2)) s2 s3 c3 hrest]
        exact h st (List.mem_cons_self st rest) s s2 c2 hst

theorem emit_keepsMode (f : State F M → Call F M) : KeepsMode (emit f) := by
  intro s s1 c h
  simp only [emit, Option.some.injEq, Prod.mk.injEq] at h
  rw [← h.1]

theorem mvPushTop_keepsMode : KeepsMode (mvPushTop (F := F) (M := M)) := by
  intro s s1 c h
  unfold mvPushTop at h
  split at h
  · simp at h
  · simp only [Option.some.injEq, Prod.mk.injEq] at h
    rw [← h.1]

theorem mvMulTop_keepsMode [GlmOps M] (m : M) : KeepsMode (mvMulTop (F := F) m) := by
  intro s s1 c h
  unfold mvMulTop at h
  split at h
  · simp at h
  · simp only [Option.some.injEq, Prod.mk.injEq] at h
    rw [← h.1]

theorem mvSetTop_keepsMode (m : M) : KeepsMode (mvSetTop (F := F) m) := by
  intro s s1 c h
  unfold mvSetTop at h
  split at h
  · simp at h
  · simp only [Option.some.injEq, Prod.mk.injEq] at h
    rw [← h.1]

theorem mvPop_keepsMode : KeepsMode (mvPop (F := F) (M := M)) := by
  intro s s1 c h
  unfold mvPop at h
  split at h
  · simp at h
  · simp only [Option.some.injEq, Prod.mk.injEq] at h
    rw [← h.1]

theorem mvUploadTop_keepsMode (key : String) : KeepsMode (mvUploadTop (F := F) (M := M) key) := by
  intro s s1 c h
  unfold mvUploadTop at h
  split at h
  · simp at h
  · simp only [Option.some.injEq, Prod.mk.injEq] at h
    rw [← h.1]

theorem projSetTop_keepsMode (m : M) : KeepsMode (projSetTop (F := F) m) := by
  intro s s1 c h
  unfold projSetTop at h
  split at h
  · simp at h
  · simp only [Option.some.injEq, Prod.mk.injEq] at h
    rw [← h.1]

theorem projUploadTop_keepsMode (key : String) :
    KeepsMode (projUploadTop (F := F) (M := M) key) := by
  intro s s1 c h
  unfold projUploadTop at h
  split at h
  · simp at h
  · simp only [Option.some.injEq, Prod.mk.injEq] at h
    rw [← h.1]

theorem setupLightAndMaterialStep_keepsMode :
    KeepsMode (setupLightAndMaterialStep (F := F) (M := M)) := by
  intro s s1 c h
  unfold setupLightAndMaterialStep at h
  split at h
  · simp at h
  · simp only [Option.some.injEq, Prod.mk.injEq] at h
    rw [← h.1]

theorem ensureScreenQuad_keepsMode : KeepsMode (ensureScreenQuad (F := F) (M := M)) := by
  intro s s1 c h
  unfold ensureScreenQuad at h
  split at h
  · simp only [Option.some.injEq, Prod.mk.injEq] at h
    rw [← h.1]
  · simp only [Option.some.injEq, Prod.mk.injEq] at h
    rw [← h.1]

theorem bindTextureSteps_keepsMode (texID : String) (unit : Nat) :
    ∀ st ∈ bindTextureSteps (F := F) (M := M) texID unit, KeepsMode st := by
  intro st hst
  simp only [bindTextureSteps, List.mem_cons, List.mem_singleton, List.not_mem_nil,
    or_false] at hst
  rcases hst with rfl | rfl | rfl <;> exact emit_keepsMode _

theorem gridLoop_keepsMode [GlmOps M] : ∀ st ∈ gridLoop (F := F) (M := M), KeepsMode st := by
  intro st hst
  simp only [gridLoop, List.mem_flatMap, gridBody, List.mem_cons, List.mem_singleton,
    List.not_mem_nil, or_false] at hst
  obtain ⟨y, -, x, -, h⟩ := hst
  rcases h with rfl | rfl | rfl | rfl | rfl | rfl
  · exact mvPushTop_keepsMode
  · exact mvMulTop_keepsMode _
  · exact mvMulTop_keepsMode _
  · exact mvUploadTop_keepsMode _
  · exact emit_keepsMode _
  · exact mvPop_keepsMode

theorem renderSceneSteps_keepsMode [GlmOps M] (d : Bool) :
    ∀ st ∈ renderSceneSteps (F := F) (M := M) d, KeepsMode st := by
  intro st hst
  cases d with
  | false =>
    simp only [renderSceneSteps, Bool.not_false, if_true, List.mem_append, List.mem_cons,
      List.mem_singleton, List.not_mem_nil, or_false] at hst
    rcases hst with (((rfl | rfl | rfl) | h) | h) | h
    · exact emit_keepsMode _
    · exact mvUploadTop_keepsMode _
    · exact setupLightAndMaterialStep_keepsMode
    · exact bindTextureSteps_keepsMode _ _ st h
    · exact bindTextureSteps_keepsMode _ _ st h
    · exact gridLoop_keepsMode st h
  | true =>
    simp only [renderSceneSteps, Bool.not_true, Bool.false_eq_true, if_false, List.mem_append,
      List.mem_cons, List.mem_singleton, List.not_mem_nil, or_false] at hst
    rcases hst with (((((((((rfl | rfl | rfl) | h) | rfl) | h) |
      (rfl | rfl | rfl | rfl | rfl | rfl)) | h) | h) | h) | h) | (rfl | rfl)
    all_goals first
      | exact emit_keepsMode _
      | exact mvUploadTop_keepsMode _
      | exact setupLightAndMaterialStep_keepsMode
      | exact ensureScreenQuad_keepsMode
      | exact bindTextureSteps_keepsMode _ _ st h
      | exact gridLoop_keepsMode st h

theorem updateGLSteps_keepsMode [GlmOps M] (projection modelview : M) (d : Bool) :
    ∀ st ∈ updateGLSteps (F := F) projection modelview d, KeepsMode st := by
  intro st hst
  simp only [updateGLSteps, List.mem_append, List.mem_cons, List.mem_singleton,
    List.not_mem_nil, or_false] at hst
  rcases hst with ((rfl | rfl | rfl | rfl | rfl) | h) | rfl
  · exact emit_keepsMode _
  · exact emit_keepsMode _
  · exact projSetTop_keepsMode _
  · exact projUploadTop_keepsMode _
  · exact mvSetTop_keepsMode _
  · exact renderSceneSteps_keepsMode d st h
  · exact emit_keepsMode _

theorem deleteShader_mode (s : State F M) :
    (deleteShader s).1.useDeferredShading = s.useDeferredShading := by
  unfold deleteShader
  split <;> rfl

theorem loadShaderCode_mode (env : ShaderEnv) (v f : String) (s : State F M) :
    (loadShaderCode env v f s).2.1.useDeferredShading = s.useDeferredShading := by
  simp only [loadShaderCode]
  split
  · exact deleteShader_mode s
  · split
    · exact deleteShader_mode s
    · rfl

theorem createShader_mode (env : ShaderEnv) (v f : String) (s : State F M) :
    (createShader env v f s).2.1.useDeferredShading = s.useDeferredShading := by
  have h := loadShaderCode_mode env v f s
  simp only [createShader]
  split
  · rfl
  · rcases hl : loadShaderCode env v f s with ⟨⟨b, vs, fs⟩, s1, c1⟩
    rw [hl] at h
    cases b with
    | false => exact h
    | true =>
      simp only
      rcases attachAndLink (F := F) (M := M) env env.glCreateProgram vs fs with ⟨b2, c2⟩
      cases b2 <;> exact h

theorem storeLightLocations_mode (loc : Nat → String → Int) (program : Nat) (s : State F M) :
    (storeLightLocations loc program s).useDeferredShading = s.useDeferredShading := by
  unfold storeLightLocations
  generalize List.range 10 = l
  induction l generalizing s with
  | nil => rfl
  | cons a rest ih => rw [List.foldl_cons, ih]; rfl

theorem initShader_mode (loc : Nat → String → Int) (env1 env2 : ShaderEnv) (s : State F M) :
    (initShader loc env1 env2 s).1.useDeferredShading = s.useDeferredShading := by
  unfold initShader
  cases hmode : s.useDeferredShading with
  | false =>
    have h1 := createShader_mode env1 "../shader/normal_mapping.vert"
      "../shader/normal_mapping.frag" s
    rcases hcs : createShader env1 "../shader/normal_mapping.vert"
      "../shader/normal_mapping.frag" s with ⟨p, s1, c1⟩
    rw [hcs] at h1
    simp only at h1
    simp only [Bool.not_false, if_true]
    split
    · exact h1.trans hmode
    · simp only [State.setUniform, State.setTextureUniform, State.setTexture,
        storeLightLocations_mode]
      exact h1.trans hmode
  | true =>
    have h1 := createShader_mode env1 "../shader/deferred_pass1.vert"
      "../shader/deferred_pass1.frag" s
    rcases hcs : createShader env1 "../shader/deferred_pass1.vert"
      "../shader/deferred_pass1.frag" s with ⟨p, s1, c1⟩
    rw [hcs] at h1
    simp only at h1
    simp only [Bool.not_true, Bool.false_eq_true, if_false]
    split
    · exact h1.trans hmode
    · have h2 := createShader_mode env2 "../shader/deferred_pass2.vert"
        "../shader/deferred_pass2.frag" { s1 with shaderPass := (p, s1.shaderPass.2) }
      rcases hcs2 : createShader env2 "../shader/deferred_pass2.vert"
        "../shader/deferred_pass2.frag" { s1 with shaderPass := (p, s1.shaderPass.2) }
        with ⟨p2, s2, c2⟩
      rw [hcs2] at h2
      simp only at h2
      simp only
      split
      · exact (h2.trans h1).trans hmode
      · simp only [State.setUniform, State.setTextureUniform, State.setTexture,
          storeLightLocations_mode]
        exact (h2.trans h1).trans hmode

theorem toggleLightSource_mode (i : Nat) (s s1 : State F M)
    (h : toggleLightSource i s = some s1) : s1.useDeferredShading = s.useDeferredShading := by
  unfold toggleLightSource at h
  split at h
  · split at h
    · simp at h
    · simp only [Option.some.injEq] at h
      rw [← h]
  · simp only [Option.some.injEq] at h
    rw [← h]

theorem toggle_outcome_mode (i : Nat) (s s1 : State F M) (c : List (Call F M))
    (h : (match toggleLightSource i s with
      | none => Outcome.undefined
      | some s => Outcome.running s [Call.glutPostRedisplay]) = Outcome.running s1 c) :
    s1.useDeferredShading = s.useDeferredShading := by
  cases ht : toggleLightSource i s with
  | none => simp [ht] at h
  | some s2 =>
    simp only [ht, Outcome.running.injEq] at h
    rw [← h.1]
    exact toggleLightSource_mode i s s2 ht

theorem keyboardEvent_mode (key : Char) (s s1 : State F M) (c : List (Call F M))
    (h : keyboardEvent key s = .running s1 c) : s1.useDeferredShading = s.useDeferredShading := by
  unfold keyboardEvent at h
  by_cases h1 : key = 'x' ∨ key = Char.ofNat 27
  · simp [h1] at h
  · rw [if_neg h1] at h
    by_cases h2 : key ∈ ['w', 's', 'a', 'd', 'z', 'h', 'r', 'f', 't', 'g']
    · rw [if_pos h2] at h
      simp only [Outcome.running.injEq] at h
      rw [← h.1]
    · rw [if_neg h2] at h
      by_cases h3 : key = 'm'
      · rw [if_pos h3] at h
        simp only [Outcome.running.injEq] at h
        rw [← h.1]
        split <;> rfl
      · rw [if_neg h3] at h
        by_cases h4 : key.isDigit = true
        · rw [if_pos h4] at h
          simp only at h
          split at h
          all_goals first
            | exact toggle_outcome_mode _ s s1 c h
            | (split at h
               all_goals first
                 | exact toggle_outcome_mode _ s s1 c h
                 | (simp only [Outcome.running.injEq] at h; rw [← h.1]))
        · rw [if_neg h4] at h
          simp only [Outcome.running.injEq] at h
          rw [← h.1]

theorem renderScene_mode [GlmOps M] (s s1 : State F M) (c : List (Call F M))
    (h : renderScene s = some (s1, c)) : s1.useDeferredShading = s.useDeferredShading :=
  runSteps_keepsMode _ (renderSceneSteps_keepsMode s.useDeferredShading) s s1 c h

theorem updateGL_mode [GlmOps M] (projection modelview : M) (s s1 : State F M)
    (c : List (Call F M)) (h : updateGL projection modelview s = some (s1, c)) :
    s1.useDeferredShading = s.useDeferredShading :=
  runSteps_keepsMode _ (updateGLSteps_keepsMode projection modelview s.useDeferredShading) s s1 c h

theorem dispatch_invariant [GlmOps M] (P : State F M → Prop)
    (hdisplay : ∀ s projection modelview s1 c, P s →
      updateGL projection modelview s = some (s1, c) → P s1)
    (hkey : ∀ s key s1 c, P s → keyboardEvent key s = .running s1 c → P s1)
    (e : Event M) (s s1 : State F M) (c : List (Call F M)) (hP : P s)
    (h : dispatch e s = .running s1 c) : P s1 := by
  cases e with
  | display projection modelview =>
    simp only [dispatch] at h
    cases hu : updateGL projection modelview s with
    | none => simp [hu] at h
    | some r =>
      obtain ⟨s3, c3⟩ := r
      simp only [hu, Outcome.running.injEq] at h
      rw [← h.1]
      exact hdisplay s projection modelview s3 c3 hP hu
  | idle =>
    simp only [dispatch, idle, Outcome.running.injEq] at h
    rw [← h.1]
    exact hP
  | keyboard k => exact hkey s k s1 c hP h
  | mouse button state x y =>
    simp only [dispatch, mouseEvent] at h
    split at h
    · simp at h
    · simp only [Outcome.running.injEq] at h
      rw [← h.1]
      exact hP
  | motion x y =>
    simp only [dispatch, mouseMoveEvent, Outcome.running.injEq] at h
    rw [← h.1]
    exact hP

theorem mainLoop_invariant [GlmOps M] (P : State F M → Prop)
    (hdisplay : ∀ s projection modelview s1 c, P s →
      updateGL projection modelview s = some (s1, c) → P s1)
    (hkey : ∀ s key s1 c, P s → keyboardEvent key s = .running s1 c → P s1)
    (events : List (Event M)) :
    ∀ (s s1 : State F M) (c : List (Call F M)), P s → mainLoop events s = .running s1 c →
      P s1 := by
  induction events with
  | nil =>
    intro s s1 c hP h
    simp only [mainLoop, Outcome.running.injEq] at h
    rw [← h.1]
    exact hP
  | cons e rest ih =>
    intro s s1 c hP h
    rw [mainLoop] at h
    cases hd : dispatch e s with
    | undefined => simp [hd] at h
    | exit c0 => simp [hd] at h
    | running s2 c2 =>
      simp only [hd] at h
      cases hrest : mainLoop rest s2 with
      | undefined => simp [hrest] at h
      | exit c3 => simp [hrest] at h
      | running s3 c3 =>
        simp only [hrest, Outcome.running.injEq] at h
        rw [← h.1]
        exact ih s2 s3 c3 (dispatch_invariant P hdisplay hkey e s s2 c2 hP hd) hrest

theorem mainLoop_mode [GlmOps M] (events : List (Event M)) :
    ∀ (s s1 : State F M) (c : List (Call F M)), mainLoop events s = .running s1 c →
      s1.useDeferredShading = s.useDeferredShading := by
  intro s s1 c h
  refine mainLoop_invariant (fun s2 => s2.useDeferredShading = s.useDeferredShading) ?_ ?_
    events s s1 c rfl h
  · intro s2 projection modelview s3 c3 hP hu
    exact (updateGL_mode projection modelview s2 s3 c3 hu).trans hP
  · intro s2 key s3 c3 hP hk
    exact (keyboardEvent_mode key s2 s3 c3 hk).trans hP

theorem createTextureFromFile_mode (image : Option IplImage) (texID fileName : String)
    (s s1 : State F M) (c : List (Call F M))
    (h : createTextureFromFile image texID fileName s = some (s1, c)) :
    s1.useDeferredShading = s.useDeferredShading := by
  unfold createTextureFromFile at h
  split at h
  · simp at h
  · split at h
    · split at h
      · simp at h
      · simp only [Option.some.injEq, Prod.mk.injEq] at h
        rw [← h.1]
        rfl
    · simp only [Option.some.injEq, Prod.mk.injEq] at h
      rw [← h.1]
      rfl

theorem initTextures_mode (diffuse normal : Option IplImage) (s s1 : State F M)
    (c : List (Call F M)) (h : initTextures diffuse normal s = some (s1, c)) :
    s1.useDeferredShading = s.useDeferredShading := by
  unfold initTextures at h
  cases h1 : createTextureFromFile diffuse "diffuse" "../textures/diffuse.jpg" s with
  | none => simp [h1] at h
  | some r1 =>
    obtain ⟨s2, c2⟩ := r1
    simp only [h1] at h
    cases h2 : createTextureFromFile normal "normal" "../textures/normals.jpg" s2 with
    | none => simp [h2] at h
    | some r2 =>
      obtain ⟨s3, c3⟩ := r2
      simp only [h2, Option.some.injEq, Prod.mk.injEq] at h
      rw [← h.1, createTextureFromFile_mode _ _ _ s2 s3 c3 h2,
        createTextureFromFile_mode _ _ _ s s2 c2 h1]

theorem initFBO_mode (loc : Nat → String → Int) (fboName rbName : Nat) (s : State F M) :
    (initFBO loc fboName rbName s).1.useDeferredShading = s.useDeferredShading := by
  simp [initFBO, createEmptyTexture, State.setTexture, State.setTextureUniform]

theorem initScene_mode (v : SceneValues F) (s : State F M) :
    (initScene v s).1.useDeferredShading = s.useDeferredShading := by
  have hfold : ∀ (f : Nat → LightSource F) (l : List Nat) (s : State F M),
      (l.foldl (fun s i => { s with lights := s.lights ++ [f i] }) s).useDeferredShading =
        s.useDeferredShading := by
    intro f l
    induction l with
    | nil => intro s; rfl
    | cons a rest ih => intro s; rw [List.foldl_cons, ih]
  simp only [initScene, hfold]

theorem main_init_mode [GlmOps M] (env : MainEnv F M) (argv : List String) (s : State F M)
    (c : List (Call F M)) (h : main_init env argv = some (s, c)) :
    s.useDeferredShading = main_useDeferredShading env.atoi argv := by
  unfold main_init at h
  simp only at h
  split at h
  · simp at h
  · rename_i s5 c2 hit
    simp only [Option.some.injEq, Prod.mk.injEq] at h
    have h5 := initTextures_mode _ _ _ s5 c2 hit
    rw [initShader_mode] at h5
    rw [← h.1, initScene_mode]
    split
    · rw [initFBO_mode, h5]
      rfl
    · rw [h5]
      rfl

theorem renderScene_defined [GlmOps M] (s : State F M) (h : FrameReady s) :
    ∃ s1 c, renderScene s = some (s1, c) := by
  obtain ⟨setup, hsetup⟩ := setupLightAndMaterial_defined s h
  obtain ⟨t, rest, hs⟩ := frameReady_stack s h
  cases hmode : s.useDeferredShading with
  | false => exact ⟨_, _, renderScene_forward s t rest setup hmode hs hsetup⟩
  | true => exact ⟨_, _, renderScene_deferred s t rest setup hmode hs hsetup⟩

theorem updateGL_run [GlmOps M] (projection modelview p t : M) (prest rest : List M)
    (s s1 : State F M) (c : List (Call F M))
    (hp : s.glm_ProjectionMatrix = p :: prest) (hs : s.glm_ModelViewMatrix = t :: rest)
    (hrs : renderScene ({ s with
        glm_ProjectionMatrix := projection :: prest,
        glm_ModelViewMatrix := modelview :: rest } : State F M) = some (s1, c)) :
    updateGL projection modelview s =
      some (s1, [ Call.glClear, Call.glViewport s.windowWidth s.windowHeight,
        Call.glUniformMatrix4fv (s.uniformLocations "projection") projection ] ++ c ++
        [Call.glutSwapBuffers]) := by
  have hpre : runSteps ([ emit (fun _ => Call.glClear),
      emit (fun s => Call.glViewport s.windowWidth s.windowHeight),
      projSetTop projection, projUploadTop "projection", mvSetTop modelview ] :
      List (Step F M)) s =
      some (({ s with
          glm_ProjectionMatrix := projection :: prest,
          glm_ModelViewMatrix := modelview :: rest } : State F M),
        [ Call.glClear, Call.glViewport s.windowWidth s.windowHeight,
          Call.glUniformMatrix4fv (s.uniformLocations "projection") projection ]) := by
    simp [runSteps, emit, projSetTop, projUploadTop, mvSetTop, hp, hs]
  have hpost : runSteps ([ emit (fun _ => Call.glutSwapBuffers) ] : List (Step F M)) s1 =
      some (s1, [Call.glutSwapBuffers]) := by
    simp [runSteps, emit]
  exact runSteps_append_some _ _ s _ s1 _ _
    (runSteps_append_some _ _ s _ s1 _ _ hpre hrs) hpost

theorem updateGL_defined [GlmOps M] (projection modelview : M) (s : State F M)
    (hproj : s.glm_ProjectionMatrix ≠ []) (h : FrameReady s) :
    ∃ s1 c, updateGL projection modelview s = some (s1, c) := by
  obtain ⟨t, rest, hs⟩ := frameReady_stack s h
  cases hp : s.glm_ProjectionMatrix with
  | nil => exact absurd hp hproj
  | cons p prest =>
    have hready : FrameReady ({ s with
        glm_ProjectionMatrix := projection :: prest,
        glm_ModelViewMatrix := modelview :: rest } : State F M) :=
      ⟨by simp, h.2.1, h.2.2.1, h.2.2.2⟩
    obtain ⟨s1, c, hrs⟩ := renderScene_defined _ hready
    exact ⟨s1, _, updateGL_run projection modelview p t prest rest s s1 c hp hs hrs⟩

/-! ### What start-up leaves untouched -/

theorem createShader_frame {α : Type} (f : State F M → α)
    (h1 : ∀ (s : State F M) p, f { s with shaderProgram := p } = f s)
    (h2 : ∀ (s : State F M) p, f { s with shaderPass := p } = f s)
    (env : ShaderEnv) (v fr : String) (s : State F M) :
    f (createShader env v fr s).2.1 = f s := by
  have hdel : f (deleteShader s).1 = f s := by
    unfold deleteShader
    split
    · exact h1 s 0
    · exact h2 s (0, 0)
  have hload : f (loadShaderCode env v fr s).2.1 = f s := by
    simp only [loadShaderCode]
    split
    · exact hdel
    · split
      · exact hdel
      · rfl
  simp only [createShader]
  split
  · rfl
  · rcases hl : loadShaderCode env v fr s with ⟨⟨b, vs, fs⟩, s1, c1⟩
    rw [hl] at hload
    cases b with
    | false => exact hload
    | true =>
      simp only
      rcases attachAndLink (F := F) (M := M) env env.glCreateProgram vs fs with ⟨b2, c2⟩
      cases b2 <;> exact hload

theorem storeLightLocations_frame {α : Type} (f : State F M → α)
    (h4 : ∀ (s : State F M) u, f { s with uniformLocations_Lights := u } = f s)
    (loc : Nat → String → Int) (program : Nat) (s : State F M) :
    f (storeLightLocations loc program s) = f s := by
  unfold storeLightLocations
  generalize List.range 10 = l
  induction l generalizing s with
  | nil => rfl
  | cons a rest ih =>
    rw [List.foldl_cons, ih]
    exact h4 s _

theorem initShader_frame {α : Type} (f : State F M → α)
    (h1 : ∀ (s : State F M) p, f { s with shaderProgram := p } = f s)
    (h2 : ∀ (s : State F M) p, f { s with shaderPass := p } = f s)
    (h3 : ∀ (s : State F M) u, f { s with uniformLocations := u } = f s)
    (h4 : ∀ (s : State F M) u, f { s with uniformLocations_Lights := u } = f s)
    (h5 : ∀ (s : State F M) texID v, f (s.setTextureUniform texID v) = f s)
    (loc : Nat → String → Int) (env1 env2 : ShaderEnv) (s : State F M) :
    f (initShader loc env1 env2 s).1 = f s := by
  have hu : ∀ (s : State F M) key v, f (s.setUniform key v) = f s := fun s key v => h3 s _
  have hl := storeLightLocations_frame f h4 loc
  unfold initShader
  cases s.useDeferredShading with
  | false =>
    have hc := createShader_frame f h1 h2 env1 "../shader/normal_mapping.vert"
      "../shader/normal_mapping.frag" s
    rcases hcs : createShader env1 "../shader/normal_mapping.vert"
      "../shader/normal_mapping.frag" s with ⟨p, s1, c1⟩
    rw [hcs] at hc
    simp only at hc
    simp only [Bool.not_false, if_true]
    split
    · exact (h1 s1 p).trans hc
    · simp only [h5, hu, hl]
      exact (h1 s1 p).trans hc
  | true =>
    have hc := createShader_frame f h1 h2 env1 "../shader/deferred_pass1.vert"
      "../shader/deferred_pass1.frag" s
    rcases hcs : createShader env1 "../shader/deferred_pass1.vert"
      "../shader/deferred_pass1.frag" s with ⟨p, s1, c1⟩
    rw [hcs] at hc
    simp only at hc
    simp only [Bool.not_true, Bool.false_eq_true, if_false]
    split
    · exact (h2 s1 _).trans hc
    · have hc2 := createShader_frame f h1 h2 env2 "../shader/deferred_pass2.vert"
        "../shader/deferred_pass2.frag" { s1 with shaderPass := (p, s1.shaderPass.2) }
      rcases hcs2 : createShader env2 "../shader/deferred_pass2.vert"
        "../shader/deferred_pass2.frag" { s1 with shaderPass := (p, s1.shaderPass.2) }
        with ⟨p2, s2, c2⟩
      rw [hcs2] at hc2
      simp only at hc2
      simp only
      split
      · exact ((h2 s2 _).trans hc2).trans ((h2 s1 _).trans hc)
      · simp only [h5, hu, hl]
        exact ((h2 s2 _).trans hc2).trans ((h2 s1 _).trans hc)

theorem runReady_frameReady (s : State F M) (h : RunReady s) : FrameReady s := by
  obtain ⟨h1, -, h3, h4, h5, -, -⟩ := h
  refine ⟨h1, h3, ?_, h5⟩
  have hk : ((s.lights.take s.lightCount).filter (·.enabled)).length ≤ 10 :=
    le_trans (List.length_filter_le _ _) (by rw [List.length_take]; omega)
  have : ((((s.lights.take s.lightCount).filter (·.enabled)).length : Nat) : Int) ≤ 10 := by
    exact_mod_cast hk
  exact le_trans this (by decide)

theorem createTextureFromFile_frame {α : Type} (f : State F M → α)
    (hf : ∀ (s : State F M) hp n t,
      f { s with heap := hp, textureNames := n, textures := t } = f s)
    (image : Option IplImage) (texID fileName : String) (s s1 : State F M)
    (c : List (Call F M)) (h : createTextureFromFile image texID fileName s = some (s1, c)) :
    f s1 = f s := by
  unfold createTextureFromFile at h
  split at h
  · simp at h
  · split at h
    · split at h
      · simp at h
      · simp only [Option.some.injEq, Prod.mk.injEq] at h
        rw [← h.1]
        exact hf s _ _ _
    · simp only [Option.some.injEq, Prod.mk.injEq] at h
      rw [← h.1]
      exact hf s _ s.textureNames _

theorem initTextures_frame {α : Type} (f : State F M → α)
    (hf : ∀ (s : State F M) hp n t,
      f { s with heap := hp, textureNames := n, textures := t } = f s)
    (diffuse normal : Option IplImage) (s s1 : State F M) (c : List (Call F M))
    (h : initTextures diffuse normal s = some (s1, c)) : f s1 = f s := by
  unfold initTextures at h
  cases h1 : createTextureFromFile diffuse "diffuse" "../textures/diffuse.jpg" s with
  | none => simp [h1] at h
  | some r1 =>
    obtain ⟨s2, c2⟩ := r1
    simp only [h1] at h
    cases h2 : createTextureFromFile normal "normal" "../textures/normals.jpg" s2 with
    | none => simp [h2] at h
    | some r2 =>
      obtain ⟨s3, c3⟩ := r2
      simp only [h2, Option.some.injEq, Prod.mk.injEq] at h
      rw [← h.1, createTextureFromFile_frame f hf _ _ _ s2 s3 c3 h2,
        createTextureFromFile_frame f hf _ _ _ s s2 c2 h1]

theorem initTextures_as_ops (diffuse normal : Option IplImage) (s s1 : State F M)
    (c : List (Call F M)) (h : initTextures diffuse normal s = some (s1, c)) :
    runTextureOps [ .createFromFile diffuse "diffuse" "../textures/diffuse.jpg",
      .createFromFile normal "normal" "../textures/normals.jpg" ] s = some s1 := by
  unfold initTextures at h
  cases h1 : createTextureFromFile diffuse "diffuse" "../textures/diffuse.jpg" s with
  | none => simp [h1] at h
  | some r1 =>
    obtain ⟨s2, c2⟩ := r1
    simp only [h1] at h
    cases h2 : createTextureFromFile normal "normal" "../textures/normals.jpg" s2 with
    | none => simp [h2] at h
    | some r2 =>
      obtain ⟨s3, c3⟩ := r2
      simp only [h2, Option.some.injEq, Prod.mk.injEq] at h
      simp [runTextureOps, TextureOp.run, h1, h2, h.1]

theorem initFBO_frame {α : Type} (f : State F M → α)
    (hf : ∀ (s : State F M) fb r n t,
      f { s with fbo := fb, rb := r, textureNames := n, textures := t } = f s)
    (loc : Nat → String → Int) (fboName rbName : Nat) (s : State F M) :
    f (initFBO loc fboName rbName s).1 = f s := by
  simp only [initFBO, createEmptyTexture, State.setTexture, State.setTextureUniform]
  exact hf s _ _ _ _

theorem initFBO_handles (loc : Nat → String → Int) (fboName rbName : Nat) (s : State F M) :
    ((initFBO loc fboName rbName s).1.textures "normal").glTextureLocation =
      (s.textures "normal").glTextureLocation ∧
    gBufferHandles (initFBO loc fboName rbName s).1 =
      [s.textureNames + 1, s.textureNames + 2, s.textureNames + 3] := by
  simp [initFBO, createEmptyTexture, State.setTexture, State.setTextureUniform, gBufferHandles,
    Function.update]

theorem initScene_frame {α : Type} (f : State F M → α)
    (hf : ∀ (s : State F M) ms mc mi ls lc,
      f { s with
          materials := ms, materialCount := mc, materialIndex := mi, lights := ls,
          lightCount := lc } = f s)
    (v : SceneValues F) (s : State F M) : f (initScene v s).1 = f s := by
  have hfold : ∀ (g : Nat → LightSource F) (l : List Nat) (s : State F M),
      f (l.foldl (fun s i => { s with lights := s.lights ++ [g i] }) s) = f s := by
    intro g l
    induction l with
    | nil => intro s; rfl
    | cons a rest ih =>
      intro s
      rw [List.foldl_cons, ih]
      exact hf s s.materials s.materialCount s.materialIndex _ s.lightCount
  simp only [initScene]
  refine (hf _ _ _ _ _ _).trans ?_
  refine (hfold _ _ _).trans ?_
  exact hf s _ _ _ s.lights s.lightCount

/-! ### Every callback of the render loop starts in a well-formed state -/

theorem main_init_runReady [GlmOps M] (env : MainEnv F M) (argv : List String)
    (s : State F M) (c : List (Call F M)) (h : main_init env argv = some (s, c)) :
    RunReady s := by
  unfold main_init at h
  simp only at h
  split at h
  · simp at h
  · rename_i s5 c2 hit
    simp only [Option.some.injEq, Prod.mk.injEq] at h
    -- the state after `initShader`
    have h4 := initShader_frame
      (fun s : State F M => (s.glm_ModelViewMatrix, s.glm_ProjectionMatrix, s.lights,
        s.materials, s.heap, s.textureNames,
        fun id => ((s.textures id).glTextureLocation, (s.textures id).isInitialized)))
      (fun _ _ => rfl) (fun _ _ => rfl) (fun _ _ => rfl) (fun _ _ => rfl)
      (by
        intro s texID v
        simp only [State.setTextureUniform, State.setTexture, Prod.mk.injEq, true_and]
        funext id
        by_cases hid : id = texID
        · subst hid; simp
        · simp [Function.update, hid])
      env.glGetUniformLocation env.shader1 env.shader2 (main_globals (F := F) (M := M) env.atoi argv)
    generalize (initShader env.glGetUniformLocation env.shader1 env.shader2
      (main_globals (F := F) (M := M) env.atoi argv)).1 = s4 at hit h4
    simp only [main_globals, State.initial, Prod.mk.injEq] at h4
    obtain ⟨hmv4, hpr4, hl4, hm4, hheap4, hn4, ht4⟩ := h4
    -- the state after `initTextures`
    have h5 := initTextures_frame
      (fun s : State F M => (s.glm_ModelViewMatrix, s.glm_ProjectionMatrix, s.lights,
        s.materials))
      (fun _ _ _ _ => rfl) _ _ s4 s5 c2 hit
    simp only [Prod.mk.injEq, hmv4, hpr4, hl4, hm4] at h5
    obtain ⟨hmv5, hpr5, hl5, hm5⟩ := h5
    have hq5 := (runTextureOps_initialized_valid _ s4 s5 (by rw [hheap4])
      (fun id => by
        have := congrFun ht4 id
        simp only [Texture.default, Prod.mk.injEq] at this
        rw [this.1, this.2]
        exact ⟨Nat.zero_le _, fun h0 => by simp at h0⟩)
      (initTextures_as_ops _ _ s4 s5 c2 hit)).2
    -- `initFBO` (deferred mode only) and `initScene`
    have hscene : ∀ s6 : State F M, s6.glm_ModelViewMatrix = s5.glm_ModelViewMatrix →
        s6.glm_ProjectionMatrix = s5.glm_ProjectionMatrix → s6.lights = [] →
        s6.materials = [] →
        (s6.useDeferredShading = true →
          (s6.textures "normal").glTextureLocation ∉ gBufferHandles s6) →
        RunReady (initScene env.scene s6).1 := by
      intro s6 hmv6 hpr6 hl6 hm6 hd6
      have hfr := initScene_frame
        (fun s : State F M => (s.glm_ModelViewMatrix, s.glm_ProjectionMatrix,
          s.useDeferredShading, s.textures))
        (fun _ _ _ _ _ _ => rfl) env.scene s6
      simp only [Prod.mk.injEq] at hfr
      obtain ⟨hmv7, hpr7, hmode7, htex7⟩ := hfr
      obtain ⟨hlen, hcnt⟩ := initScene_lights env.scene s6
      rw [hl6] at hlen hcnt
      have hmat : (initScene env.scene s6).1.materials.length = 1 ∧
          (initScene env.scene s6).1.materialIndex = 0 ∧
          (initScene env.scene s6).1.materialCount = 1 := by
        have hfold : ∀ (g : Nat → LightSource F) (l : List Nat) (s : State F M),
            (l.foldl (fun s i => { s with lights := s.lights ++ [g i] }) s).materials =
              s.materials ∧
            (l.foldl (fun s i => { s with lights := s.lights ++ [g i] }) s).materialIndex =
              s.materialIndex ∧
            (l.foldl (fun s i => { s with lights := s.lights ++ [g i] }) s).materialCount =
              s.materialCount := by
          intro g l
          induction l with
          | nil => intro s; exact ⟨rfl, rfl, rfl⟩
          | cons a rest ih => intro s; rw [List.foldl_cons]; exact ih _
        simp only [initScene, hfold, hm6]
        exact ⟨rfl, trivial, rfl⟩
      refine ⟨?_, ?_, ?_, ?_, ?_, ?_, ?_⟩
      · rw [hmv7, hmv6, hmv5]; simp
      · rw [hpr7, hpr6, hpr5]; simp
      · rw [hlen, hcnt]; exact Nat.mod_le _ _
      · rw [hcnt]; exact Nat.mod_le _ _
      · rw [hmat.1, hmat.2.1]; exact Nat.one_pos
      · rw [hmat.1, hmat.2.2]
      · intro hmode
        have := hd6 (hmode7 ▸ hmode)
        simpa [gBufferHandles, htex7] using this
    rw [← h.1]
    split
    · rename_i hdef
      obtain ⟨hn, hg⟩ := initFBO_handles env.glGetUniformLocation env.fboName env.rbName s5
      have hf6 := initFBO_frame
        (fun s : State F M => (s.glm_ModelViewMatrix, s.glm_ProjectionMatrix, s.lights,
          s.materials))
        (fun _ _ _ _ _ => rfl) env.glGetUniformLocation env.fboName env.rbName s5
      simp only [Prod.mk.injEq] at hf6
      refine hscene _ hf6.1 hf6.2.1 (hf6.2.2.1.trans hl5) (hf6.2.2.2.trans hm5) ?_
      intro _
      rw [hn, hg]
      have hle := (hq5 "normal").1
      simp only [List.mem_cons, List.mem_singleton, List.not_mem_nil, or_false, not_or]
      omega
    · rename_i hdef
      refine hscene s5 rfl rfl hl5 hm5 ?_
      intro hmode
      exact absurd hmode hdef

theorem toggleLightSource_runReady (i : Nat) (s : State F M) (h : RunReady s) :
    ∃ s1, toggleLightSource i s = some s1 ∧ RunReady s1 := by
  obtain ⟨h1, h2, h3, h4, h5, h6, h7⟩ := h
  unfold toggleLightSource
  by_cases hi : i < s.lightCount
  · have hlt : i < s.lights.length := by omega
    rw [if_pos hi, List.getElem?_eq_getElem hlt]
    refine ⟨_, rfl, h1, h2, ?_, h4, h5, h6, h7⟩
    simpa using h3
  · rw [if_neg hi]
    exact ⟨s, rfl, h1, h2, h3, h4, h5, h6, h7⟩

theorem keyboardEvent_runReady (key : Char) (s : State F M) (h : RunReady s) :
    keyboardEvent key s ≠ .undefined ∧
    ∀ s1 c, keyboardEvent key s = .running s1 c → RunReady s1 := by
  have htoggle : ∀ i : Nat,
      (match toggleLightSource i s with
        | none => Outcome.undefined
        | some s => Outcome.running s [Call.glutPostRedisplay]) ≠ .undefined ∧
      ∀ s1 c, (match toggleLightSource i s with
        | none => Outcome.undefined
        | some s => Outcome.running s [Call.glutPostRedisplay]) = .running s1 c →
        RunReady s1 := by
    intro i
    obtain ⟨s2, ht, hr⟩ := toggleLightSource_runReady i s h
    rw [ht]
    refine ⟨by simp, fun s1 c hrun => ?_⟩
    simp only [Outcome.running.injEq] at hrun
    rw [← hrun.1]
    exact hr
  have hsame : ∀ (c0 : List (Call F M)), Outcome.running s c0 ≠ .undefined ∧
      ∀ s1 c, Outcome.running s c0 = .running s1 c → RunReady s1 := by
    intro c0
    refine ⟨by simp, fun s1 c hrun => ?_⟩
    simp only [Outcome.running.injEq] at hrun
    rw [← hrun.1]
    exact h
  unfold keyboardEvent
  by_cases h1 : key = 'x' ∨ key = Char.ofNat 27
  · rw [if_pos h1]
    exact ⟨by simp, fun s1 c hrun => by simp at hrun⟩
  · rw [if_neg h1]
    by_cases h2 : key ∈ ['w', 's', 'a', 'd', 'z', 'h', 'r', 'f', 't', 'g']
    · rw [if_pos h2]
      exact hsame _
    · rw [if_neg h2]
      by_cases h3 : key = 'm'
      · rw [if_pos h3]
        refine ⟨by simp, fun s1 c hrun => ?_⟩
        simp only [Outcome.running.injEq] at hrun
        rw [← hrun.1]
        obtain ⟨g1, g2, g3, g4, g5, g6, g7⟩ := h
        split
        · exact ⟨g1, g2, g3, g4, Nat.lt_of_le_of_lt (Nat.zero_le _) g5, g6, g7⟩
        · rename_i hlt
          simp only [ge_iff_le, not_le] at hlt
          exact ⟨g1, g2, g3, g4, Nat.lt_of_lt_of_le hlt g6, g6, g7⟩
      · rw [if_neg h3]
        by_cases h4 : key.isDigit = true
        · rw [if_pos h4]
          simp only
          split <;> (try split) <;> first | exact htoggle _ | exact hsame _
        · rw [if_neg h4]
          exact hsame _

theorem updateGL_runReady [GlmOps M] (projection modelview : M) (s : State F M)
    (h : RunReady s) :
    ∃ s1 c, updateGL projection modelview s = some (s1, c) ∧ RunReady s1 := by
  have hfr := runReady_frameReady s h
  obtain ⟨h1, h2, h3, h4, h5, h6, h7⟩ := h
  obtain ⟨t, rest, hs⟩ := frameReady_stack s hfr
  cases hp : s.glm_ProjectionMatrix with
  | nil => exact absurd hp h2
  | cons p prest =>
    have hready : FrameReady ({ s with
        glm_ProjectionMatrix := projection :: prest,
        glm_ModelViewMatrix := modelview :: rest } : State F M) :=
      ⟨by simp, hfr.2.1, hfr.2.2.1, hfr.2.2.2⟩
    obtain ⟨setup, hsetup⟩ := setupLightAndMaterial_defined _ hready
    cases hmode : s.useDeferredShading with
    | false =>
      have hrs := renderScene_forward ({ s with
        glm_ProjectionMatrix := projection :: prest,
        glm_ModelViewMatrix := modelview :: rest } : State F M) modelview rest setup hmode rfl
        hsetup
      refine ⟨_, _, updateGL_run projection modelview p t prest rest s _ _ hp hs hrs, ?_⟩
      exact ⟨by simp, by simp, h3, h4, h5, h6, h7⟩
    | true =>
      have hrs := renderScene_deferred ({ s with
        glm_ProjectionMatrix := projection :: prest,
        glm_ModelViewMatrix := modelview :: rest } : State F M) modelview rest setup hmode rfl
        hsetup
      refine ⟨_, _, updateGL_run projection modelview p t prest rest s _ _ hp hs hrs, ?_⟩
      exact ⟨by simp, by simp, h3, h4, h5, h6, h7⟩

theorem mainLoop_runReady [GlmOps M] (events : List (Event M)) :
    ∀ s : State F M, RunReady s →
      ∀ s1 c, mainLoop events s = .running s1 c → RunReady s1 := by
  intro s h s1 c hrun
  refine mainLoop_invariant RunReady ?_ ?_ events s s1 c h hrun
  · intro s2 projection modelview s3 c3 hP hu
    obtain ⟨s4, c4, hu4, hr4⟩ := updateGL_runReady projection modelview s2 hP
    rw [hu4] at hu
    simp only [Option.some.injEq, Prod.mk.injEq] at hu
    rw [← hu.1]
    exact hr4
  · intro s2 key s3 c3 hP hk
    exact (keyboardEvent_runReady key s2 hP).2 s3 c3 hk

theorem dispatch_defined [GlmOps M] (e : Event M) (s : State F M) (h : RunReady s)
    (he : e.mouseStateAssigned = true) : dispatch e s ≠ .undefined := by
  cases e with
  | display projection modelview =>
    obtain ⟨s1, c1, hu, -⟩ := updateGL_runReady projection modelview s h
    simp [dispatch, hu]
  | idle => simp [dispatch, idle]
  | keyboard k => exact (keyboardEvent_runReady k s h).1
  | mouse button state x y =>
    simp only [Event.mouseStateAssigned, Option.isSome_iff_exists] at he
    obtain ⟨m, hm⟩ := he
    simp [dispatch, mouseEvent, hm]
  | motion x y => simp [dispatch, mouseMoveEvent]

theorem mainLoop_defined [GlmOps M] (events : List (Event M)) :
    ∀ s : State F M, RunReady s → (∀ e ∈ events, e.mouseStateAssigned = true) →
      mainLoop events s ≠ .undefined := by
  induction events with
  | nil =>
    intro s _ _
    simp [mainLoop]
  | cons e rest ih =>
    intro s h hev
    have hd := dispatch_defined e s h (hev e (List.mem_cons_self e rest))
    rw [mainLoop]
    cases hfirst : dispatch e s with
    | undefined => exact absurd hfirst hd
    | exit c0 => simp
    | running s2 c2 =>
      have hr2 : RunReady s2 :=
        dispatch_invariant RunReady
          (fun s3 projection modelview s4 c4 hP hu => by
            obtain ⟨s5, c5, hu5, hr5⟩ := updateGL_runReady projection modelview s3 hP
            rw [hu5] at hu
            simp only [Option.some.injEq, Prod.mk.injEq] at hu
            rw [← hu.1]
            exact hr5)
          (fun s3 key s4 c4 hP hk => (keyboardEvent_runReady key s3 hP).2 s4 c4 hk)
          e s s2 c2 h hfirst
      have hrest := ih s2 hr2 (fun x hx => hev x (List.mem_cons_of_mem e hx))
      simp only
      cases hloop : mainLoop rest s2 with
      | undefined => exact absurd hloop hrest
      | exit c3 => simp
      | running s3 c3 => simp

theorem createTextureFromFile_defined (image : Option IplImage) (texID fileName : String)
    (s : State F M) (hdata : (s.textures texID).data = none) :
    ∃ s1 c, createTextureFromFile image texID fileName s = some (s1, c) ∧
      ∀ id, id ≠ texID → s1.textures id = s.textures id := by
  cases image with
  | none =>
    refine ⟨_, _, by simp only [createTextureFromFile, loadTextureData, hdata]; rfl, ?_⟩
    intro id hid
    simp [State.setTexture, Function.update, hid]
  | some img =>
    refine ⟨_, _, by
      simp only [createTextureFromFile, loadTextureData, hdata, Heap.alloc, Heap.free,
        List.mem_cons, true_or, if_true]
      rfl, ?_⟩
    intro id hid
    simp [State.setTexture, Function.update, hid]

theorem main_init_defined [GlmOps M] (env : MainEnv F M) (argv : List String) :
    ∃ (s : State F M) (c : List (Call F M)), main_init env argv = some (s, c) := by
  have h4 := initShader_frame
    (fun s : State F M => fun id => (s.textures id).data)
    (fun _ _ => rfl) (fun _ _ => rfl) (fun _ _ => rfl) (fun _ _ => rfl)
    (by
      intro s texID v
      funext id
      by_cases hid : id = texID
      · subst hid; simp [State.setTextureUniform, State.setTexture]
      · simp [State.setTextureUniform, State.setTexture, Function.update, hid])
    env.glGetUniformLocation env.shader1 env.shader2
    (main_globals (F := F) (M := M) env.atoi argv)
  have hdata : ∀ id, (((initShader env.glGetUniformLocation env.shader1 env.shader2
      (main_globals (F := F) (M := M) env.atoi argv)).1).textures id).data = none := by
    intro id
    have := congrFun h4 id
    simpa [main_globals, State.initial, Texture.default] using this
  obtain ⟨s5, c5, h5, hother⟩ := createTextureFromFile_defined env.diffuseImage "diffuse"
    "../textures/diffuse.jpg" _ (hdata "diffuse")
  obtain ⟨s6, c6, h6, -⟩ := createTextureFromFile_defined env.normalImage "normal"
    "../textures/normals.jpg" s5 (by rw [hother "normal" (by decide)]; exact hdata "normal")
  have hit : initTextures env.diffuseImage env.normalImage
      (initShader env.glGetUniformLocation env.shader1 env.shader2
        (main_globals (F := F) (M := M) env.atoi argv)).1 = some (s6, c5 ++ c6) := by
    simp only [initTextures, h5, h6]
  unfold main_init
  simp only [hit]
  exact ⟨_, _, rfl⟩

theorem main_defined [GlmOps M] (env : MainEnv F M) (argv : List String)
    (hevents : ∀ e ∈ env.events, e.mouseStateAssigned = true) :
    main env argv ≠ .undefined := by
  obtain ⟨s, c, hinit⟩ := main_init_defined env argv
  have hready := main_init_runReady env argv s c hinit
  have hne := mainLoop_defined env.events s hready hevents
  unfold main
  rw [hinit]
  simp only
  have hen : ∃ b c5, enableShader 0 s = some (b, c5) := by
    unfold enableShader
    split
    · exact ⟨_, _, rfl⟩
    · exact ⟨_, _, rfl⟩
  obtain ⟨b, c5, hb⟩ := hen
  rw [hb]
  cases b with
  | false => simp
  | true =>
    simp only
    cases hloop : mainLoop env.events s with
    | undefined => exact absurd hloop hne
    | exit c6 => simp
    | running s1 c6 => simp

/-! ### Digit keys -/

theorem toggleLightSource_eq (i : Nat) (s : State F M) (hi : i < s.lightCount)
    (hlt : i < s.lights.length) :
    toggleLightSource i s =
      some { s with lights := s.lights.set i { s.lights[i] with enabled := !s.lights[i].enabled } } := by
  simp [toggleLightSource, hi, List.getElem?_eq_getElem hlt]

theorem toggleLightSource_out_of_range (i : Nat) (s : State F M) (hi : ¬ i < s.lightCount) :
    toggleLightSource i s = some s := by
  simp [toggleLightSource, hi]

theorem keyboardEvent_digit (s : State F M) (d : Nat) (hd : d < 10) :
    keyboardEvent (Char.ofNat (48 + d)) s =
      match toggleLightSource (digitLight d) s with
      | none => .undefined
      | some s1 => .running s1 [Call.glutPostRedisplay] := by
  interval_cases d <;> rfl

/-! ### Properties that hold at every program point of a frame -/

theorem atEveryPoint_pure (P : State F M → Prop) (l : List (Step F M)) (s : State F M)
    (hP : P s) (h : ∀ st ∈ l, ∃ c, st s = some (s, c)) : AtEveryPoint P l s := by
  intro n
  obtain ⟨c, hc⟩ := runSteps_pure (l.take n) s (fun st hst => h st (List.mem_of_mem_take hst))
  exact ⟨s, c, hc, hP⟩

theorem atEveryPoint_append (P : State F M → Prop) (a b : List (Step F M)) (s s1 : State F M)
    (c1 : List (Call F M)) (ha : AtEveryPoint P a s) (hrun : runSteps a s = some (s1, c1))
    (hb : AtEveryPoint P b s1) : AtEveryPoint P (a ++ b) s := by
  intro n
  rw [List.take_append_eq_append_take]
  by_cases hn : n ≤ a.length
  · obtain ⟨s2, c2, h2, hd⟩ := ha n
    have h0 : n - a.length = 0 := by omega
    rw [h0, List.take_zero, List.append_nil]
    exact ⟨s2, c2, h2, hd⟩
  · obtain ⟨s2, c2, h2, hd⟩ := hb (n - a.length)
    rw [List.take_of_length_le (by omega)]
    exact ⟨s2, c1 ++ c2, runSteps_append_some _ _ s s1 s2 c1 c2 hrun h2, hd⟩

theorem atEveryPoint_pure_append (P : State F M → Prop) (l rest : List (Step F M))
    (s : State F M) (hP : P s) (h : ∀ st ∈ l, ∃ c, st s = some (s, c))
    (hrest : AtEveryPoint P rest s) : AtEveryPoint P (l ++ rest) s := by
  obtain ⟨c, hc⟩ := runSteps_pure l s h
  exact atEveryPoint_append P l rest s s c (atEveryPoint_pure P l s hP h) hc hrest

theorem atEveryPoint_flatMap {α : Type} (P : State F M → Prop) (l : List α)
    (body : α → List (Step F M)) (s : State F M) (hP : P s)
    (h : ∀ a ∈ l, AtEveryPoint P (body a) s ∧ ∃ c, runSteps (body a) s = some (s, c)) :
    AtEveryPoint P (l.flatMap body) s ∧ ∃ c, runSteps (l.flatMap body) s = some (s, c) := by
  induction l with
  | nil =>
    refine ⟨fun n => ⟨s, [], ?_, hP⟩, [], rfl⟩
    simp [runSteps]
  | cons a rest ih =>
    obtain ⟨h1, c1, hc1⟩ := h a (List.mem_cons_self a rest)
    obtain ⟨h2, c2, hc2⟩ := ih (fun b hb => h b (List.mem_cons_of_mem a hb))
    rw [List.flatMap_cons]
    exact ⟨atEveryPoint_append P _ _ s s c1 h1 hc1 h2,
      c1 ++ c2, runSteps_append_some _ _ s s s c1 c2 hc1 hc2⟩

theorem gridBody_stackOnBase [GlmOps M] (s : State F M) (t : M) (rest : List M) (x y : Int)
    (hs : s.glm_ModelViewMatrix = t :: rest) :
    AtEveryPoint (StackOnBase (t :: rest)) (gridBody x y) s := by
  intro n
  rcases n with _ | _ | _ | _ | _ | _ | n
  · exact ⟨s, [], rfl, Or.inl hs⟩
  · exact ⟨_, _, by simp [gridBody, runSteps, mvPushTop, hs]; exact ⟨rfl, rfl⟩,
      Or.inr ⟨t, rfl⟩⟩
  · exact ⟨_, _, by simp [gridBody, runSteps, mvPushTop, mvMulTop, hs]; exact ⟨rfl, rfl⟩,
      Or.inr ⟨_, rfl⟩⟩
  · exact ⟨_, _, by simp [gridBody, runSteps, mvPushTop, mvMulTop, hs]; exact ⟨rfl, rfl⟩,
      Or.inr ⟨_, rfl⟩⟩
  · exact ⟨_, _, by simp [gridBody, runSteps, mvPushTop, mvMulTop, mvUploadTop, hs]; exact ⟨rfl, rfl⟩,
      Or.inr ⟨_, rfl⟩⟩
  · exact ⟨_, _, by simp [gridBody, runSteps, mvPushTop, mvMulTop, mvUploadTop, emit, hs]; exact ⟨rfl, rfl⟩,
      Or.inr ⟨_, rfl⟩⟩
  · refine ⟨s, placementCalls s t x y, ?_, Or.inl hs⟩
    rw [List.take_of_length_le (by simp [gridBody])]
    exact gridBody_run s t rest x y hs

theorem gridLoop_stackOnBase [GlmOps M] (s : State F M) (t : M) (rest : List M)
    (hs : s.glm_ModelViewMatrix = t :: rest) :
    AtEveryPoint (StackOnBase (t :: rest)) gridLoop s := by
  unfold gridLoop
  refine (atEveryPoint_flatMap _ _ _ s (Or.inl hs) ?_).1
  intro y _
  refine atEveryPoint_flatMap _ _ _ s (Or.inl hs) ?_
  intro x _
  exact ⟨gridBody_stackOnBase s t rest x y hs, _, gridBody_run s t rest x y hs⟩

theorem screenQuadSteps_stackOnBase (s : State F M) (base : List M)
    (hs : s.glm_ModelViewMatrix = base) :
    AtEveryPoint (StackOnBase base)
      [ensureScreenQuad, emit (fun _ => Call.render Mesh.screenQuad)] s := by
  intro n
  rcases n with _ | _ | n
  · exact ⟨s, [], rfl, Or.inl hs⟩
  · cases hq : s.screenQuad with
    | false =>
      exact ⟨{ s with screenQuad := true }, [Call.screenQuadSetData],
        by simp [runSteps, ensureScreenQuad, hq], Or.inl hs⟩
    | true => exact ⟨s, [], by simp [runSteps, ensureScreenQuad, hq], Or.inl hs⟩
  · refine ⟨{ s with screenQuad := true },
      (if !s.screenQuad then [Call.screenQuadSetData] else []) ++ [Call.render Mesh.screenQuad],
      ?_, Or.inl hs⟩
    rw [List.take_of_length_le (by simp)]
    exact ensureScreenQuad_run s

theorem renderSceneSteps_stackOnBase [GlmOps M] (s : State F M) (t : M) (rest : List M)
    (setup : List (Call F M)) (hs : s.glm_ModelViewMatrix = t :: rest)
    (hsetup : setupLightAndMaterial s = some setup) :
    AtEveryPoint (StackOnBase (t :: rest)) (renderSceneSteps s.useDeferredShading) s := by
  have hview : ∀ key, ∃ c, mvUploadTop key s = some (s, c) := fun key =>
    ⟨[Call.glUniformMatrix4fv (s.uniformLocations key) t], by simp [mvUploadTop, hs]⟩
  have hset : ∃ c, setupLightAndMaterialStep s = some (s, c) :=
    ⟨setup, by simp [setupLightAndMaterialStep, hsetup]⟩
  have hP : StackOnBase (t :: rest) s := Or.inl hs
  unfold renderSceneSteps
  cases s.useDeferredShading with
  | false =>
    simp only [Bool.not_false, if_true, List.append_assoc]
    refine atEveryPoint_pure_append _ _ _ s hP ?_ ?_
    · intro st hst
      simp only [List.mem_cons, List.mem_singleton, List.not_mem_nil, or_false] at hst
      rcases hst with rfl | rfl | rfl
      · exact ⟨_, rfl⟩
      · exact hview _
      · exact hset
    refine atEveryPoint_pure_append _ _ _ s hP (bindTextureSteps_pure s _ _) ?_
    refine atEveryPoint_pure_append _ _ _ s hP (bindTextureSteps_pure s _ _) ?_
    exact gridLoop_stackOnBase s t rest hs
  | true =>
    simp only [Bool.not_true, Bool.false_eq_true, if_false, List.append_assoc]
    refine atEveryPoint_pure_append _ _ _ s hP ?_ ?_
    · intro st hst
      simp only [List.mem_cons, List.mem_singleton, List.not_mem_nil, or_false] at hst
      rcases hst with rfl | rfl | rfl <;> exact ⟨_, rfl⟩
    refine atEveryPoint_pure_append _ _ _ s hP (bindTextureSteps_pure s _ _) ?_
    refine atEveryPoint_pure_append _ _ _ s hP ?_ ?_
    · intro st hst
      simp only [List.mem_singleton] at hst
      subst hst
      exact ⟨_, rfl⟩
    refine atEveryPoint_append _ _ _ s s _ (gridLoop_stackOnBase s t rest hs)
      (gridLoop_run s t rest hs) ?_
    refine atEveryPoint_pure_append _ _ _ s hP ?_ ?_
    · intro st hst
      simp only [List.mem_cons, List.mem_singleton, List.not_mem_nil, or_false] at hst
      rcases hst with rfl | rfl | rfl | rfl | rfl | rfl
      · exact ⟨_, rfl⟩
      · exact ⟨_, rfl⟩
      · exact ⟨_, rfl⟩
      · exact ⟨_, rfl⟩
      · exact hview _
      · exact hset
    refine atEveryPoint_pure_append _ _ _ s hP (bindTextureSteps_pure s _ _) ?_
    refine atEveryPoint_pure_append _ _ _ s hP (bindTextureSteps_pure s _ _) ?_
    refine atEveryPoint_pure_append _ _ _ s hP (bindTextureSteps_pure s _ _) ?_
    refine atEveryPoint_pure_append _ _ _ s hP (bindTextureSteps_pure s _ _) ?_
    exact screenQuadSteps_stackOnBase s _ hs

/-! ### Framebuffer and program bindings -/

theorem boundFramebuffer_append (b : Nat) (l1 l2 : List (Call F M)) :
    boundFramebuffer b (l1 ++ l2) = boundFramebuffer (boundFramebuffer b l1) l2 := by
  simp [boundFramebuffer, List.foldl_append]

theorem boundFramebuffer_of_no_bind (l : List (Call F M)) :
    ∀ b, l.countP Call.isBindFramebuffer = 0 → boundFramebuffer b l = b := by
  induction l with
  | nil => intro b _; rfl
  | cons c rest ih =>
    intro b h
    rw [List.countP_cons] at h
    have h1 : rest.countP Call.isBindFramebuffer = 0 := by omega
    have h2 : c.isBindFramebuffer = false := by
      cases hc : c.isBindFramebuffer with
      | false => rfl
      | true => rw [hc] at h; simp at h
    have h3 : Call.framebufferAfter b c = b := by
      cases c <;> first | rfl | (simp [Call.isBindFramebuffer] at h2)
    show boundFramebuffer (Call.framebufferAfter b c) rest = b
    rw [h3]
    exact ih b h1

theorem boundFramebuffer_cons_bind (b f : Nat) (l : List (Call F M)) :
    boundFramebuffer b (Call.glBindFramebuffer f :: l) = boundFramebuffer f l := rfl

theorem initFBO_boundFramebuffer (loc : Nat → String → Int) (fboName rbName : Nat)
    (s : State F M) (b : Nat) : boundFramebuffer b (initFBO loc fboName rbName s).2 = 0 := rfl

theorem renderScene_deferred_boundFramebuffer [GlmOps M] (s : State F M) (t : M)
    (setup : List (Call F M)) (hup : ∀ c ∈ setup, c.isShadingUpload = true) (b : Nat) :
    boundFramebuffer b (geometryPassCalls s t ++
      Call.glBindFramebuffer 0 :: compositePassCalls s t setup) = 0 := by
  rw [boundFramebuffer_append, boundFramebuffer_cons_bind]
  exact boundFramebuffer_of_no_bind _ 0 (compositePassCalls_counts s t setup hup).2.2

/-! ### Shader objects created and deleted -/

theorem deletedShaders_append (l1 l2 : List (Call F M)) :
    deletedShaders (l1 ++ l2) = deletedShaders l1 ++ deletedShaders l2 := by
  simp [deletedShaders, List.filterMap_append]

theorem createdShaders_append (l1 l2 : List (Call F M)) :
    createdShaders (l1 ++ l2) = createdShaders l1 ++ createdShaders l2 := by
  simp [createdShaders, List.filterMap_append]

theorem deletedShaders_eq_nil (l : List (Call F M))
    (h : ∀ c ∈ l, ∀ shader, c ≠ Call.glDeleteShader shader) : deletedShaders l = [] := by
  induction l with
  | nil => rfl
  | cons c rest ih =>
    have h1 := ih (fun x hx => h x (List.mem_cons_of_mem c hx))
    have h2 := h c (List.mem_cons_self c rest)
    cases c
    case glDeleteShader shader => exact absurd rfl (h2 shader)
    all_goals exact h1

theorem loadShaderFile_deletedShaders (env : ShaderEnv) (fileName : String)
    (shaderType : ShaderType) :
    deletedShaders (loadShaderFile (F := F) (M := M) env fileName shaderType).2 = [] := by
  apply deletedShaders_eq_nil
  intro c hc shader
  rcases mem_loadShaderFile env fileName shaderType c hc with rfl | ⟨src, rfl⟩ | rfl | rfl <;>
    exact fun h => Call.noConfusion h

theorem deleteShader_deletedShaders (s : State F M) :
    deletedShaders (deleteShader s).2 = [] := by
  unfold deleteShader
  split <;> rfl

theorem loadShaderFile_missing_source (env : ShaderEnv) (fileName : String)
    (shaderType : ShaderType) (hcreate : env.glCreateShader shaderType ≠ 0)
    (hmissing : loadShaderSource env fileName = none) :
    loadShaderFile (F := F) (M := M) env fileName shaderType =
      (0, [Call.glCreateShader shaderType (env.glCreateShader shaderType)]) := by
  simp [loadShaderFile, hcreate, hmissing]

theorem createShader_missing_fragment (env : ShaderEnv) (v f : String) (s : State F M)
    (hprogram : env.glCreateProgram ≠ 0)
    (hcreate : env.glCreateShader .GL_FRAGMENT_SHADER ≠ 0)
    (hmissing : loadShaderSource env f = none) :
    createShader env v f s = (0, (deleteShader s).1,
      Call.glCreateProgram env.glCreateProgram ::
        ((loadShaderFile env v .GL_VERTEX_SHADER).2 ++
          [Call.glCreateShader .GL_FRAGMENT_SHADER (env.glCreateShader .GL_FRAGMENT_SHADER)] ++
          (deleteShader s).2 ++ [Call.glDeleteProgram env.glCreateProgram])) := by
  have hf := loadShaderFile_missing_source (F := F) (M := M) env f .GL_FRAGMENT_SHADER hcreate
    hmissing
  rcases hv : loadShaderFile (F := F) (M := M) env v .GL_VERTEX_SHADER with ⟨vh, vc⟩
  by_cases hv0 : vh = 0 <;> simp [createShader, hprogram, loadShaderCode, hf, hv, hv0]

/-! ### Compiler and linker logs -/

theorem loadShaderFile_handle (env : ShaderEnv) (fileName : String) (shaderType : ShaderType) :
    (loadShaderFile (F := F) (M := M) env fileName shaderType).1 =
      if (loadShaderSource env fileName).isSome then env.glCreateShader shaderType else 0 := by
  unfold loadShaderFile
  by_cases h0 : env.glCreateShader shaderType = 0
  · simp [h0]
  · cases hsrc : loadShaderSource env fileName <;> simp [h0]

theorem createShader_result (env : ShaderEnv) (v f : String) (s : State F M) :
    (createShader env v f s).1 =
      (if env.glCreateProgram = 0 then 0
       else if (loadShaderFile (F := F) (M := M) env v .GL_VERTEX_SHADER).1 = 0 then 0
       else if (loadShaderFile (F := F) (M := M) env f .GL_FRAGMENT_SHADER).1 = 0 then 0
       else if env.programInfoLogLength > 0 then 0
       else env.glCreateProgram) ∧
    (createShader env v f s).2.1 =
      (if env.glCreateProgram = 0 then s
       else if (loadShaderFile (F := F) (M := M) env v .GL_VERTEX_SHADER).1 = 0 then
        (deleteShader s).1
       else if (loadShaderFile (F := F) (M := M) env f .GL_FRAGMENT_SHADER).1 = 0 then
        (deleteShader s).1
       else s) := by
  rcases hv : loadShaderFile (F := F) (M := M) env v .GL_VERTEX_SHADER with ⟨vh, vc⟩
  rcases hf : loadShaderFile (F := F) (M := M) env f .GL_FRAGMENT_SHADER with ⟨fh, fc⟩
  by_cases hp : env.glCreateProgram = 0
  · simp [createShader, hp]
  · by_cases hv0 : vh = 0
    · simp [createShader, hp, loadShaderCode, hv, hf, hv0]
    · by_cases hf0 : fh = 0
      · simp [createShader, hp, loadShaderCode, hv, hf, hv0, hf0]
      · by_cases hl : env.programInfoLogLength > 0 <;>
          simp [createShader, hp, loadShaderCode, hv, hf, hv0, hf0, attachAndLink, hl]

theorem createShader_link_failure_calls (env : ShaderEnv) (v f : String) (s : State F M)
    (hprogram : env.glCreateProgram ≠ 0) (hlink : env.programInfoLogLength > 0) :
    ∃ mid, (createShader env v f s).2.2 =
      Call.glCreateProgram env.glCreateProgram ::
        (mid ++ [Call.glDeleteProgram env.glCreateProgram]) := by
  rcases hv : loadShaderFile (F := F) (M := M) env v .GL_VERTEX_SHADER with ⟨vh, vc⟩
  rcases hf : loadShaderFile (F := F) (M := M) env f .GL_FRAGMENT_SHADER with ⟨fh, fc⟩
  by_cases hv0 : vh = 0
  · exact ⟨vc ++ fc ++ (deleteShader s).2,
      by simp [createShader, hprogram, loadShaderCode, hv, hf, hv0]⟩
  · by_cases hf0 : fh = 0
    · exact ⟨vc ++ fc ++ (deleteShader s).2,
        by simp [createShader, hprogram, loadShaderCode, hv, hf, hv0, hf0]⟩
    · exact ⟨vc ++ fc ++ [Call.glAttachShader env.glCreateProgram vh,
          Call.glAttachShader env.glCreateProgram fh, Call.glDeleteShader vh,
          Call.glDeleteShader fh, Call.glLinkProgram env.glCreateProgram,
          Call.printLinkerLog env.glCreateProgram],
        by simp [createShader, hprogram, loadShaderCode, hv, hf, hv0, hf0, attachAndLink,
          hlink]⟩

/-! ### Failure of the second program in deferred mode -/

theorem createShader_success (env : ShaderEnv) (v f : String) (s : State F M)
    (h : (createShader env v f s).1 ≠ 0) :
    (createShader env v f s).1 = env.glCreateProgram ∧ (createShader env v f s).2.1 = s := by
  have hres := createShader_result env v f s
  by_cases hp : env.glCreateProgram = 0
  · exact absurd (by rw [hres.1]; simp [hp]) h
  by_cases hv : (loadShaderFile (F := F) (M := M) env v .GL_VERTEX_SHADER).1 = 0
  · exact absurd (by rw [hres.1]; simp [hv]) h
  by_cases hf : (loadShaderFile (F := F) (M := M) env f .GL_FRAGMENT_SHADER).1 = 0
  · exact absurd (by rw [hres.1]; simp [hf]) h
  by_cases hl : env.programInfoLogLength > 0
  · exact absurd (by rw [hres.1]; simp [hl]) h
  · rw [hres.1, hres.2]
    simp [hp, hv, hf, hl]

theorem createShader_stage_failure_calls (env : ShaderEnv) (v f : String) (s : State F M)
    (hprogram : env.glCreateProgram ≠ 0)
    (hfail : (loadShaderFile (F := F) (M := M) env v .GL_VERTEX_SHADER).1 = 0 ∨
      (loadShaderFile (F := F) (M := M) env f .GL_FRAGMENT_SHADER).1 = 0) :
    (createShader env v f s).2.2 = Call.glCreateProgram env.glCreateProgram ::
      ((loadShaderFile env v .GL_VERTEX_SHADER).2 ++ (loadShaderFile env f .GL_FRAGMENT_SHADER).2
        ++ (deleteShader s).2 ++ [Call.glDeleteProgram env.glCreateProgram]) := by
  rcases hv : loadShaderFile (F := F) (M := M) env v .GL_VERTEX_SHADER with ⟨vh, vc⟩
  rcases hf : loadShaderFile (F := F) (M := M) env f .GL_FRAGMENT_SHADER with ⟨fh, fc⟩
  rw [hv, hf] at hfail
  by_cases hv0 : vh = 0
  · simp [createShader, hprogram, loadShaderCode, hv, hf, hv0]
  · have hf0 : fh = 0 := hfail.resolve_left hv0
    simp [createShader, hprogram, loadShaderCode, hv, hf, hv0, hf0]

theorem initShader_second_failure (loc : Nat → String → Int) (env1 env2 : ShaderEnv)
    (s : State F M) (hmode : s.useDeferredShading = true)
    (hfirst : (createShader env1 "../shader/deferred_pass1.vert"
      "../shader/deferred_pass1.frag" s).1 ≠ 0)
    (hsecond : (createShader env2 "../shader/deferred_pass2.vert"
      "../shader/deferred_pass2.frag"
      { s with shaderPass := (env1.glCreateProgram, s.shaderPass.2) }).1 = 0) :
    initShader loc env1 env2 s =
      ({ (createShader env2 "../shader/deferred_pass2.vert" "../shader/deferred_pass2.frag"
            { s with shaderPass := (env1.glCreateProgram, s.shaderPass.2) }).2.1 with
          shaderPass :=
            ((createShader env2 "../shader/deferred_pass2.vert" "../shader/deferred_pass2.frag"
              { s with shaderPass := (env1.glCreateProgram, s.shaderPass.2) }).2.1.shaderPass.1,
              0) },
        (createShader env1 "../shader/deferred_pass1.vert" "../shader/deferred_pass1.frag" s).2.2
          ++ (createShader env2 "../shader/deferred_pass2.vert" "../shader/deferred_pass2.frag"
            { s with shaderPass := (env1.glCreateProgram, s.shaderPass.2) }).2.2) := by
  obtain ⟨h1, h2⟩ := createShader_success env1 _ _ s hfirst
  have hp : env1.glCreateProgram ≠ 0 := h1 ▸ hfirst
  rcases hc1 : createShader env1 "../shader/deferred_pass1.vert"
    "../shader/deferred_pass1.frag" s with ⟨p1, s1, c1⟩
  rw [hc1] at h1 h2
  simp only at h1 h2
  subst h1 h2
  rcases hc2 : createShader env2 "../shader/deferred_pass2.vert"
    "../shader/deferred_pass2.frag"
    { s1 with shaderPass := (env1.glCreateProgram, s1.shaderPass.2) } with ⟨p2, s2, c2⟩
  rw [hc2] at hsecond
  simp only at hsecond
  subst hsecond
  unfold initShader
  rw [if_neg (by simp [hmode])]
  simp only [hc1, hp, if_false, hc2, if_true]

/-! ### Start-up issues no call of the render loop -/

theorem noLoopCalls_nil : NoLoopCalls ([] : List (Call F M)) := by
  intro c hc
  simp at hc

theorem noLoopCalls_cons (c : Call F M) (l : List (Call F M)) :
    NoLoopCalls (c :: l) ↔ c.isLoopCall = false ∧ NoLoopCalls l := by
  simp [NoLoopCalls]

theorem noLoopCalls_append (l1 l2 : List (Call F M)) :
    NoLoopCalls (l1 ++ l2) ↔ NoLoopCalls l1 ∧ NoLoopCalls l2 := by
  simp only [NoLoopCalls, List.mem_append]
  exact ⟨fun h => ⟨fun c hc => h c (Or.inl hc), fun c hc => h c (Or.inr hc)⟩,
    fun h c hc => hc.elim (h.1 c) (h.2 c)⟩

theorem loadShaderFile_noLoopCalls (env : ShaderEnv) (fileName : String)
    (shaderType : ShaderType) :
    NoLoopCalls (loadShaderFile (F := F) (M := M) env fileName shaderType).2 := by
  intro c hc
  rcases mem_loadShaderFile env fileName shaderType c hc with rfl | ⟨src, rfl⟩ | rfl | rfl <;> rfl

theorem deleteShader_noLoopCalls (s : State F M) : NoLoopCalls (deleteShader s).2 := by
  unfold deleteShader
  split <;> simp [noLoopCalls_cons, noLoopCalls_nil, Call.isLoopCall]

theorem createShader_noLoopCalls (env : ShaderEnv) (v f : String) (s : State F M) :
    NoLoopCalls (createShader env v f s).2.2 := by
  have h1 := loadShaderFile_noLoopCalls (F := F) (M := M) env v .GL_VERTEX_SHADER
  have h2 := loadShaderFile_noLoopCalls (F := F) (M := M) env f .GL_FRAGMENT_SHADER
  have h3 := deleteShader_noLoopCalls s
  rcases hv : loadShaderFile (F := F) (M := M) env v .GL_VERTEX_SHADER with ⟨vh, vc⟩
  rcases hf : loadShaderFile (F := F) (M := M) env f .GL_FRAGMENT_SHADER with ⟨fh, fc⟩
  rw [hv] at h1
  rw [hf] at h2
  simp only at h1 h2
  by_cases hp : env.glCreateProgram = 0
  · simp [createShader, hp, noLoopCalls_cons, noLoopCalls_nil, Call.isLoopCall]
  by_cases hv0 : vh = 0
  · simp [createShader, hp, loadShaderCode, hv, hf, hv0, noLoopCalls_cons, noLoopCalls_nil,
      noLoopCalls_append, Call.isLoopCall, h1, h2, h3]
  by_cases hf0 : fh = 0
  · simp [createShader, hp, loadShaderCode, hv, hf, hv0, hf0, noLoopCalls_cons, noLoopCalls_nil,
      noLoopCalls_append, Call.isLoopCall, h1, h2, h3]
  by_cases hl : env.programInfoLogLength > 0 <;>
    simp [createShader, hp, loadShaderCode, hv, hf, hv0, hf0, attachAndLink, hl,
      noLoopCalls_cons, noLoopCalls_nil, noLoopCalls_append, Call.isLoopCall, h1, h2]

theorem initShader_noLoopCalls (loc : Nat → String → Int) (env1 env2 : ShaderEnv)
    (s : State F M) : NoLoopCalls (initShader loc env1 env2 s).2 := by
  unfold initShader
  split
  · have h1 := createShader_noLoopCalls env1 "../shader/normal_mapping.vert"
      "../shader/normal_mapping.frag" s
    rcases hc1 : createShader env1 "../shader/normal_mapping.vert"
      "../shader/normal_mapping.frag" s with ⟨p1, s1, c1⟩
    rw [hc1] at h1
    simp only at h1 ⊢
    split
    · exact h1
    · simp [noLoopCalls_cons, noLoopCalls_nil, noLoopCalls_append, Call.isLoopCall, h1]
  · have h1 := createShader_noLoopCalls env1 "../shader/deferred_pass1.vert"
      "../shader/deferred_pass1.frag" s
    rcases hc1 : createShader env1 "../shader/deferred_pass1.vert"
      "../shader/deferred_pass1.frag" s with ⟨p1, s1, c1⟩
    rw [hc1] at h1
    simp only at h1 ⊢
    split
    · exact h1
    · have h2 := createShader_noLoopCalls env2 "../shader/deferred_pass2.vert"
        "../shader/deferred_pass2.frag" { s1 with shaderPass := (p1, s1.shaderPass.2) }
      rcases hc2 : createShader env2 "../shader/deferred_pass2.vert"
        "../shader/deferred_pass2.frag" { s1 with shaderPass := (p1, s1.shaderPass.2) }
        with ⟨p2, s2, c2⟩
      rw [hc2] at h2
      simp only at h2 ⊢
      split
      · exact (noLoopCalls_append c1 c2).2 ⟨h1, h2⟩
      · simp [noLoopCalls_cons, noLoopCalls_nil, noLoopCalls_append, Call.isLoopCall, h1, h2]

theorem createTextureFromFile_noLoopCalls (image : Option IplImage) (texID fileName : String)
    (s s1 : State F M) (c : List (Call F M))
    (h : createTextureFromFile image texID fileName s = some (s1, c)) : NoLoopCalls c := by
  have hload : ∀ texture heap calls,
      loadTextureData (F := F) (M := M) image fileName (s.textures texID) s.heap =
        some (texture, heap, calls) → NoLoopCalls calls := by
    intro texture heap calls hl
    unfold loadTextureData at hl
    split at hl
    · simp only at hl
      split at hl
      · simp at hl
      · simp only [Option.some.injEq, Prod.mk.injEq] at hl
        rw [← hl.2.2]
        simp [noLoopCalls_cons, noLoopCalls_nil, Call.isLoopCall]
    · simp only [Option.some.injEq, Prod.mk.injEq] at hl
      rw [← hl.2.2]
      simp [noLoopCalls_cons, noLoopCalls_nil, Call.isLoopCall]
  unfold createTextureFromFile at h
  split at h
  · simp at h
  · rename_i texture heap calls hl
    have hcalls := hload texture heap calls hl
    split at h
    · split at h
      · simp at h
      · simp only [Option.some.injEq, Prod.mk.injEq] at h
        rw [← h.2]
        simp [noLoopCalls_cons, noLoopCalls_nil, noLoopCalls_append, Call.isLoopCall, hcalls]
    · simp only [Option.some.injEq, Prod.mk.injEq] at h
      rw [← h.2]
      exact hcalls

theorem initTextures_noLoopCalls (diffuse normal : Option IplImage) (s s1 : State F M)
    (c : List (Call F M)) (h : initTextures diffuse normal s = some (s1, c)) :
    NoLoopCalls c := by
  unfold initTextures at h
  cases h1 : createTextureFromFile diffuse "diffuse" "../textures/diffuse.jpg" s with
  | none => simp [h1] at h
  | some r1 =>
    obtain ⟨s2, c2⟩ := r1
    simp only [h1] at h
    cases h2 : createTextureFromFile normal "normal" "../textures/normals.jpg" s2 with
    | none => simp [h2] at h
    | some r2 =>
      obtain ⟨s3, c3⟩ := r2
      simp only [h2, Option.some.injEq, Prod.mk.injEq] at h
      rw [← h.2]
      exact (noLoopCalls_append c2 c3).2
        ⟨createTextureFromFile_noLoopCalls _ _ _ _ _ _ h1,
          createTextureFromFile_noLoopCalls _ _ _ _ _ _ h2⟩

theorem initFBO_noLoopCalls (loc : Nat → String → Int) (fboName rbName : Nat) (s : State F M) :
    NoLoopCalls (initFBO loc fboName rbName s).2 := by
  simp [initFBO, createEmptyTexture, noLoopCalls_cons, noLoopCalls_nil, noLoopCalls_append,
    Call.isLoopCall]

theorem initScene_noLoopCalls (v : SceneValues F) (s : State F M) :
    NoLoopCalls (initScene v s).2 := by
  simp [initScene, noLoopCalls_cons, noLoopCalls_nil, Call.isLoopCall]

theorem main_init_noLoopCalls [GlmOps M] (env : MainEnv F M) (argv : List String)
    (s : State F M) (c : List (Call F M)) (h : main_init env argv = some (s, c)) :
    NoLoopCalls c := by
  unfold main_init at h
  simp only at h
  split at h
  · simp at h
  · rename_i s5 c2 hit
    simp only [Option.some.injEq, Prod.mk.injEq] at h
    rw [← h.2]
    have h0 : NoLoopCalls (initGL (F := F) (M := M)) := by
      simp [initGL, noLoopCalls_cons, noLoopCalls_nil, Call.isLoopCall]
    have h1 := initShader_noLoopCalls env.glGetUniformLocation env.shader1 env.shader2
      (main_globals (F := F) (M := M) env.atoi argv)
    have h2 := initTextures_noLoopCalls _ _ _ s5 c2 hit
    simp only [noLoopCalls_append]
    refine ⟨⟨⟨⟨h0, h1⟩, h2⟩, ?_⟩, initScene_noLoopCalls _ _⟩
    split
    · exact initFBO_noLoopCalls _ _ _ _
    · exact noLoopCalls_nil

/-! ### `main` and the guard `enableShader()` -/

theorem enableShader_zero (s : State F M) :
    enableShader 0 s =
      some (decide (firstPassProgram s > 0),
        if firstPassProgram s = 0 then [] else [Call.glUseProgram (firstPassProgram s)]) := by
  unfold enableShader firstPassProgram
  cases s.useDeferredShading with
  | false =>
    by_cases h : s.shaderProgram = 0
    · simp [h]
    · simp [h, Nat.pos_of_ne_zero h]
  | true =>
    by_cases h : s.shaderPass.1 = 0
    · simp [h]
    · simp [h]

theorem main_of_zero_program [GlmOps M] (env : MainEnv F M) (argv : List String)
    (s : State F M) (c : List (Call F M)) (hinit : main_init env argv = some (s, c))
    (hzero : firstPassProgram s = 0) : main env argv = .exit c := by
  unfold main
  rw [hinit]
  simp only
  rw [enableShader_zero, hzero]
  simp

theorem main_of_nonzero_program [GlmOps M] (env : MainEnv F M) (argv : List String)
    (s : State F M) (c : List (Call F M)) (hinit : main_init env argv = some (s, c))
    (hnonzero : firstPassProgram s ≠ 0)
    (hevents : ∀ e ∈ env.events, e.mouseStateAssigned = true) :
    mainLoop env.events s ≠ .undefined ∧
    (main env argv).calls = c ++ [Call.glUseProgram (firstPassProgram s)] ++
      Call.glutMainLoop :: (mainLoop env.events s).calls := by
  have hready := main_init_runReady env argv s c hinit
  have hne := mainLoop_defined env.events s hready hevents
  refine ⟨hne, ?_⟩
  unfold main
  rw [hinit]
  simp only
  rw [enableShader_zero]
  simp only [hnonzero, if_false, Nat.pos_of_ne_zero hnonzero, decide_True]
  cases hloop : mainLoop env.events s with
  | undefined => exact absurd hloop hne
  | exit c6 => rfl
  | running s1 c6 => rfl

theorem not_mem_of_noLoopCalls (c : List (Call F M)) (h : NoLoopCalls c) :
    Call.glutMainLoop ∉ c ∧ c.countP Call.isRender = 0 := by
  refine ⟨fun hmem => ?_, ?_⟩
  · have := h _ hmem
    simp [Call.isLoopCall] at this
  · rw [List.countP_eq_zero]
    intro x hx
    have := h x hx
    cases x <;> simp_all [Call.isLoopCall, Call.isRender]

/-! ### The program in use during a deferred-mode frame -/

theorem boundProgram_append (b : Nat) (l1 l2 : List (Call F M)) :
    boundProgram b (l1 ++ l2) = boundProgram (boundProgram b l1) l2 := by
  simp [boundProgram, List.foldl_append]

theorem boundProgram_cons (b : Nat) (c : Call F M) (l : List (Call F M)) :
    boundProgram b (c :: l) = boundProgram (Call.programAfter b c) l := rfl

theorem boundProgram_of_forall (l : List (Call F M))
    (h : ∀ c ∈ l, ∀ b, Call.programAfter b c = b) : ∀ b, boundProgram b l = b := by
  induction l with
  | nil => intro b; rfl
  | cons c rest ih =>
    intro b
    rw [boundProgram_cons, h c (List.mem_cons_self c rest) b]
    exact ih (fun x hx => h x (List.mem_cons_of_mem c hx)) b

theorem setup_boundProgram (setup : List (Call F M))
    (hup : ∀ c ∈ setup, c.isShadingUpload = true) (b : Nat) : boundProgram b setup = b := by
  refine boundProgram_of_forall setup ?_ b
  intro c hc b
  have := hup c hc
  cases c <;> first | rfl | (simp [Call.isShadingUpload] at this)

theorem bindTextureCalls_boundProgram (s : State F M) (texID : String) (unit b : Nat) :
    boundProgram b (bindTextureCalls s texID unit) = b := rfl

theorem compositePassCalls_boundProgram [GlmOps M] (s : State F M) (t : M)
    (setup : List (Call F M)) (hup : ∀ c ∈ setup, c.isShadingUpload = true) (b : Nat) :
    boundProgram b (compositePassCalls s t setup) = b := by
  unfold compositePassCalls
  simp only [boundProgram_append, bindTextureCalls_boundProgram]
  rw [boundProgram_cons, boundProgram_cons, boundProgram_cons]
  show boundProgram (boundProgram (boundProgram b setup) _) _ = b
  rw [setup_boundProgram setup hup]
  cases s.screenQuad <;> rfl

theorem geometryPassCalls_boundProgram [GlmOps M] (s : State F M) (t : M) (b : Nat) :
    boundProgram b (geometryPassCalls s t) = s.shaderPass.2 := by
  unfold geometryPassCalls
  rw [boundProgram_append]
  rfl

theorem updateGL_deferred_frame [GlmOps M] (projection modelview : M) (s : State F M)
    (h : RunReady s) (hmode : s.useDeferredShading = true) :
    ∃ s1 post, updateGL projection modelview s =
        some (s1, [Call.glClear, Call.glViewport s.windowWidth s.windowHeight] ++
          Call.glUniformMatrix4fv (s.uniformLocations "projection") projection :: post) ∧
      RunReady s1 ∧ s1.useDeferredShading = true ∧ s1.shaderPass = s.shaderPass ∧
      s1.uniformLocations = s.uniformLocations ∧ s1.windowWidth = s.windowWidth ∧
      s1.windowHeight = s.windowHeight ∧
      ∀ b, boundProgram b post = s.shaderPass.2 := by
  have hfr := runReady_frameReady s h
  obtain ⟨h1, h2, h3, h4, h5, h6, h7⟩ := h
  obtain ⟨t, rest, hs⟩ := frameReady_stack s hfr
  cases hp : s.glm_ProjectionMatrix with
  | nil => exact absurd hp h2
  | cons p prest =>
    have hready : FrameReady ({ s with
        glm_ProjectionMatrix := projection :: prest,
        glm_ModelViewMatrix := modelview :: rest } : State F M) :=
      ⟨by simp, hfr.2.1, hfr.2.2.1, hfr.2.2.2⟩
    obtain ⟨setup, hsetup⟩ := setupLightAndMaterial_defined _ hready
    have hup := setupLightAndMaterial_calls _ setup hsetup
    have hrs := renderScene_deferred ({ s with
      glm_ProjectionMatrix := projection :: prest,
      glm_ModelViewMatrix := modelview :: rest } : State F M) modelview rest setup hmode rfl
      hsetup
    have hrun := updateGL_run projection modelview p t prest rest s _ _ hp hs hrs
    refine ⟨({ ({ s with
        glm_ProjectionMatrix := projection :: prest,
        glm_ModelViewMatrix := modelview :: rest } : State F M) with screenQuad := true }),
      (geometryPassCalls ({ s with
        glm_ProjectionMatrix := projection :: prest,
        glm_ModelViewMatrix := modelview :: rest } : State F M) modelview ++
      Call.glBindFramebuffer 0 :: compositePassCalls ({ s with
        glm_ProjectionMatrix := projection :: prest,
        glm_ModelViewMatrix := modelview :: rest } : State F M) modelview setup) ++
        [Call.glutSwapBuffers],
      ?_, ⟨by simp, by simp, h3, h4, h5, h6, h7⟩, hmode, rfl, rfl, rfl, rfl, ?_⟩
    · rw [hrun]
      simp only [List.cons_append, List.nil_append, List.append_assoc]
    intro b
    have hcomp : ∀ x, boundProgram x (Call.glBindFramebuffer 0 :: compositePassCalls ({ s with
        glm_ProjectionMatrix := projection :: prest,
        glm_ModelViewMatrix := modelview :: rest } : State F M) modelview setup) = x := by
      intro x
      rw [boundProgram_cons]
      exact compositePassCalls_boundProgram _ _ _ hup _
    have hswap : ∀ x, boundProgram x ([Call.glutSwapBuffers] : List (Call F M)) = x :=
      fun _ => rfl
    rw [boundProgram_append, hswap, boundProgram_append, hcomp,
      geometryPassCalls_boundProgram]

theorem initShader_deferred_success (loc : Nat → String → Int) (env1 env2 : ShaderEnv)
    (s : State F M) (hmode : s.useDeferredShading = true)
    (hfirst : (createShader env1 "../shader/deferred_pass1.vert"
      "../shader/deferred_pass1.frag" s).1 ≠ 0)
    (hsecond : (createShader env2 "../shader/deferred_pass2.vert"
      "../shader/deferred_pass2.frag"
      { s with shaderPass := (env1.glCreateProgram, s.shaderPass.2) }).1 ≠ 0) :
    (initShader loc env1 env2 s).1.shaderPass = (env1.glCreateProgram, env2.glCreateProgram) ∧
    (initShader loc env1 env2 s).1.uniformLocations "projection" =
      loc env1.glCreateProgram "projection" := by
  have hl1 : ∀ p (s : State F M),
      (storeLightLocations loc p s).uniformLocations = s.uniformLocations :=
    fun p s => storeLightLocations_frame (fun s => s.uniformLocations) (fun _ _ => rfl) loc p s
  have hl2 : ∀ p (s : State F M), (storeLightLocations loc p s).shaderPass = s.shaderPass :=
    fun p s => storeLightLocations_frame (fun s => s.shaderPass) (fun _ _ => rfl) loc p s
  obtain ⟨h1, h2⟩ := createShader_success env1 _ _ s hfirst
  have hp : env1.glCreateProgram ≠ 0 := h1 ▸ hfirst
  obtain ⟨h3, h4⟩ := createShader_success env2 _ _ _ hsecond
  have hp2 : env2.glCreateProgram ≠ 0 := h3 ▸ hsecond
  rcases hc1 : createShader env1 "../shader/deferred_pass1.vert"
    "../shader/deferred_pass1.frag" s with ⟨p1, s1, c1⟩
  rw [hc1] at h1 h2
  simp only at h1 h2
  subst h1 h2
  rcases hc2 : createShader env2 "../shader/deferred_pass2.vert"
    "../shader/deferred_pass2.frag"
    { s1 with shaderPass := (env1.glCreateProgram, s1.shaderPass.2) } with ⟨p2, s2, c2⟩
  rw [hc2] at h3 h4
  simp only at h3 h4
  subst h3 h4
  unfold initShader
  rw [if_neg (by simp [hmode])]
  simp only [hc1, hp, if_false, hc2, hp2]
  simp [hl1, hl2, State.setUniform, State.setTextureUniform, State.setTexture, Function.update]

theorem initShader_first_failure (loc : Nat → String → Int) (env1 env2 : ShaderEnv)
    (s : State F M) (hmode : s.useDeferredShading = true)
    (hfirst : (createShader env1 "../shader/deferred_pass1.vert"
      "../shader/deferred_pass1.frag" s).1 = 0) :
    (initShader loc env1 env2 s).1.shaderPass.1 = 0 := by
  rcases hc1 : createShader env1 "../shader/deferred_pass1.vert"
    "../shader/deferred_pass1.frag" s with ⟨p1, s1, c1⟩
  rw [hc1] at hfirst
  simp only at hfirst
  subst hfirst
  unfold initShader
  rw [if_neg (by simp [hmode])]
  simp only [hc1, if_true]

theorem initShader_projection_location (loc : Nat → String → Int) (env1 env2 : ShaderEnv)
    (s : State F M) (hmode : s.useDeferredShading = true)
    (h1 : (initShader loc env1 env2 s).1.shaderPass.1 ≠ 0)
    (h2 : (initShader loc env1 env2 s).1.shaderPass.2 ≠ 0) :
    (initShader loc env1 env2 s).1.uniformLocations "projection" =
      loc (initShader loc env1 env2 s).1.shaderPass.1 "projection" := by
  by_cases hfirst : (createShader env1 "../shader/deferred_pass1.vert"
      "../shader/deferred_pass1.frag" s).1 = 0
  · exact absurd (initShader_first_failure loc env1 env2 s hmode hfirst) h1
  by_cases hsecond : (createShader env2 "../shader/deferred_pass2.vert"
      "../shader/deferred_pass2.frag"
      { s with shaderPass := (env1.glCreateProgram, s.shaderPass.2) }).1 = 0
  · rw [initShader_second_failure loc env1 env2 s hmode hfirst hsecond] at h2
    exact absurd rfl h2
  · obtain ⟨hpass, hloc⟩ := initShader_deferred_success loc env1 env2 s hmode hfirst hsecond
    rw [hloc, hpass]

theorem main_init_shader_state [GlmOps M] (env : MainEnv F M) (argv : List String)
    (s : State F M) (c : List (Call F M)) (h : main_init env argv = some (s, c)) :
    s.shaderPass = (initShader env.glGetUniformLocation env.shader1 env.shader2
      (main_globals (F := F) (M := M) env.atoi argv)).1.shaderPass ∧
    s.uniformLocations = (initShader env.glGetUniformLocation env.shader1 env.shader2
      (main_globals (F := F) (M := M) env.atoi argv)).1.uniformLocations := by
  unfold main_init at h
  simp only at h
  split at h
  · simp at h
  · rename_i s5 c2 hit
    simp only [Option.some.injEq, Prod.mk.injEq] at h
    have h5 := initTextures_frame
      (fun s : State F M => (s.shaderPass, s.uniformLocations))
      (fun _ _ _ _ => rfl) _ _ _ s5 c2 hit
    have h7 := initScene_frame
      (fun s : State F M => (s.shaderPass, s.uniformLocations))
      (fun _ _ _ _ _ _ => rfl) env.scene
    have h6 := initFBO_frame
      (fun s : State F M => (s.shaderPass, s.uniformLocations))
      (fun _ _ _ _ _ => rfl) env.glGetUniformLocation env.fboName env.rbName s5
    simp only [Prod.mk.injEq] at h5 h6 h7
    rw [← h.1, (h7 _).1, (h7 _).2]
    split
    · rw [h6.1, h6.2]
      exact h5
    · exact h5

theorem main_init_projection_location [GlmOps M] (env : MainEnv F M) (argv : List String)
    (s : State F M) (c : List (Call F M)) (h : main_init env argv = some (s, c))
    (hmode : s.useDeferredShading = true)
    (h1 : s.shaderPass.1 ≠ 0) (h2 : s.shaderPass.2 ≠ 0) :
    s.uniformLocations "projection" = env.glGetUniformLocation s.shaderPass.1 "projection" := by
  obtain ⟨hpass, hloc⟩ := main_init_shader_state env argv s c h
  have hm : (main_globals (F := F) (M := M) env.atoi argv).useDeferredShading = true := by
    rw [← hmode, main_init_mode env argv s c h]
    rfl
  rw [hpass] at h1 h2 ⊢
  rw [hloc]
  exact initShader_projection_location _ _ _ _ hm h1 h2

/-! ### What a frame selects and what the render loop keeps -/

theorem usedPrograms_append (l1 l2 : List (Call F M)) :
    usedPrograms (l1 ++ l2) = usedPrograms l1 ++ usedPrograms l2 := by
  simp [usedPrograms, List.filterMap_append]

theorem usedPrograms_eq_nil (l : List (Call F M))
    (h : ∀ c ∈ l, ∀ program, c ≠ Call.glUseProgram program) : usedPrograms l = [] := by
  induction l with
  | nil => rfl
  | cons c rest ih =>
    have h1 := ih (fun x hx => h x (List.mem_cons_of_mem c hx))
    have h2 := h c (List.mem_cons_self c rest)
    cases c
    case glUseProgram program => exact absurd rfl (h2 program)
    all_goals exact h1

theorem gridCalls_usedPrograms [GlmOps M] (s : State F M) (t : M) :
    usedPrograms (gridCalls s t) = [] := by
  apply usedPrograms_eq_nil
  intro c hc program
  rcases mem_gridCalls s t c hc with ⟨m, rfl⟩ | rfl <;> exact fun h => Call.noConfusion h

theorem setup_usedPrograms (setup : List (Call F M))
    (hup : ∀ c ∈ setup, c.isShadingUpload = true) : usedPrograms setup = [] := by
  apply usedPrograms_eq_nil
  intro c hc program hcp
  have := hup c hc
  rw [hcp] at this
  simp [Call.isShadingUpload] at this

theorem bindTextureCalls_usedPrograms (s : State F M) (texID : String) (unit : Nat) :
    usedPrograms (bindTextureCalls s texID unit) = [] := rfl

theorem forwardCalls_usedPrograms [GlmOps M] (s : State F M) (t : M)
    (setup : List (Call F M)) (hup : ∀ c ∈ setup, c.isShadingUpload = true) :
    usedPrograms (forwardCalls s t setup) = [s.shaderProgram] := by
  unfold forwardCalls
  simp only [usedPrograms_append, gridCalls_usedPrograms, setup_usedPrograms setup hup,
    bindTextureCalls_usedPrograms, List.append_nil]
  rfl

theorem deferredCalls_usedPrograms [GlmOps M] (s : State F M) (t : M)
    (setup : List (Call F M)) (hup : ∀ c ∈ setup, c.isShadingUpload = true) :
    usedPrograms (geometryPassCalls s t ++
      Call.glBindFramebuffer 0 :: compositePassCalls s t setup) =
      [s.shaderPass.1, s.shaderPass.2] := by
  have hq : usedPrograms ((if !s.screenQuad then [Call.screenQuadSetData] else []) :
      List (Call F M)) = [] := by
    cases s.screenQuad <;> rfl
  have hrender : usedPrograms ([Call.render Mesh.screenQuad] : List (Call F M)) = [] := rfl
  have hclear : usedPrograms ([Call.glClear] : List (Call F M)) = [] := rfl
  have hcomp : usedPrograms (compositePassCalls s t setup) = [] := by
    unfold compositePassCalls
    simp only [usedPrograms_append, setup_usedPrograms setup hup,
      bindTextureCalls_usedPrograms, hq, hrender, List.append_nil]
    rfl
  have hbind : usedPrograms (Call.glBindFramebuffer 0 :: compositePassCalls s t setup) = [] := by
    rw [← List.singleton_append, usedPrograms_append, hcomp]
    rfl
  unfold geometryPassCalls
  simp only [usedPrograms_append, gridCalls_usedPrograms, bindTextureCalls_usedPrograms, hbind,
    hclear, List.append_nil]
  rfl

theorem updateGL_frame [GlmOps M] (projection modelview : M) (s : State F M)
    (h : RunReady s) :
    ∃ s1 c, updateGL projection modelview s = some (s1, c) ∧ RunReady s1 ∧
      s1.shaderSetup = s.shaderSetup ∧
      usedPrograms c = framePrograms s ∧
      c.countP Call.isRender = if s.useDeferredShading then 442 else 441 := by
  have hfr := runReady_frameReady s h
  obtain ⟨h1, h2, h3, h4, h5, h6, h7⟩ := h
  obtain ⟨t, rest, hs⟩ := frameReady_stack s hfr
  cases hp : s.glm_ProjectionMatrix with
  | nil => exact absurd hp h2
  | cons p prest =>
    have hready : FrameReady ({ s with
        glm_ProjectionMatrix := projection :: prest,
        glm_ModelViewMatrix := modelview :: rest } : State F M) :=
      ⟨by simp, hfr.2.1, hfr.2.2.1, hfr.2.2.2⟩
    obtain ⟨setup, hsetup⟩ := setupLightAndMaterial_defined _ hready
    have hup := setupLightAndMaterial_calls _ setup hsetup
    have hpre : usedPrograms ([Call.glClear, Call.glViewport s.windowWidth s.windowHeight,
        Call.glUniformMatrix4fv (s.uniformLocations "projection") projection] :
        List (Call F M)) = [] := rfl
    have hpost : usedPrograms ([Call.glutSwapBuffers] : List (Call F M)) = [] := rfl
    have hpreR : ([Call.glClear, Call.glViewport s.windowWidth s.windowHeight,
        Call.glUniformMatrix4fv (s.uniformLocations "projection") projection] :
        List (Call F M)).countP Call.isRender = 0 := rfl
    have hpostR : ([Call.glutSwapBuffers] : List (Call F M)).countP Call.isRender = 0 := rfl
    cases hmode : s.useDeferredShading with
    | false =>
      have hrs := renderScene_forward ({ s with
        glm_ProjectionMatrix := projection :: prest,
        glm_ModelViewMatrix := modelview :: rest } : State F M) modelview rest setup hmode rfl
        hsetup
      have hrun := updateGL_run projection modelview p t prest rest s _ _ hp hs hrs
      refine ⟨_, _, hrun, ⟨by simp, by simp, h3, h4, h5, h6, h7⟩, rfl, ?_, ?_⟩
      · rw [usedPrograms_append, usedPrograms_append, hpre, hpost,
          forwardCalls_usedPrograms _ _ _ hup]
        simp [framePrograms, hmode]
      · rw [List.countP_append, List.countP_append, hpreR, hpostR,
          (forwardCalls_counts _ _ setup hup).2]
        rfl
    | true =>
      have hrs := renderScene_deferred ({ s with
        glm_ProjectionMatrix := projection :: prest,
        glm_ModelViewMatrix := modelview :: rest } : State F M) modelview rest setup hmode rfl
        hsetup
      have hrun := updateGL_run projection modelview p t prest rest s _ _ hp hs hrs
      refine ⟨_, _, hrun, ⟨by simp, by simp, h3, h4, h5, h6, h7⟩, rfl, ?_, ?_⟩
      · rw [usedPrograms_append, usedPrograms_append, hpre, hpost,
          deferredCalls_usedPrograms _ _ _ hup]
        simp [framePrograms, hmode]
      · rw [List.countP_append, List.countP_append, hpreR, hpostR, List.countP_append,
          List.countP_cons, (geometryPassCalls_counts _ _).2,
          (compositePassCalls_counts _ _ setup hup).2.1]
        rfl

theorem toggleLightSource_shaderSetup (i : Nat) (s s1 : State F M)
    (h : toggleLightSource i s = some s1) : s1.shaderSetup = s.shaderSetup := by
  unfold toggleLightSource at h
  split at h
  · split at h
    · simp at h
    · simp only [Option.some.injEq] at h
      rw [← h]
      rfl
  · simp only [Option.some.injEq] at h
    rw [← h]

theorem toggle_outcome_shaderSetup (i : Nat) (s s1 : State F M) (c : List (Call F M))
    (h : (match toggleLightSource i s with
      | none => Outcome.undefined
      | some s => Outcome.running s [Call.glutPostRedisplay]) = Outcome.running s1 c) :
    s1.shaderSetup = s.shaderSetup := by
  cases ht : toggleLightSource i s with
  | none => simp [ht] at h
  | some s2 =>
    simp only [ht, Outcome.running.injEq] at h
    rw [← h.1]
    exact toggleLightSource_shaderSetup i s s2 ht

theorem keyboardEvent_shaderSetup (key : Char) (s s1 : State F M) (c : List (Call F M))
    (h : keyboardEvent key s = .running s1 c) : s1.shaderSetup = s.shaderSetup := by
  unfold keyboardEvent at h
  by_cases h1 : key = 'x' ∨ key = Char.ofNat 27
  · simp [h1] at h
  · rw [if_neg h1] at h
    by_cases h2 : key ∈ ['w', 's', 'a', 'd', 'z', 'h', 'r', 'f', 't', 'g']
    · rw [if_pos h2] at h
      simp only [Outcome.running.injEq] at h
      rw [← h.1]
    · rw [if_neg h2] at h
      by_cases h3 : key = 'm'
      · rw [if_pos h3] at h
        simp only [Outcome.running.injEq] at h
        rw [← h.1]
        split <;> rfl
      · rw [if_neg h3] at h
        by_cases h4 : key.isDigit = true
        · rw [if_pos h4] at h
          simp only at h
          split at h
          all_goals first
            | exact toggle_outcome_shaderSetup _ s s1 c h
            | (split at h
               all_goals first
                 | exact toggle_outcome_shaderSetup _ s s1 c h
                 | (simp only [Outcome.running.injEq] at h; rw [← h.1]))
        · rw [if_neg h4] at h
          simp only [Outcome.running.injEq] at h
          rw [← h.1]

theorem mainLoop_shaderSetup [GlmOps M] (events : List (Event M)) (s s1 : State F M)
    (c : List (Call F M)) (h : RunReady s) (hrun : mainLoop events s = .running s1 c) :
    RunReady s1 ∧ s1.shaderSetup = s.shaderSetup := by
  refine mainLoop_invariant (fun s2 => RunReady s2 ∧ s2.shaderSetup = s.shaderSetup) ?_ ?_
    events s s1 c ⟨h, rfl⟩ hrun
  · intro s2 projection modelview s3 c3 hP hu
    obtain ⟨s4, c4, hu4, hr4, hk4, -, -⟩ := updateGL_frame projection modelview s2 hP.1
    rw [hu4] at hu
    simp only [Option.some.injEq, Prod.mk.injEq] at hu
    rw [← hu.1]
    exact ⟨hr4, hk4.trans hP.2⟩
  · intro s2 key s3 c3 hP hk
    exact ⟨(keyboardEvent_runReady key s2 hP.1).2 s3 c3 hk,
      (keyboardEvent_shaderSetup key s2 s3 c3 hk).trans hP.2⟩

theorem createShader_link_failure_eq (env : ShaderEnv) (v f : String) (s : State F M)
    (hprogram : env.glCreateProgram ≠ 0)
    (hvertex : (loadShaderFile (F := F) (M := M) env v .GL_VERTEX_SHADER).1 ≠ 0)
    (hfragment : (loadShaderFile (F := F) (M := M) env f .GL_FRAGMENT_SHADER).1 ≠ 0)
    (hlink : env.programInfoLogLength > 0) :
    createShader env v f s = (0, s, Call.glCreateProgram env.glCreateProgram ::
      ((loadShaderFile env v .GL_VERTEX_SHADER).2 ++
        (loadShaderFile env f .GL_FRAGMENT_SHADER).2 ++
        [ Call.glAttachShader env.glCreateProgram (env.glCreateShader .GL_VERTEX_SHADER),
          Call.glAttachShader env.glCreateProgram (env.glCreateShader .GL_FRAGMENT_SHADER),
          Call.glDeleteShader (env.glCreateShader .GL_VERTEX_SHADER),
          Call.glDeleteShader (env.glCreateShader .GL_FRAGMENT_SHADER),
          Call.glLinkProgram env.glCreateProgram,
          Call.printLinkerLog env.glCreateProgram,
          Call.glDeleteProgram env.glCreateProgram ])) := by
  have hv := loadShaderFile_handle (F := F) (M := M) env v .GL_VERTEX_SHADER
  have hf := loadShaderFile_handle (F := F) (M := M) env f .GL_FRAGMENT_SHADER
  have hvh : (loadShaderFile (F := F) (M := M) env v .GL_VERTEX_SHADER).1 =
      env.glCreateShader .GL_VERTEX_SHADER := by
    rw [hv] at hvertex ⊢
    split
    · rfl
    · rename_i hno
      simp [hno] at hvertex
  have hfh : (loadShaderFile (F := F) (M := M) env f .GL_FRAGMENT_SHADER).1 =
      env.glCreateShader .GL_FRAGMENT_SHADER := by
    rw [hf] at hfragment ⊢
    split
    · rfl
    · rename_i hno
      simp [hno] at hfragment
  rcases hlv : loadShaderFile (F := F) (M := M) env v .GL_VERTEX_SHADER with ⟨vh, vc⟩
  rcases hlf : loadShaderFile (F := F) (M := M) env f .GL_FRAGMENT_SHADER with ⟨fh, fc⟩
  rw [hlv] at hvh hvertex
  rw [hlf] at hfh hfragment
  simp only at hvh hfh hvertex hfragment
  subst hvh hfh
  simp [createShader, hprogram, loadShaderCode, hlv, hlf, hvertex, hfragment, attachAndLink,
    hlink]

/-! ### The light slots `initShader` registers -/

theorem initShader_forward_result (loc : Nat → String → Int) (env1 env2 : ShaderEnv)
    (s : State F M) (hmode : s.useDeferredShading = false) :
    ((createShader env1 "../shader/normal_mapping.vert" "../shader/normal_mapping.frag" s).1 = 0 →
      (initShader loc env1 env2 s).1.shaderProgram = 0) ∧
    ((createShader env1 "../shader/normal_mapping.vert" "../shader/normal_mapping.frag" s).1 ≠ 0 →
      (initShader loc env1 env2 s).1.shaderProgram = env1.glCreateProgram ∧
      ∀ key ∈ registeredLightKeys, ∃ i : Nat, i < 10 ∧ key = lightKey (Int.ofNat i) ∧
        (initShader loc env1 env2 s).1.uniformLocations_Lights key =
          lightLocation loc env1.glCreateProgram (Int.ofNat i)) := by
  have hl1 : ∀ p (s : State F M), (storeLightLocations loc p s).shaderProgram = s.shaderProgram :=
    fun p s => storeLightLocations_frame (fun s => s.shaderProgram) (fun _ _ => rfl) loc p s
  rcases hc1 : createShader env1 "../shader/normal_mapping.vert"
    "../shader/normal_mapping.frag" s with ⟨p1, s1, c1⟩
  constructor
  · intro h0
    simp only at h0
    subst h0
    unfold initShader
    rw [if_pos (by simp [hmode])]
    simp only [hc1, if_true]
  · intro hne
    have hsucc := createShader_success env1 "../shader/normal_mapping.vert"
      "../shader/normal_mapping.frag" s (by rw [hc1]; exact hne)
    rw [hc1] at hsucc
    simp only at hne hsucc
    obtain ⟨hp, -⟩ := hsucc
    subst hp
    unfold initShader
    rw [if_pos (by simp [hmode])]
    simp only [hc1, hne, if_false]
    refine ⟨by simp [hl1, State.setUniform, State.setTextureUniform, State.setTexture], ?_⟩
    simp only [State.setUniform, State.setTextureUniform, State.setTexture]
    exact storeLightLocations_lights loc env1.glCreateProgram _

theorem initShader_deferred_lightSlots (loc : Nat → String → Int) (env1 env2 : ShaderEnv)
    (s : State F M) (hmode : s.useDeferredShading = true)
    (hfirst : (createShader env1 "../shader/deferred_pass1.vert"
      "../shader/deferred_pass1.frag" s).1 ≠ 0)
    (hsecond : (createShader env2 "../shader/deferred_pass2.vert"
      "../shader/deferred_pass2.frag"
      { s with shaderPass := (env1.glCreateProgram, s.shaderPass.2) }).1 ≠ 0) :
    ∀ key ∈ registeredLightKeys, ∃ i : Nat, i < 10 ∧ key = lightKey (Int.ofNat i) ∧
      (initShader loc env1 env2 s).1.uniformLocations_Lights key =
        lightLocation loc env2.glCreateProgram (Int.ofNat i) := by
  obtain ⟨h1, h2⟩ := createShader_success env1 _ _ s hfirst
  have hp : env1.glCreateProgram ≠ 0 := h1 ▸ hfirst
  obtain ⟨h3, h4⟩ := createShader_success env2 _ _ _ hsecond
  have hp2 : env2.glCreateProgram ≠ 0 := h3 ▸ hsecond
  rcases hc1 : createShader env1 "../shader/deferred_pass1.vert"
    "../shader/deferred_pass1.frag" s with ⟨p1, s1, c1⟩
  rw [hc1] at h1 h2
  simp only at h1 h2
  subst h1 h2
  rcases hc2 : createShader env2 "../shader/deferred_pass2.vert"
    "../shader/deferred_pass2.frag"
    { s1 with shaderPass := (env1.glCreateProgram, s1.shaderPass.2) } with ⟨p2, s2, c2⟩
  rw [hc2] at h3 h4
  simp only at h3 h4
  subst h3 h4
  unfold initShader
  rw [if_neg (by simp [hmode])]
  simp only [hc1, hp, if_false, hc2, hp2]
  simp only [State.setUniform, State.setTextureUniform, State.setTexture]
  exact storeLightLocations_lights loc env2.glCreateProgram _

theorem initShader_lightSlots (loc : Nat → String → Int) (env1 env2 : ShaderEnv)
    (s : State F M)
    (h1 : firstPassProgram (initShader loc env1 env2 s).1 ≠ 0)
    (h2 : shadingProgram (initShader loc env1 env2 s).1 ≠ 0) :
    ∀ key ∈ registeredLightKeys, ∃ i : Nat, i < 10 ∧ key = lightKey (Int.ofNat i) ∧
      (initShader loc env1 env2 s).1.uniformLocations_Lights key =
        lightLocation loc (shadingProgram (initShader loc env1 env2 s).1) (Int.ofNat i) := by
  have hm := initShader_mode loc env1 env2 s
  unfold firstPassProgram at h1
  unfold shadingProgram at h2 ⊢
  rw [hm] at h1 h2 ⊢
  cases hmode : s.useDeferredShading with
  | false =>
    simp only [hmode, Bool.false_eq_true, if_false] at h1 h2 ⊢
    obtain ⟨hfail, hsucc⟩ := initShader_forward_result loc env1 env2 s hmode
    by_cases hfirst : (createShader env1 "../shader/normal_mapping.vert"
        "../shader/normal_mapping.frag" s).1 = 0
    · exact absurd (hfail hfirst) h1
    · obtain ⟨hprog, hslots⟩ := hsucc hfirst
      rw [hprog]
      exact hslots
  | true =>
    simp only [hmode, if_true] at h1 h2 ⊢
    by_cases hfirst : (createShader env1 "../shader/deferred_pass1.vert"
        "../shader/deferred_pass1.frag" s).1 = 0
    · exact absurd (initShader_first_failure loc env1 env2 s hmode hfirst) h1
    by_cases hsecond : (createShader env2 "../shader/deferred_pass2.vert"
        "../shader/deferred_pass2.frag"
        { s with shaderPass := (env1.glCreateProgram, s.shaderPass.2) }).1 = 0
    · rw [initShader_second_failure loc env1 env2 s hmode hfirst hsecond] at h2
      exact absurd rfl h2
    · rw [(initShader_deferred_success loc env1 env2 s hmode hfirst hsecond).1]
      exact initShader_deferred_lightSlots loc env1 env2 s hmode hfirst hsecond

theorem main_init_shaderSetup [GlmOps M] (env : MainEnv F M) (argv : List String)
    (s0 : State F M) (c0 : List (Call F M)) (hinit : main_init env argv = some (s0, c0)) :
    s0.shaderSetup = (initShader env.glGetUniformLocation env.shader1 env.shader2
      (main_globals (F := F) (M := M) env.atoi argv)).1.shaderSetup := by
  unfold main_init at hinit
  simp only at hinit
  split at hinit
  · simp at hinit
  · rename_i s5 c2 hit
    simp only [Option.some.injEq, Prod.mk.injEq] at hinit
    have h5 := initTextures_frame (fun s : State F M => s.shaderSetup)
      (fun _ _ _ _ => rfl) _ _ _ s5 c2 hit
    have h7 := initScene_frame (fun s : State F M => s.shaderSetup)
      (fun _ _ _ _ _ _ => rfl) env.scene
    have h6 := initFBO_frame (fun s : State F M => s.shaderSetup)
      (fun _ _ _ _ _ => rfl) env.glGetUniformLocation env.fboName env.rbName s5
    simp only at h5 h6 h7
    rw [← hinit.1, h7]
    split
    · rw [h6]
      exact h5
    · exact h5

theorem shaderSetup_programs (s t : State F M) (h : s.shaderSetup = t.shaderSetup) :
    firstPassProgram s = firstPassProgram t ∧ shadingProgram s = shadingProgram t ∧
    framePrograms s = framePrograms t ∧
    s.uniformLocations_Lights = t.uniformLocations_Lights := by
  have hmode : s.useDeferredShading = t.useDeferredShading := congrArg (·.1) h
  have hprogram : s.shaderProgram = t.shaderProgram := congrArg (·.2.1) h
  have hpass : s.shaderPass = t.shaderPass := congrArg (·.2.2.1) h
  have hlights : s.uniformLocations_Lights = t.uniformLocations_Lights :=
    congrArg (·.2.2.2.2) h
  simp only [firstPassProgram, shadingProgram, framePrograms, hmode, hprogram, hpass, hlights,
    and_self]

theorem main_init_mainLoop_state [GlmOps M] (env : MainEnv F M) (argv : List String)
    (s0 : State F M) (c0 : List (Call F M)) (events : List (Event M)) (s : State F M)
    (c : List (Call F M)) (hinit : main_init env argv = some (s0, c0))
    (hrun : mainLoop events s0 = .running s c) :
    RunReady s ∧
    s.shaderSetup = (initShader env.glGetUniformLocation env.shader1 env.shader2
      (main_globals (F := F) (M := M) env.atoi argv)).1.shaderSetup := by
  have hready := main_init_runReady env argv s0 c0 hinit
  obtain ⟨hr, hk⟩ := mainLoop_shaderSetup events s0 s c hready hrun
  exact ⟨hr, hk.trans (main_init_shaderSetup env argv s0 c0 hinit)⟩

theorem mem_of_mem_lightSlotKeys (calls : List (Call F M)) (key : String)
    (h : key ∈ lightSlotKeys calls) : Call.lightSlot key ∈ calls := by
  induction calls with
  | nil => simp [lightSlotKeys] at h
  | cons c rest ih =>
    cases c
    case lightSlot k =>
      simp only [lightSlotKeys, List.mem_cons] at h
      rcases h with rfl | h
      · exact List.mem_cons_self _ _
      · exact List.mem_cons_of_mem _ (ih h)
    all_goals exact List.mem_cons_of_mem _ (ih (by simpa [lightSlotKeys] using h))

end Lemmas

/-! ## Claims -/

section Claims

variable {F M : Type}

/-- C1: `setupLightAndMaterial` uploads the enabled lights contiguously.  With `k` the
number of enabled lights among the first `lightCount` lights, the calls issued are exactly:
for `j = 0, ..., k - 1` in turn the access to slot `light_j` followed by the five uploads of
the `j`-th enabled light (in ascending index order) to the locations of that slot; then
`usedLightCount := k`; then the four fields of the active material.  No other slot is
touched. -/
theorem setupLightAndMaterial_contiguous (s : State F M) (m : Material F)
    (hcount : s.lightCount ≤ s.lights.length)
    (hint : ((((s.lights.take s.lightCount).filter (·.enabled)).length : Nat) : Int) ≤ INT_MAX)
    (hmat : s.materials[s.materialIndex]? = some m) :
    setupLightAndMaterial s =
      some ((((s.lights.take s.lightCount).filter (·.enabled)).enum.flatMap (slotUpload s)) ++
        Call.glUniform1i (s.uniformLocations "usedLightCount")
          (((s.lights.take s.lightCount).filter (·.enabled)).length : Nat) ::
        uploadMaterial s m) := by
  have h := setupLights_range s s.lightCount 0 0 (by omega) (by simpa using hint)
  simp only [List.drop_zero, Nat.zero_add, Nat.cast_zero] at h
  rw [setupLightAndMaterial, List.range_eq_range', h]
  simp only [hmat, List.enum]

/-- Witness for C1 (the example of the specification): with lights 1, 3 and 5 enabled among
ten, exactly the slots `light_0`, `light_1`, `light_2` are written, with the parameters of
lights 1, 3, 5 in this order, and `usedLightCount` is 3. -/
theorem setupLightAndMaterial_contiguous_witness :
    setupLightAndMaterial exampleLights135 =
      some [ .lightSlot "light_0",
        .glUniform3fv 5 ⟨1, 1, 1⟩, .glUniform3fv 1 ⟨0, 0, 0⟩, .glUniform3fv 2 ⟨1, 1, 1⟩,
        .glUniform3fv 3 ⟨1, 1, 1⟩, .glUniform1f 4 7,
        .lightSlot "light_1",
        .glUniform3fv 10 ⟨3, 3, 3⟩, .glUniform3fv 6 ⟨0, 0, 0⟩, .glUniform3fv 7 ⟨1, 1, 1⟩,
        .glUniform3fv 8 ⟨1, 1, 1⟩, .glUniform1f 9 7,
        .lightSlot "light_2",
        .glUniform3fv 15 ⟨5, 5, 5⟩, .glUniform3fv 11 ⟨0, 0, 0⟩, .glUniform3fv 12 ⟨1, 1, 1⟩,
        .glUniform3fv 13 ⟨1, 1, 1⟩, .glUniform1f 14 7,
        .glUniform1i 100 3,
        .glUniform3fv 50 ⟨1, 1, 1⟩, .glUniform3fv 50 ⟨1, 1, 1⟩, .glUniform3fv 50 ⟨1, 1, 1⟩,
        .glUniform1f 50 5 ] :=
  (setupLightAndMaterial_contiguous exampleLights135 exampleMaterial (by decide) (by decide)
    (by rfl)).trans (by rfl)

/-- C2: `createEmptyTexture` always leaves `data` null, but `createTextureFromFile` does
not: after a successful load into a fresh entry the field `data` still holds the address of
the buffer (number 1) although that buffer has been released, so that a second successful
load into the same entry releases it again (undefined behaviour). -/
theorem createTextureFromFile_data_dangling :
    (∀ (F M : Type) (texID : String) (width height : Nat) (s : State F M),
      ((createEmptyTexture texID width height s).1.textures texID).data = none) ∧
    (∃ (s1 : State Nat Nat) (calls : List (Call Nat Nat)),
      createTextureFromFile (some ⟨4, 4, 48⟩) "diffuse" "../textures/diffuse.jpg"
        (State.initial Nat Nat) = some (s1, calls) ∧
      (s1.textures "diffuse").isInitialized = true ∧
      (s1.textures "diffuse").data = some 1 ∧
      s1.heap.live = [] ∧
      createTextureFromFile (some ⟨4, 4, 48⟩) "diffuse" "../textures/diffuse.jpg" s1 = none) := by
  refine ⟨?_, ?_⟩
  · intro F M texID width height s
    simp [createEmptyTexture, State.setTexture]
  · exact ⟨_, _, rfl, rfl, rfl, rfl, rfl⟩

/-- C6: for `i < lightCount`, one call of `toggleLightSource(i)` replaces light `i` by a copy
with `enabled` negated and changes nothing else (no other light, no other field, no other
global); a second call restores the original state. -/
theorem toggleLightSource_involution (s : State F M) (i : Nat)
    (hi : i < s.lightCount) (hcount : s.lightCount ≤ s.lights.length) :
    ∃ s1, toggleLightSource i s = some s1 ∧
      s1.lights[i]? = (s.lights[i]?).map (fun l => { l with enabled := !l.enabled }) ∧
      (∀ j, j ≠ i → s1.lights[j]? = s.lights[j]?) ∧
      { s1 with lights := s.lights } = s ∧
      toggleLightSource i s1 = some s := by
  have hlt : i < s.lights.length := by omega
  refine ⟨{ s with lights := s.lights.set i { s.lights[i] with enabled := !s.lights[i].enabled } },
    ?_, ?_, ?_, ?_, ?_⟩
  · simp [toggleLightSource, hi, List.getElem?_eq_getElem hlt]
  · simp [List.getElem?_eq_getElem hlt, List.getElem?_set_self hlt]
  · intro j hj
    simp [List.getElem?_set, Ne.symm hj]
  · rfl
  · simp only [toggleLightSource, hi, if_true, List.length_set, hlt, List.getElem?_set_self,
      List.set_set, Bool.not_not]
    congr 1
    cases s
    simp only [State.mk.injEq, true_and, and_true]
    exact set_getElem_same _ i hlt

/-- Witness for C6: toggling light 3 of the example scene. -/
theorem toggleLightSource_involution_witness :
    ∃ s1, toggleLightSource 3 exampleLights135 = some s1 ∧
      s1.lights[3]? = (exampleLights135.lights[3]?).map (fun l => { l with enabled := !l.enabled }) ∧
      (∀ j, j ≠ 3 → s1.lights[j]? = exampleLights135.lights[j]?) ∧
      { s1 with lights := exampleLights135.lights } = exampleLights135 ∧
      toggleLightSource 3 s1 = some exampleLights135 :=
  toggleLightSource_involution exampleLights135 3 (by decide) (by decide)

/-- Counterexample to C9 as stated: after `createEmptyTexture` and a failing
`createTextureFromFile` on the same entry, the entry holds the generated non-zero handle 1
while `isInitialized` is false. -/
theorem handle_valid_not_initialized :
    ∃ s1 : State Nat Nat,
      runTextureOps exampleReloadOps (State.initial Nat Nat) = some s1 ∧
      ¬ (validHandle s1 (s1.textures "def_vertexMap") ↔
          (s1.textures "def_vertexMap").isInitialized = true) := by
  refine ⟨_, rfl, fun h => ?_⟩
  have hinit := h.mp ⟨by decide, by decide⟩
  exact absurd hinit (by decide)

/-- C9, amended: after any sequence of texture constructor calls from program start that
runs without undefined behaviour, every entry with `isInitialized` true holds a valid
(non-zero, generated) handle; and when every failing decode targeted an entry whose handle
was still zero, an entry holds a valid handle if and only if `isInitialized` is true. -/
theorem initialized_iff_valid_handle (ops : List TextureOp) (s1 : State F M)
    (hrun : runTextureOps ops (State.initial F M) = some s1) :
    (∀ id, (s1.textures id).isInitialized = true → validHandle s1 (s1.textures id)) ∧
    (failedDecodesHitUnsetEntries ops (State.initial F M) →
      ∀ id, validHandle s1 (s1.textures id) ↔ (s1.textures id).isInitialized = true) := by
  have h0 : ∀ id, ((State.initial F M).textures id).glTextureLocation ≤
        (State.initial F M).textureNames ∧
      (((State.initial F M).textures id).isInitialized = true →
        ((State.initial F M).textures id).glTextureLocation ≠ 0) := by
    intro id
    simp [State.initial, Texture.default]
  obtain ⟨-, h1⟩ := runTextureOps_initialized_valid ops _ s1 rfl h0 hrun
  refine ⟨fun id hinit => ⟨(h1 id).2 hinit, (h1 id).1⟩, ?_⟩
  intro hf id
  refine ⟨fun hv => ?_, fun hinit => ⟨(h1 id).2 hinit, (h1 id).1⟩⟩
  refine runTextureOps_valid_initialized ops _ s1 rfl ?_ hf hrun id hv.1
  intro id hne
  simp [State.initial, Texture.default] at hne

/-- Witness for C9 (amended): the texture constructor calls of a deferred-mode start in which
decoding `normals.jpg` fails. -/
theorem initialized_iff_valid_handle_witness :
    ∃ s1 : State Nat Nat,
      runTextureOps exampleTextureOps (State.initial Nat Nat) = some s1 ∧
      failedDecodesHitUnsetEntries exampleTextureOps (State.initial Nat Nat) ∧
      (s1.textures "normal").isInitialized = false ∧
      (s1.textures "def_normalMap").glTextureLocation = 3 ∧
      (∀ id, (s1.textures id).isInitialized = true → validHandle s1 (s1.textures id)) ∧
      (failedDecodesHitUnsetEntries exampleTextureOps (State.initial Nat Nat) →
        ∀ id, validHandle s1 (s1.textures id) ↔ (s1.textures id).isInitialized = true) := by
  refine ⟨_, rfl, ?_, rfl, rfl, initialized_iff_valid_handle exampleTextureOps _ rfl⟩
  exact ⟨trivial, rfl, trivial, trivial, trivial, trivial⟩

/-- Counterexample to C3 as stated: one deferred-mode frame of the example scene issues 442
`render()` invocations (441 grid placements and the screen-filling quad), not 441. -/
theorem deferred_frame_has_442_renders :
    ∃ s1 calls, renderScene exampleDeferred = some (s1, calls) ∧
      calls.countP Call.isRender = 442 ∧ calls.countP Call.isRender ≠ 441 := by
  obtain ⟨setup, hsetup⟩ := setupLightAndMaterial_defined exampleDeferred
    ⟨by decide, by decide, by decide, by decide⟩
  have hup := setupLightAndMaterial_calls exampleDeferred setup hsetup
  refine ⟨_, _, renderScene_deferred exampleDeferred .identity [] setup rfl rfl hsetup, ?_⟩
  have h442 : (geometryPassCalls exampleDeferred .identity ++
      Call.glBindFramebuffer 0 :: compositePassCalls exampleDeferred .identity setup).countP
        Call.isRender = 442 := by
    rw [List.countP_append, List.countP_cons, (geometryPassCalls_counts _ _).2,
      (compositePassCalls_counts _ _ setup hup).2.1]
    rfl
  exact ⟨h442, by rw [h442]; decide⟩

/-- C3, amended: one call of `renderScene` on a well-formed state issues exactly 441 draw
calls of the scene mesh in either mode; these are all the `render()` invocations in forward
mode (441), while in deferred mode the composite pass adds the `render()` of the
screen-filling quad (442 invocations). -/
theorem renderScene_draw_calls [GlmOps M] (s : State F M) (h : FrameReady s) :
    ∃ s1 calls, renderScene s = some (s1, calls) ∧
      calls.countP Call.isSceneDraw = 441 ∧
      calls.countP Call.isRender = if s.useDeferredShading then 442 else 441 := by
  obtain ⟨setup, hsetup⟩ := setupLightAndMaterial_defined s h
  obtain ⟨t, rest, hs⟩ := frameReady_stack s h
  have hup := setupLightAndMaterial_calls s setup hsetup
  cases hmode : s.useDeferredShading with
  | false =>
    refine ⟨_, _, renderScene_forward s t rest setup hmode hs hsetup, ?_⟩
    simpa using forwardCalls_counts s t setup hup
  | true =>
    refine ⟨_, _, renderScene_deferred s t rest setup hmode hs hsetup, ?_⟩
    rw [List.countP_append, List.countP_cons, List.countP_append, List.countP_cons,
      (geometryPassCalls_counts _ _).1, (geometryPassCalls_counts _ _).2,
      (compositePassCalls_counts _ _ setup hup).1, (compositePassCalls_counts _ _ setup hup).2.1]
    exact ⟨rfl, rfl⟩

/-- Witness for C3 (amended): a forward-mode frame of the example scene. -/
theorem renderScene_draw_calls_witness :
    ∃ s1 calls, renderScene exampleLights135 = some (s1, calls) ∧
      calls.countP Call.isSceneDraw = 441 ∧
      calls.countP Call.isRender = if exampleLights135.useDeferredShading then 442 else 441 :=
  renderScene_draw_calls exampleLights135 ⟨by decide, by decide, by decide, by decide⟩

/-- C4: in deferred mode the calls of `renderScene` split at a call
`glBindFramebuffer(GL_FRAMEBUFFER, 0)` such that, before it, the G-buffer framebuffer `fbo`
has been bound, all 441 grid draw calls are issued and the only texture bound to a texture
unit is the normal map (so no G-buffer texture is bound there, their handles being
different from the normal map's), and, after it, no framebuffer is bound again, no grid
draw call occurs and the three G-buffer textures are bound. -/
theorem deferred_sampling_after_unbind [GlmOps M] (s : State F M) (h : FrameReady s)
    (hmode : s.useDeferredShading = true) :
    ∃ s1 pre post, renderScene s = some (s1, pre ++ Call.glBindFramebuffer 0 :: post) ∧
      Call.glBindFramebuffer s.fbo ∈ pre ∧
      (∀ g, Call.glBindTexture g ∈ pre → g = (s.textures "normal").glTextureLocation) ∧
      ((s.textures "normal").glTextureLocation ∉ gBufferHandles s →
        ∀ g ∈ gBufferHandles s, Call.glBindTexture g ∉ pre) ∧
      pre.countP Call.isSceneDraw = 441 ∧
      post.countP Call.isSceneDraw = 0 ∧
      post.countP Call.isBindFramebuffer = 0 ∧
      (∀ g ∈ gBufferHandles s, Call.glBindTexture g ∈ post) := by
  obtain ⟨setup, hsetup⟩ := setupLightAndMaterial_defined s h
  obtain ⟨t, rest, hs⟩ := frameReady_stack s h
  have hup := setupLightAndMaterial_calls s setup hsetup
  refine ⟨_, geometryPassCalls s t, compositePassCalls s t setup,
    renderScene_deferred s t rest setup hmode hs hsetup, ?_,
    fun g hg => bindTexture_mem_geometryPassCalls s t g hg, ?_,
    (geometryPassCalls_counts s t).1, (compositePassCalls_counts s t setup hup).1,
    (compositePassCalls_counts s t setup hup).2.2,
    fun g hg => gBuffer_bind_mem_compositePassCalls s t setup g hg⟩
  · simp [geometryPassCalls]
  · intro hnormal g hg hmem
    rw [bindTexture_mem_geometryPassCalls s t g hmem] at hg
    exact hnormal hg

/-- Witness for C4: a deferred-mode frame of the example scene, where the normal map has
handle 2 and the G-buffer textures have handles 3, 4 and 5. -/
theorem deferred_sampling_after_unbind_witness :
    ∃ s1 pre post,
      renderScene exampleDeferred = some (s1, pre ++ Call.glBindFramebuffer 0 :: post) ∧
      Call.glBindFramebuffer 1 ∈ pre ∧
      (∀ g, Call.glBindTexture g ∈ pre → g = 2) ∧
      (∀ g ∈ [3, 4, 5], Call.glBindTexture g ∉ pre) ∧
      pre.countP Call.isSceneDraw = 441 ∧
      post.countP Call.isSceneDraw = 0 ∧
      post.countP Call.isBindFramebuffer = 0 ∧
      (∀ g ∈ [3, 4, 5], Call.glBindTexture g ∈ post) := by
  obtain ⟨s1, pre, post, h1, h2, h3, h4, h5, h6, h7, h8⟩ :=
    deferred_sampling_after_unbind exampleDeferred ⟨by decide, by decide, by decide, by decide⟩
      rfl
  exact ⟨s1, pre, post, h1, h2, h3, h4 (by decide), h5, h6, h7, h8⟩

/-- C5: on a well-formed state (in particular a non-empty model-view stack) `renderScene`
returns with the model-view stack as deep as before, in forward and in deferred mode, and
at every program point in between the stack is at least as deep as at the start, hence
never empty. -/
theorem renderScene_stack_depth [GlmOps M] (s : State F M) (h : FrameReady s) :
    ∃ s1 calls, renderScene s = some (s1, calls) ∧
      s1.glm_ModelViewMatrix.length = s.glm_ModelViewMatrix.length ∧
      0 < s.glm_ModelViewMatrix.length ∧
      StackNeverBelow s.glm_ModelViewMatrix.length (renderSceneSteps s.useDeferredShading) s := by
  obtain ⟨setup, hsetup⟩ := setupLightAndMaterial_defined s h
  obtain ⟨t, rest, hs⟩ := frameReady_stack s h
  have hpos : 0 < s.glm_ModelViewMatrix.length := by simp [hs]
  have hsnb := renderSceneSteps_stackNeverBelow s t rest setup hs hsetup
  cases hmode : s.useDeferredShading with
  | false =>
    exact ⟨_, _, renderScene_forward s t rest setup hmode hs hsetup, rfl, hpos, hmode ▸ hsnb⟩
  | true =>
    exact ⟨_, _, renderScene_deferred s t rest setup hmode hs hsetup, rfl, hpos, hmode ▸ hsnb⟩

/-- Witness for C5: a deferred-mode frame of the example scene, whose stack has one entry. -/
theorem renderScene_stack_depth_witness :
    ∃ s1 calls, renderScene exampleDeferred = some (s1, calls) ∧
      s1.glm_ModelViewMatrix.length = exampleDeferred.glm_ModelViewMatrix.length ∧
      0 < exampleDeferred.glm_ModelViewMatrix.length ∧
      StackNeverBelow exampleDeferred.glm_ModelViewMatrix.length
        (renderSceneSteps exampleDeferred.useDeferredShading) exampleDeferred :=
  renderScene_stack_depth exampleDeferred ⟨by decide, by decide, by decide, by decide⟩

/-- Counterexample to C7 as stated: deferred mode, the first program is created and the
second fails at link time.  `initShader` returns before its loops over the light slots, so
the map of light slots is still the empty map of program start; `enableShader()` succeeds
on `shaderPass[0]`, the render loop is entered, and a frame runs `setupLightAndMaterial`,
which looks up `light_0 .. light_9` (all ten lights are enabled) and finds zeroed entries
where no location of any program was stored. -/
theorem lights_looked_up_in_unregistered_slots :
    ∃ c calls, main_init exampleSecondLinkFailureEnv ["Ex09", "1"] =
        some (exampleLinkFailureStart, c) ∧
      exampleLinkFailureStart.shaderPass = (1, 0) ∧
      enableShader 0 exampleLinkFailureStart = some (true, [Call.glUseProgram 1]) ∧
      setupLightAndMaterial exampleLinkFailureStart = some calls ∧
      lightSlotKeys calls = registeredLightKeys ∧
      (initShader exampleLocations (exampleShaderEnv 1) exampleLinkFailure
        (main_globals (F := Nat) (M := SymMat) exampleAtoi ["Ex09", "1"])).1.uniformLocations_Lights
        = (State.initial Nat SymMat).uniformLocations_Lights ∧
      (∀ key, exampleLinkFailureStart.uniformLocations_Lights key = ⟨0, 0, 0, 0, 0⟩) ∧
      (∀ i : Nat, lightLocation exampleLocations 1 (Int.ofNat i) ≠ ⟨0, 0, 0, 0, 0⟩) ∧
      ∃ s2 c2, updateGL (.camera 0) (.camera 1) exampleLinkFailureStart = some (s2, c2) ∧
        ∀ key ∈ registeredLightKeys, Call.lightSlot key ∈ c2 := by
  obtain ⟨setup, h0, hk⟩ : ∃ setup,
      setupLightAndMaterial exampleLinkFailureStart = some setup ∧
      lightSlotKeys setup = registeredLightKeys := ⟨_, rfl, rfl⟩
  have hsetup : setupLightAndMaterial ({ exampleLinkFailureStart with
      glm_ProjectionMatrix := [SymMat.camera 0],
      glm_ModelViewMatrix := [SymMat.camera 1] } : State Nat SymMat) = some setup :=
    h0
  have hrs := renderScene_deferred ({ exampleLinkFailureStart with
      glm_ProjectionMatrix := [SymMat.camera 0],
      glm_ModelViewMatrix := [SymMat.camera 1] } : State Nat SymMat) (SymMat.camera 1) []
    setup rfl rfl hsetup
  have hrun := updateGL_run (SymMat.camera 0) (SymMat.camera 1) SymMat.identity
    SymMat.identity [] [] exampleLinkFailureStart _ _ rfl rfl hrs
  refine ⟨_, setup, rfl, rfl, rfl, h0, hk, rfl, fun _ => rfl, ?_, _, _, hrun, ?_⟩
  · intro i h
    have h1 := congrArg UniformLocation_Light.ambient_color h
    simp only [lightLocation, exampleLocations] at h1
    omega
  · intro key hkey
    have hmem : Call.lightSlot key ∈ setup :=
      mem_of_mem_lightSlotKeys setup key (hk ▸ hkey)
    simp [compositePassCalls, hmem]

/-- C7, amended: when `lightCount` is at most 10 (and the state is otherwise well formed),
`setupLightAndMaterial` uploads `k ≤ 10` lights: the single `glUniform1i` it issues
(`usedLightCount`) carries `k`, and the slot keys it accesses are exactly
`light_0 .. light_(k-1)`, each one of the ten keys `light_0 .. light_9`.  When the slot map
is the one left by a run of `initShader` that created the program `enableShader()` tests and
the shading program (`shaderProgram` in forward mode; `shaderPass[0]` and `shaderPass[1]` in
deferred mode), each key looked up holds the locations `initShader` resolved for
`lightSource[i]` in the shading program.  In every state a callback of a run of `main`
starts in, the capacity conditions hold and the slot map and the program handles are those
`initShader` left at start-up.  The scene `initScene` builds from an empty light list has
exactly 10 lights. -/
theorem uploaded_lights_within_capacity [GlmOps M] (s g g0 : State F M) (v : SceneValues F)
    (loc : Nat → String → Int) (env1 env2 : ShaderEnv)
    (hcap : s.lightCount ≤ 10) (hcount : s.lightCount ≤ s.lights.length)
    (hmat : s.materialIndex < s.materials.length)
    (hslots : s.uniformLocations_Lights =
      (initShader loc env1 env2 g0).1.uniformLocations_Lights)
    (hfirst : firstPassProgram (initShader loc env1 env2 g0).1 ≠ 0)
    (hshading : shadingProgram (initShader loc env1 env2 g0).1 ≠ 0) :
    (∃ calls, ∃ k : Nat, setupLightAndMaterial s = some calls ∧ k ≤ 10 ∧
      uniform1iValues calls = [Int.ofNat k] ∧
      lightSlotKeys calls = (List.range k).map (fun (j : Nat) => lightKey (Int.ofNat j)) ∧
      ∀ key ∈ lightSlotKeys calls, key ∈ registeredLightKeys ∧
        ∃ i : Nat, i < 10 ∧ key = lightKey (Int.ofNat i) ∧
          s.uniformLocations_Lights key =
            lightLocation loc (shadingProgram (initShader loc env1 env2 g0).1)
              (Int.ofNat i)) ∧
    (g.lights = [] →
      (initScene v g).1.lightCount = 10 ∧ (initScene v g).1.lights.length = 10) ∧
    (∀ (env : MainEnv F M) (argv : List String) (s0 s1 : State F M)
        (c0 c1 : List (Call F M)) (events : List (Event M)),
      main_init env argv = some (s0, c0) → mainLoop events s0 = .running s1 c1 →
      s1.lightCount ≤ 10 ∧ s1.lightCount ≤ s1.lights.length ∧
      s1.materialIndex < s1.materials.length ∧
      s1.uniformLocations_Lights =
        (initShader env.glGetUniformLocation env.shader1 env.shader2
          (main_globals (F := F) (M := M) env.atoi argv)).1.uniformLocations_Lights ∧
      firstPassProgram s1 =
        firstPassProgram (initShader env.glGetUniformLocation env.shader1 env.shader2
          (main_globals (F := F) (M := M) env.atoi argv)).1 ∧
      shadingProgram s1 =
        shadingProgram (initShader env.glGetUniformLocation env.shader1 env.shader2
          (main_globals (F := F) (M := M) env.atoi argv)).1) := by
  refine ⟨?_, ?_, ?_⟩
  · have hk : ((s.lights.take s.lightCount).filter (·.enabled)).length ≤ 10 :=
      le_trans (List.length_filter_le _ _) (by rw [List.length_take]; omega)
    have hint : ((0 + (((s.lights.drop 0).take s.lightCount).filter (·.enabled)).length : Nat) : Int)
        ≤ INT_MAX := by
      simp only [List.drop_zero, Nat.zero_add, INT_MAX]
      have : ((((s.lights.take s.lightCount).filter (·.enabled)).length : Nat) : Int) ≤ 10 := by
        exact_mod_cast hk
      exact le_trans this (by decide)
    have h := setupLights_range s s.lightCount 0 0 (by omega) hint
    simp only [List.drop_zero, Nat.zero_add, Nat.cast_zero] at h
    have hkeys := slotUploads_keys s ((s.lights.take s.lightCount).filter (·.enabled)) 0
    refine ⟨(((s.lights.take s.lightCount).filter (·.enabled)).enumFrom 0).flatMap (slotUpload s) ++
        Call.glUniform1i (s.uniformLocations "usedLightCount")
          (((s.lights.take s.lightCount).filter (·.enabled)).length : Nat) ::
        uploadMaterial s s.materials[s.materialIndex],
      ((s.lights.take s.lightCount).filter (·.enabled)).length, ?_, hk, ?_, ?_, ?_⟩
    · rw [setupLightAndMaterial, List.range_eq_range', h]
      simp only [List.getElem?_eq_getElem hmat]
    · rw [uniform1iValues_append, hkeys.2]
      rfl
    · rw [lightSlotKeys_append, hkeys.1, List.range_eq_range']
      simp [lightSlotKeys, uploadMaterial]
    · intro key hkey
      have hreg : key ∈ registeredLightKeys := by
        rw [lightSlotKeys_append, hkeys.1] at hkey
        simp only [lightSlotKeys, uploadMaterial, List.append_nil, List.mem_map,
          List.mem_range'_1] at hkey
        obtain ⟨j, hj, rfl⟩ := hkey
        exact List.mem_map.mpr ⟨j, List.mem_range.mpr (by omega), rfl⟩
      refine ⟨hreg, ?_⟩
      rw [hslots]
      exact initShader_lightSlots loc env1 env2 g0 hfirst hshading key hreg
  · intro hnil
    obtain ⟨h1, h2⟩ := initScene_lights (M := M) v g
    rw [hnil] at h1 h2
    exact ⟨h2, h1⟩
  · intro env argv s0 s1 c0 c1 events hinit hrun
    obtain ⟨hr, hk⟩ := main_init_mainLoop_state env argv s0 c0 events s1 c1 hinit hrun
    obtain ⟨hf, hsh, -, hl⟩ := shaderSetup_programs _ _ hk
    exact ⟨hr.2.2.2.1, hr.2.2.1, hr.2.2.2.2.1, hl, hf, hsh⟩

/-- Witness for C7 (amended): the start-up state of the example run in deferred mode, where
`initShader` created programs 1 and 2: ten lights are uploaded, and slot `light_i` holds the
locations of `lightSource[i]` in program 2. -/
theorem uploaded_lights_within_capacity_witness :
    (∃ calls, setupLightAndMaterial exampleDeferred = some calls ∧
      uniform1iValues calls = [10] ∧
      lightSlotKeys calls = registeredLightKeys ∧
      ∀ key ∈ lightSlotKeys calls,
        ∃ i : Nat, i < 10 ∧ key = lightKey (Int.ofNat i) ∧
          exampleDeferred.uniformLocations_Lights key =
            lightLocation exampleLocations 2 (Int.ofNat i)) ∧
    ((initScene exampleScene (State.initial Nat SymMat)).1.lightCount = 10 ∧
      (initScene exampleScene (State.initial Nat SymMat)).1.lights.length = 10) := by
  have h := uploaded_lights_within_capacity exampleDeferred (State.initial Nat SymMat)
    (main_globals (F := Nat) (M := SymMat) exampleAtoi ["Ex09", "1"]) exampleScene
    exampleLocations (exampleShaderEnv 1) (exampleShaderEnv 2)
    (by decide) (by decide) (by decide) rfl (by decide) (by decide)
  obtain ⟨calls, k, h1, -, h3, h4, h5⟩ := h.1
  have h0 : setupLightAndMaterial exampleDeferred = some _ := rfl
  rw [h0] at h1
  have hc := Option.some.inj h1
  subst hc
  exact ⟨⟨_, rfl, rfl, rfl, fun key hkey => (h5 key hkey).2⟩, h.2.1 rfl⟩

/-- C10: when `loadShaderFile` yields the zero handle for the vertex stage or for the
fragment stage, `createShader` returns zero, none of the calls it issues is a
`glAttachShader` or `glLinkProgram`, and, a program object having been created, the calls
are `glCreateProgram`, then the stage-loading calls, then `glDeleteProgram` of that
program as the last call. -/
theorem createShader_zero_on_stage_failure (env : ShaderEnv)
    (vertexProgramCode fragmentProgramCode : String) (s : State F M)
    (hfail : (loadShaderFile (F := F) (M := M) env vertexProgramCode .GL_VERTEX_SHADER).1 = 0 ∨
      (loadShaderFile (F := F) (M := M) env fragmentProgramCode .GL_FRAGMENT_SHADER).1 = 0) :
    (createShader env vertexProgramCode fragmentProgramCode s).1 = 0 ∧
    (∀ c ∈ (createShader env vertexProgramCode fragmentProgramCode s).2.2,
      c.isAttachOrLink = false) ∧
    (env.glCreateProgram ≠ 0 →
      ∃ mid, (createShader env vertexProgramCode fragmentProgramCode s).2.2 =
        Call.glCreateProgram env.glCreateProgram ::
          (mid ++ [Call.glDeleteProgram env.glCreateProgram])) := by
  obtain ⟨v, f, s1, c, hload, hc⟩ :=
    loadShaderCode_failure env vertexProgramCode fragmentProgramCode s hfail
  by_cases hp : env.glCreateProgram = 0
  · refine ⟨by simp [createShader, hp], ?_, fun h => absurd hp h⟩
    intro x hx
    simp only [createShader, hp, if_true, List.mem_singleton] at hx
    subst hx
    rfl
  · have hcs : createShader env vertexProgramCode fragmentProgramCode s =
        (0, s1, Call.glCreateProgram env.glCreateProgram ::
          (c ++ [Call.glDeleteProgram env.glCreateProgram])) := by
      simp [createShader, hp, hload]
    rw [hcs]
    refine ⟨rfl, ?_, fun _ => ⟨c, rfl⟩⟩
    intro x hx
    simp only [List.mem_cons, List.mem_append, List.mem_singleton, List.not_mem_nil,
      or_false] at hx
    rcases hx with rfl | hx | rfl
    · rfl
    · exact hc x hx
    · rfl

/-- Witness for C10: the fragment shader source is missing. -/
theorem createShader_zero_on_stage_failure_witness :
    (createShader exampleMissingFragment "../shader/normal_mapping.vert"
      "../shader/normal_mapping.frag" (State.initial Nat SymMat)).1 = 0 ∧
    (∀ c ∈ (createShader exampleMissingFragment "../shader/normal_mapping.vert"
        "../shader/normal_mapping.frag" (State.initial Nat SymMat)).2.2,
      c.isAttachOrLink = false) ∧
    (∃ mid, (createShader exampleMissingFragment "../shader/normal_mapping.vert"
        "../shader/normal_mapping.frag" (State.initial Nat SymMat)).2.2 =
        Call.glCreateProgram 7 :: (mid ++ [Call.glDeleteProgram 7])) :=
  have h := createShader_zero_on_stage_failure exampleMissingFragment
    "../shader/normal_mapping.vert" "../shader/normal_mapping.frag" (State.initial Nat SymMat)
    (Or.inr (by decide))
  ⟨h.1, h.2.1, h.2.2 (by decide)⟩

/-- C8: `main` sets `useDeferredShading` to true exactly when a first positional argument
is present and `atoi` of it is greater than zero; this is the value in force when start-up
has finished; and none of `initShader`, `renderScene`, `updateGL`, `keyboardEvent`,
`toggleLightSource`, nor any sequence of callbacks run by the render loop, changes it. -/
theorem useDeferredShading_set_once [GlmOps M] (env : MainEnv F M) (argv : List String)
    (s : State F M) (i : Nat) (key : Char) (projection modelview : M)
    (events : List (Event M)) :
    (main_useDeferredShading env.atoi argv = true ↔
      ∃ arg, argv[1]? = some arg ∧ env.atoi arg > 0) ∧
    (∀ s0 c, main_init env argv = some (s0, c) →
      s0.useDeferredShading = main_useDeferredShading env.atoi argv) ∧
    (initShader env.glGetUniformLocation env.shader1 env.shader2 s).1.useDeferredShading =
      s.useDeferredShading ∧
    (∀ s1 c, renderScene s = some (s1, c) → s1.useDeferredShading = s.useDeferredShading) ∧
    (∀ s1 c, updateGL projection modelview s = some (s1, c) →
      s1.useDeferredShading = s.useDeferredShading) ∧
    (∀ s1 c, keyboardEvent key s = .running s1 c →
      s1.useDeferredShading = s.useDeferredShading) ∧
    (∀ s1, toggleLightSource i s = some s1 → s1.useDeferredShading = s.useDeferredShading) ∧
    (∀ s1 c, mainLoop events s = .running s1 c →
      s1.useDeferredShading = s.useDeferredShading) := by
  refine ⟨?_, fun s0 c h => main_init_mode env argv s0 c h, initShader_mode _ _ _ s,
    fun s1 c h => renderScene_mode s s1 c h,
    fun s1 c h => updateGL_mode projection modelview s s1 c h,
    fun s1 c h => keyboardEvent_mode key s s1 c h,
    fun s1 h => toggleLightSource_mode i s s1 h,
    fun s1 c h => mainLoop_mode events s s1 c h⟩
  unfold main_useDeferredShading
  rcases argv with _ | ⟨a, _ | ⟨b, rest⟩⟩
  · simp
  · simp
  · by_cases hb : env.atoi b > 0 <;> simp [hb]

/-- Witness for C8: the program is started with the argument `1`; the operations are run on
the deferred-mode example state. -/
theorem useDeferredShading_set_once_witness :
    main_useDeferredShading exampleEnv.atoi ["Ex09", "1"] = true ∧
    (∃ s0 c, main_init exampleEnv ["Ex09", "1"] = some (s0, c) ∧ s0.useDeferredShading = true) ∧
    (∃ s1 c, renderScene exampleDeferred = some (s1, c) ∧ s1.useDeferredShading = true) ∧
    (∃ s1 c, updateGL (.camera 0) (.camera 1) exampleDeferred = some (s1, c) ∧
      s1.useDeferredShading = true) ∧
    (∃ s1 c, keyboardEvent 'm' exampleDeferred = .running s1 c ∧ s1.useDeferredShading = true) ∧
    (∃ s1, toggleLightSource 3 exampleDeferred = some s1 ∧ s1.useDeferredShading = true) ∧
    (∃ s1 c, mainLoop [.keyboard '3', .keyboard 'm', .idle] exampleDeferred = .running s1 c ∧
      s1.useDeferredShading = true) := by
  have h := useDeferredShading_set_once exampleEnv ["Ex09", "1"] exampleDeferred 3 'm'
    (.camera 0) (.camera 1) [.keyboard '3', .keyboard 'm', .idle]
  have hready : FrameReady exampleDeferred := ⟨by decide, by decide, by decide, by decide⟩
  obtain ⟨r1, rc, hr⟩ := renderScene_defined exampleDeferred hready
  obtain ⟨u1, uc, hu⟩ := updateGL_defined (.camera 0) (.camera 1) exampleDeferred
    (by decide) hready
  refine ⟨h.1.mpr ⟨"1", rfl, by decide⟩, ⟨_, _, rfl, ?_⟩, ⟨r1, rc, hr, h.2.2.2.1 r1 rc hr⟩,
    ⟨u1, uc, hu, h.2.2.2.2.1 u1 uc hu⟩, ⟨_, _, rfl, ?_⟩, ⟨_, rfl, ?_⟩, ⟨_, _, rfl, ?_⟩⟩
  · exact (h.2.1 _ _ rfl).trans (h.1.mpr ⟨"1", rfl, by decide⟩)
  · exact h.2.2.2.2.2.1 _ _ rfl
  · exact h.2.2.2.2.2.2.1 _ rfl
  · exact h.2.2.2.2.2.2.2 _ _ rfl

/-- C12: for the digit key with digit `d` (`'0'` is character 48), `keyboardEvent` runs
`toggleLightSource` on exactly one index, `d - 1` for `d` in `1..9` and `9` for `d = 0`, and
requests a redisplay.  If that index is below `lightCount`, the light at the index gets
`enabled` negated; in any case no other light and no other global changes, and if the index
is not below `lightCount` the state is unchanged. -/
theorem keyboardEvent_digit_toggles (s : State F M) (d : Nat) (hd : d < 10)
    (hcount : s.lightCount ≤ s.lights.length) :
    ∃ s1, keyboardEvent (Char.ofNat (48 + d)) s = .running s1 [Call.glutPostRedisplay] ∧
      toggleLightSource (digitLight d) s = some s1 ∧
      { s1 with lights := s.lights } = s ∧
      (∀ j, j ≠ digitLight d → s1.lights[j]? = s.lights[j]?) ∧
      (digitLight d < s.lightCount →
        s1.lights[digitLight d]? =
          (s.lights[digitLight d]?).map (fun l => { l with enabled := !l.enabled })) ∧
      (¬ digitLight d < s.lightCount → s1 = s) := by
  by_cases hi : digitLight d < s.lightCount
  · have hlt : digitLight d < s.lights.length := by omega
    have ht := toggleLightSource_eq (digitLight d) s hi hlt
    refine ⟨_, by rw [keyboardEvent_digit s d hd, ht], ht, rfl, ?_, ?_, fun h => absurd hi h⟩
    · intro j hj
      simp [List.getElem?_set, Ne.symm hj]
    · intro _
      simp [List.getElem?_eq_getElem hlt, List.getElem?_set_self hlt]
  · have ht := toggleLightSource_out_of_range (digitLight d) s hi
    exact ⟨s, by rw [keyboardEvent_digit s d hd, ht], ht, rfl, fun _ _ => rfl,
      fun h => absurd h hi, fun _ => rfl⟩

/-- Witness for C12: key `'0'` in the example scene toggles the light with index 9. -/
theorem keyboardEvent_digit_toggles_witness :
    ∃ s1, keyboardEvent '0' exampleLights135 = .running s1 [Call.glutPostRedisplay] ∧
      toggleLightSource 9 exampleLights135 = some s1 ∧
      s1.lights.map (·.enabled) =
        [false, true, false, true, false, true, false, false, false, true] := by
  obtain ⟨s1, h1, h2, -, -, -, -⟩ :=
    keyboardEvent_digit_toggles exampleLights135 0 (by decide) (by decide)
  refine ⟨s1, h1, h2, ?_⟩
  have h3 : toggleLightSource 9 exampleLights135 = some _ :=
    toggleLightSource_eq 9 exampleLights135 (by decide) (by decide)
  have h4 : toggleLightSource 9 exampleLights135 = some s1 := h2
  rw [h3] at h4
  rw [← Option.some.inj h4]
  decide

/-- C17: on a well-formed state (in particular a non-empty model-view stack `t :: rest`)
`renderScene` returns with the whole model-view stack equal to the stack at the start, so
the top is `t` again; at every program point in between the stack is the original stack or
the original stack with one pushed entry on top, so translate and scale only ever change a
pushed copy; and the calls are `pre ++ gridCalls s t ++ post` with no draw call of the scene
mesh in `pre` or `post`, where the matrix `gridCalls` uploads before the draw call of
placement `(x, y)` is `t * translate(x, 0, y) * scale(2)`, a function of `t`, `x` and `y`
alone. -/
theorem renderScene_stack_unchanged [GlmOps M] (s : State F M) (h : FrameReady s) :
    ∃ s1 calls t rest pre post, renderScene s = some (s1, calls) ∧
      s.glm_ModelViewMatrix = t :: rest ∧
      s1.glm_ModelViewMatrix = t :: rest ∧
      AtEveryPoint (StackOnBase (t :: rest)) (renderSceneSteps s.useDeferredShading) s ∧
      calls = pre ++ gridCalls s t ++ post ∧
      pre.countP Call.isSceneDraw = 0 ∧ post.countP Call.isSceneDraw = 0 ∧
      gridCalls s t = (intRange (-10) 11).flatMap (fun y => (intRange (-10) 11).flatMap
        (fun x => [Call.glUniformMatrix4fv (s.uniformLocations "modelview")
          (GlmOps.mul (GlmOps.mul t (GlmOps.translate x 0 y)) (GlmOps.scale 2)),
          Call.render Mesh.sceneObject])) := by
  obtain ⟨setup, hsetup⟩ := setupLightAndMaterial_defined s h
  obtain ⟨t, rest, hs⟩ := frameReady_stack s h
  have hup := setupLightAndMaterial_calls s setup hsetup
  have hpoints := renderSceneSteps_stackOnBase s t rest setup hs hsetup
  cases hmode : s.useDeferredShading with
  | false =>
    refine ⟨_, _, t, rest,
      [Call.glUseProgram s.shaderProgram, Call.glUniformMatrix4fv (s.uniformLocations "view") t]
        ++ setup ++ bindTextureCalls s "diffuse" 0 ++ bindTextureCalls s "normal" 1, [],
      renderScene_forward s t rest setup hmode hs hsetup, hs, hs, hmode ▸ hpoints, ?_, ?_, rfl,
      rfl⟩
    · simp [forwardCalls]
    · simp only [List.countP_append, bindTextureCalls_countP_isSceneDraw,
        setup_countP_isSceneDraw setup hup]
      rfl
  | true =>
    refine ⟨_, _, t, rest,
      [Call.glUseProgram s.shaderPass.1, Call.glBindFramebuffer s.fbo,
        Call.glDrawBuffers [0, 1, 2]] ++ bindTextureCalls s "normal" 0 ++ [Call.glClear],
      Call.glUseProgram s.shaderPass.2 :: Call.glBindFramebuffer 0 ::
        compositePassCalls s t setup,
      renderScene_deferred s t rest setup hmode hs hsetup, hs, hs, hmode ▸ hpoints, ?_, ?_, ?_,
      rfl⟩
    · simp [geometryPassCalls]
    · rfl
    · rw [List.countP_cons, List.countP_cons, (compositePassCalls_counts s t setup hup).1]
      rfl

/-- Witness for C17: a deferred-mode frame of the example scene, whose stack is the single
matrix `identity`. -/
theorem renderScene_stack_unchanged_witness :
    ∃ s1 calls pre post, renderScene exampleDeferred = some (s1, calls) ∧
      exampleDeferred.glm_ModelViewMatrix = [SymMat.identity] ∧
      s1.glm_ModelViewMatrix = [SymMat.identity] ∧
      calls = pre ++ gridCalls exampleDeferred SymMat.identity ++ post ∧
      pre.countP Call.isSceneDraw = 0 ∧ post.countP Call.isSceneDraw = 0 := by
  obtain ⟨s1, calls, t, rest, pre, post, h1, h2, h3, -, h5, h6, h7, -⟩ :=
    renderScene_stack_unchanged exampleDeferred ⟨by decide, by decide, by decide, by decide⟩
  have h0 : exampleDeferred.glm_ModelViewMatrix = [SymMat.identity] := rfl
  rw [h0] at h2
  obtain ⟨rfl, rfl⟩ := List.cons.inj h2
  exact ⟨s1, calls, pre, post, h1, rfl, h3, h5, h6, h7⟩

/-- C13: whatever framebuffer `b` is bound before, the framebuffer bound after the calls of
`initFBO` is 0 (the default framebuffer), and so it is after the calls of every
deferred-mode `renderScene` on a well-formed state.  The textures `initFBO` attaches as
color attachments 0, 1 and 2 are the three it has just generated, each allocated with an
image of `windowWidth x windowHeight`, the render buffer it attaches as depth attachment is
allocated with `windowWidth x windowHeight` as well, and the registry entries of the three
textures record that width and height. -/
theorem framebuffer_unbound_after_setup_and_frame [GlmOps M] (loc : Nat → String → Int)
    (fboName rbName b : Nat) (s0 s : State F M) (h : FrameReady s)
    (hmode : s.useDeferredShading = true) :
    (boundFramebuffer b (initFBO loc fboName rbName s0).2 = 0 ∧
      colorAttachments (initFBO loc fboName rbName s0).2 =
        [(0, s0.textureNames + 1), (1, s0.textureNames + 2), (2, s0.textureNames + 3)] ∧
      textureStorage b (initFBO loc fboName rbName s0).2 =
        [(s0.textureNames + 1, s0.windowWidth, s0.windowHeight),
         (s0.textureNames + 2, s0.windowWidth, s0.windowHeight),
         (s0.textureNames + 3, s0.windowWidth, s0.windowHeight)] ∧
      depthAttachments (initFBO loc fboName rbName s0).2 = [rbName] ∧
      renderbufferStorage b (initFBO loc fboName rbName s0).2 =
        [(rbName, s0.windowWidth, s0.windowHeight)] ∧
      (∀ texID ∈ ["def_vertexMap", "def_normalMap", "def_texCoordMap"],
        ((initFBO loc fboName rbName s0).1.textures texID).width = s0.windowWidth ∧
        ((initFBO loc fboName rbName s0).1.textures texID).height = s0.windowHeight) ∧
      gBufferHandles (initFBO loc fboName rbName s0).1 =
        [s0.textureNames + 1, s0.textureNames + 2, s0.textureNames + 3]) ∧
    ∃ s1 calls, renderScene s = some (s1, calls) ∧ boundFramebuffer b calls = 0 := by
  refine ⟨⟨rfl, rfl, rfl, rfl, ?_, ?_, (initFBO_handles loc fboName rbName s0).2⟩, ?_⟩
  · simp [initFBO, createEmptyTexture, State.setTexture, State.setTextureUniform,
      renderbufferStorage, Call.renderbufferStorageAfter]
  · intro texID hmem
    simp only [List.mem_cons, List.mem_singleton, List.not_mem_nil, or_false] at hmem
    rcases hmem with rfl | rfl | rfl <;>
      simp [initFBO, createEmptyTexture, State.setTexture, State.setTextureUniform,
        Function.update]
  · obtain ⟨setup, hsetup⟩ := setupLightAndMaterial_defined s h
    obtain ⟨t, rest, hs⟩ := frameReady_stack s h
    have hup := setupLightAndMaterial_calls s setup hsetup
    exact ⟨_, _, renderScene_deferred s t rest setup hmode hs hsetup,
      renderScene_deferred_boundFramebuffer s t setup hup b⟩

/-- Witness for C13: `initFBO` on the start-up state of a `640 x 480` window with the G-buffer
framebuffer 7 bound before, and a deferred-mode frame of the example scene. -/
theorem framebuffer_unbound_after_setup_and_frame_witness :
    boundFramebuffer 7 (initFBO exampleLocations 1 1
      { State.initial Nat SymMat with windowWidth := 640, windowHeight := 480 }).2 = 0 ∧
    textureStorage 7 (initFBO exampleLocations 1 1
      { State.initial Nat SymMat with windowWidth := 640, windowHeight := 480 }).2 =
        [(1, 640, 480), (2, 640, 480), (3, 640, 480)] ∧
    renderbufferStorage 7 (initFBO exampleLocations 1 1
      { State.initial Nat SymMat with windowWidth := 640, windowHeight := 480 }).2 =
        [(1, 640, 480)] ∧
    ∃ s1 calls, renderScene exampleDeferred = some (s1, calls) ∧
      boundFramebuffer 7 calls = 0 := by
  obtain ⟨⟨h1, -, h3, -, h5, -, -⟩, h8⟩ :=
    framebuffer_unbound_after_setup_and_frame exampleLocations 1 1 7
      { State.initial Nat SymMat with windowWidth := 640, windowHeight := 480 }
      exampleDeferred ⟨by decide, by decide, by decide, by decide⟩ rfl
  exact ⟨h1, h3, h5, h8⟩

/-- C16: `loadShaderFile` creates the shader object before it opens the source file, so when
`glCreateShader` succeeds and the file is missing it returns zero after the single call
`glCreateShader`, leaving the created object allocated: in the calls of `createShader` for
a missing fragment source the fragment shader object is created and no shader is ever
passed to `glDeleteShader`.  The failure does propagate: `createShader` returns zero. -/
theorem missing_source_leaves_shader_allocated (env : ShaderEnv) (v f : String)
    (s : State F M) (hprogram : env.glCreateProgram ≠ 0)
    (hcreate : env.glCreateShader .GL_FRAGMENT_SHADER ≠ 0)
    (hmissing : loadShaderSource env f = none) :
    loadShaderFile (F := F) (M := M) env f .GL_FRAGMENT_SHADER =
      (0, [Call.glCreateShader .GL_FRAGMENT_SHADER (env.glCreateShader .GL_FRAGMENT_SHADER)]) ∧
    createdShaders (loadShaderFile (F := F) (M := M) env f .GL_FRAGMENT_SHADER).2 =
      [env.glCreateShader .GL_FRAGMENT_SHADER] ∧
    (createShader env v f s).1 = 0 ∧
    env.glCreateShader .GL_FRAGMENT_SHADER ∈ createdShaders (createShader env v f s).2.2 ∧
    deletedShaders (createShader env v f s).2.2 = [] := by
  have hf := loadShaderFile_missing_source (F := F) (M := M) env f .GL_FRAGMENT_SHADER hcreate
    hmissing
  have hc := createShader_missing_fragment env v f s hprogram hcreate hmissing
  refine ⟨hf, ?_, ?_, ?_, ?_⟩
  · rw [hf]
    simp [createdShaders, hcreate]
  · rw [hc]
  · rw [hc]
    show _ ∈ createdShaders (_ :: _)
    rw [← List.singleton_append, createdShaders_append, createdShaders_append,
      createdShaders_append, createdShaders_append]
    simp [createdShaders, hcreate]
  · rw [hc]
    show deletedShaders (_ :: _) = []
    rw [← List.singleton_append, deletedShaders_append, deletedShaders_append,
      deletedShaders_append, deletedShaders_append, loadShaderFile_deletedShaders,
      deleteShader_deletedShaders]
    rfl

/-- Witness for C16: the fragment shader source is missing while `glCreateShader` returns
handle 9 for it; shader 9 (and the compiled vertex shader 8) stay allocated. -/
theorem missing_source_leaves_shader_allocated_witness :
    loadShaderFile (F := Nat) (M := SymMat) exampleMissingFragment
      "../shader/normal_mapping.frag" .GL_FRAGMENT_SHADER =
      (0, [Call.glCreateShader .GL_FRAGMENT_SHADER 9]) ∧
    createShader exampleMissingFragment "../shader/normal_mapping.vert"
      "../shader/normal_mapping.frag" (State.initial Nat SymMat) =
      (0, State.initial Nat SymMat,
        [Call.glCreateProgram 7, Call.glCreateShader .GL_VERTEX_SHADER 8,
          Call.glShaderSource 8 "void main() {}", Call.glCompileShader 8,
          Call.glCreateShader .GL_FRAGMENT_SHADER 9, Call.glUseProgram 0,
          Call.glDeleteProgram 0, Call.glDeleteProgram 7]) ∧
    createdShaders (createShader exampleMissingFragment "../shader/normal_mapping.vert"
      "../shader/normal_mapping.frag" (State.initial Nat SymMat)).2.2 = [8, 9] ∧
    deletedShaders (createShader exampleMissingFragment "../shader/normal_mapping.vert"
      "../shader/normal_mapping.frag" (State.initial Nat SymMat)).2.2 = [] :=
  have h := missing_source_leaves_shader_allocated exampleMissingFragment
    "../shader/normal_mapping.vert" "../shader/normal_mapping.frag" (State.initial Nat SymMat)
    (by decide) (by decide) rfl
  ⟨h.1, rfl, rfl, h.2.2.2.2⟩

/-- C15: the handle `loadShaderFile` returns is `glCreateShader`'s result whenever the source
file can be read (zero otherwise), whatever the length of the compiler log.  So when the
program object and both stages are created and the linker log is empty, `createShader`
returns the program handle and leaves the globals as they are for every choice of the
compiler log lengths, non-empty logs included, and for any environment its result is the
same under any other compiler log lengths.  Whereas `attachAndLink` returns true exactly
when the linker log is empty, and when the program object and both stages are created and
the linker log is non-empty, `createShader` attaches, links, prints the linker log, deletes
the program as its last call and returns zero. -/
theorem compile_log_ignored_link_log_fatal (env envLink : ShaderEnv) (v f : String)
    (logLengths : ShaderType → Int) (s : State F M)
    (hprogram : env.glCreateProgram ≠ 0)
    (hvertex : (loadShaderFile (F := F) (M := M) env v .GL_VERTEX_SHADER).1 ≠ 0)
    (hfragment : (loadShaderFile (F := F) (M := M) env f .GL_FRAGMENT_SHADER).1 ≠ 0)
    (hclean : ¬ env.programInfoLogLength > 0)
    (hprogramLink : envLink.glCreateProgram ≠ 0)
    (hvertexLink : (loadShaderFile (F := F) (M := M) envLink v .GL_VERTEX_SHADER).1 ≠ 0)
    (hfragmentLink : (loadShaderFile (F := F) (M := M) envLink f .GL_FRAGMENT_SHADER).1 ≠ 0)
    (hlink : envLink.programInfoLogLength > 0) :
    (∀ (e : ShaderEnv) (fileName : String) (shaderType : ShaderType),
      (loadShaderFile (F := F) (M := M) e fileName shaderType).1 =
        if (loadShaderSource e fileName).isSome then e.glCreateShader shaderType else 0) ∧
    (loadShaderFile (F := F) (M := M) { env with shaderInfoLogLength := logLengths } v
      .GL_VERTEX_SHADER).1 = env.glCreateShader .GL_VERTEX_SHADER ∧
    env.glCreateShader .GL_VERTEX_SHADER ≠ 0 ∧
    (loadShaderFile (F := F) (M := M) { env with shaderInfoLogLength := logLengths } f
      .GL_FRAGMENT_SHADER).1 = env.glCreateShader .GL_FRAGMENT_SHADER ∧
    env.glCreateShader .GL_FRAGMENT_SHADER ≠ 0 ∧
    (createShader { env with shaderInfoLogLength := logLengths } v f s).1 =
      env.glCreateProgram ∧
    (createShader { env with shaderInfoLogLength := logLengths } v f s).2.1 = s ∧
    (∀ e : ShaderEnv,
      (createShader { e with shaderInfoLogLength := logLengths } v f s).1 =
        (createShader e v f s).1 ∧
      (createShader { e with shaderInfoLogLength := logLengths } v f s).2.1 =
        (createShader e v f s).2.1) ∧
    (∀ (e : ShaderEnv) (program vs fs : Nat),
      (attachAndLink (F := F) (M := M) e program vs fs).1 =
        !decide (e.programInfoLogLength > 0)) ∧
    createShader envLink v f s = (0, s, Call.glCreateProgram envLink.glCreateProgram ::
      ((loadShaderFile envLink v .GL_VERTEX_SHADER).2 ++
        (loadShaderFile envLink f .GL_FRAGMENT_SHADER).2 ++
        [ Call.glAttachShader envLink.glCreateProgram
            (envLink.glCreateShader .GL_VERTEX_SHADER),
          Call.glAttachShader envLink.glCreateProgram
            (envLink.glCreateShader .GL_FRAGMENT_SHADER),
          Call.glDeleteShader (envLink.glCreateShader .GL_VERTEX_SHADER),
          Call.glDeleteShader (envLink.glCreateShader .GL_FRAGMENT_SHADER),
          Call.glLinkProgram envLink.glCreateProgram,
          Call.printLinkerLog envLink.glCreateProgram,
          Call.glDeleteProgram envLink.glCreateProgram ])) := by
  have hfile : ∀ (e : ShaderEnv) name ty,
      (loadShaderFile (F := F) (M := M) { e with shaderInfoLogLength := logLengths } name
        ty).1 = (loadShaderFile (F := F) (M := M) e name ty).1 := by
    intro e name ty
    rw [loadShaderFile_handle, loadShaderFile_handle]
    rfl
  have hstage : ∀ name ty, (loadShaderFile (F := F) (M := M) env name ty).1 ≠ 0 →
      (loadShaderFile (F := F) (M := M) env name ty).1 = env.glCreateShader ty := by
    intro name ty hne
    rw [loadShaderFile_handle] at hne ⊢
    split
    · rfl
    · rename_i hno
      simp [hno] at hne
  have hindep : ∀ e : ShaderEnv,
      (createShader { e with shaderInfoLogLength := logLengths } v f s).1 =
        (createShader e v f s).1 ∧
      (createShader { e with shaderInfoLogLength := logLengths } v f s).2.1 =
        (createShader e v f s).2.1 := by
    intro e
    have hres := createShader_result e v f s
    have hres2 := createShader_result { e with shaderInfoLogLength := logLengths } v f s
    exact ⟨by rw [hres.1, hres2.1, hfile, hfile], by rw [hres.2, hres2.2, hfile, hfile]⟩
  have hres := createShader_result env v f s
  refine ⟨fun e fileName shaderType => loadShaderFile_handle e fileName shaderType,
    (hfile env v _).trans (hstage v _ hvertex), hstage v _ hvertex ▸ hvertex,
    (hfile env f _).trans (hstage f _ hfragment), hstage f _ hfragment ▸ hfragment,
    ?_, ?_, hindep, ?_,
    createShader_link_failure_eq envLink v f s hprogramLink hvertexLink hfragmentLink hlink⟩
  · rw [(hindep env).1, hres.1]
    simp [hprogram, hvertex, hfragment, hclean]
  · rw [(hindep env).2, hres.2]
    simp [hprogram, hvertex, hfragment]
  · intro e program vs fs
    by_cases hl : e.programInfoLogLength > 0 <;> simp [attachAndLink, hl]

/-- Witness for C15: in an environment with empty logs where program 7 and stages 8 and 9
are created, compiler logs of length 12 leave the result of `createShader` at 7; with a
linker log of length 5 `createShader` returns zero after deleting program 7. -/
theorem compile_log_ignored_link_log_fatal_witness :
    (loadShaderFile (F := Nat) (M := SymMat)
      { exampleShaderEnv 7 with shaderInfoLogLength := fun _ => 12 } "../shader/pass1.frag"
      .GL_FRAGMENT_SHADER).1 = 9 ∧
    (createShader { exampleShaderEnv 7 with shaderInfoLogLength := fun _ => 12 }
      "../shader/pass1.vert" "../shader/pass1.frag" (State.initial Nat SymMat)).1 = 7 ∧
    Call.printCompilerLog 9 ∈
      (createShader { exampleShaderEnv 7 with shaderInfoLogLength := fun _ => 12 }
        "../shader/pass1.vert" "../shader/pass1.frag" (State.initial Nat SymMat)).2.2 ∧
    (attachAndLink (F := Nat) (M := SymMat) exampleLinkFailure 7 8 9).1 = false ∧
    createShader exampleLinkFailure "../shader/pass1.vert" "../shader/pass1.frag"
      (State.initial Nat SymMat) =
      (0, State.initial Nat SymMat,
        [ Call.glCreateProgram 7,
          Call.glCreateShader .GL_VERTEX_SHADER 8, Call.glShaderSource 8 "void main() {}",
          Call.glCompileShader 8, Call.printCompilerLog 8,
          Call.glCreateShader .GL_FRAGMENT_SHADER 9, Call.glShaderSource 9 "void main() {}",
          Call.glCompileShader 9, Call.printCompilerLog 9,
          Call.glAttachShader 7 8, Call.glAttachShader 7 9, Call.glDeleteShader 8,
          Call.glDeleteShader 9, Call.glLinkProgram 7, Call.printLinkerLog 7,
          Call.glDeleteProgram 7 ]) := by
  obtain ⟨-, -, -, h4, -, h6, -, -, h9, h10⟩ :=
    compile_log_ignored_link_log_fatal (exampleShaderEnv 7) exampleLinkFailure
      "../shader/pass1.vert" "../shader/pass1.frag" (fun _ => 12) (State.initial Nat SymMat)
      (by decide) (by decide) (by decide) (by decide) (by decide) (by decide) (by decide)
      (by decide)
  exact ⟨h4, h6, by decide, (h9 exampleLinkFailure 7 8 9).trans rfl, h10.trans rfl⟩

/-- C18: in deferred mode, when the first program is created successfully, (1) if the second
program object is created but one of its stages gets the zero handle, then after `initShader`
`shaderPass` is `(0, 0)`, the first program has been passed to `glDeleteProgram` and
`enableShader(0)` returns false without binding a program; (2) if both stages of the second
program are created and only the linker log is non-empty, then after `initShader`
`shaderPass[0]` is the first program (non-zero), `shaderPass[1]` is zero and `enableShader(0)`
binds the first program and returns true. -/
theorem second_program_failure_shaderPass (loc : Nat → String → Int)
    (env1 envStage envLink : ShaderEnv) (s : State F M)
    (hmode : s.useDeferredShading = true)
    (hfirst : (createShader env1 "../shader/deferred_pass1.vert"
      "../shader/deferred_pass1.frag" s).1 ≠ 0)
    (hprogram : envStage.glCreateProgram ≠ 0)
    (hstage :
      (loadShaderFile (F := F) (M := M) envStage "../shader/deferred_pass2.vert"
        .GL_VERTEX_SHADER).1 = 0 ∨
      (loadShaderFile (F := F) (M := M) envStage "../shader/deferred_pass2.frag"
        .GL_FRAGMENT_SHADER).1 = 0)
    (hprogramLink : envLink.glCreateProgram ≠ 0)
    (hvertex : (loadShaderFile (F := F) (M := M) envLink "../shader/deferred_pass2.vert"
      .GL_VERTEX_SHADER).1 ≠ 0)
    (hfragment : (loadShaderFile (F := F) (M := M) envLink "../shader/deferred_pass2.frag"
      .GL_FRAGMENT_SHADER).1 ≠ 0)
    (hlink : envLink.programInfoLogLength > 0) :
    ((initShader loc env1 envStage s).1.shaderPass = (0, 0) ∧
      Call.glDeleteProgram env1.glCreateProgram ∈ (initShader loc env1 envStage s).2 ∧
      enableShader 0 (initShader loc env1 envStage s).1 = some (false, [])) ∧
    ((initShader loc env1 envLink s).1.shaderPass = (env1.glCreateProgram, 0) ∧
      env1.glCreateProgram ≠ 0 ∧
      enableShader 0 (initShader loc env1 envLink s).1 =
        some (true, [Call.glUseProgram env1.glCreateProgram])) := by
  have hp1 : env1.glCreateProgram ≠ 0 := (createShader_success env1 _ _ s hfirst).1 ▸ hfirst
  have hmode1 := initShader_mode loc env1 envStage s
  have hmode2 := initShader_mode loc env1 envLink s
  rw [hmode] at hmode1 hmode2
  have hr := createShader_result envStage "../shader/deferred_pass2.vert"
    "../shader/deferred_pass2.frag"
    { s with shaderPass := (env1.glCreateProgram, s.shaderPass.2) }
  have hl := createShader_result envLink "../shader/deferred_pass2.vert"
    "../shader/deferred_pass2.frag"
    { s with shaderPass := (env1.glCreateProgram, s.shaderPass.2) }
  have hr0 : (createShader envStage "../shader/deferred_pass2.vert"
      "../shader/deferred_pass2.frag"
      { s with shaderPass := (env1.glCreateProgram, s.shaderPass.2) }).1 = 0 := by
    rw [hr.1]
    rcases hstage with h | h <;> simp [h]
  have hrs : (createShader envStage "../shader/deferred_pass2.vert"
      "../shader/deferred_pass2.frag"
      { s with shaderPass := (env1.glCreateProgram, s.shaderPass.2) }).2.1.shaderPass =
        (0, 0) := by
    rw [hr.2]
    rcases hstage with h | h <;> simp [h, hprogram, deleteShader, hmode]
  have hl0 : (createShader envLink "../shader/deferred_pass2.vert"
      "../shader/deferred_pass2.frag"
      { s with shaderPass := (env1.glCreateProgram, s.shaderPass.2) }).1 = 0 := by
    rw [hl.1]
    simp [hlink]
  have hls : (createShader envLink "../shader/deferred_pass2.vert"
      "../shader/deferred_pass2.frag"
      { s with shaderPass := (env1.glCreateProgram, s.shaderPass.2) }).2.1.shaderPass =
        (env1.glCreateProgram, s.shaderPass.2) := by
    rw [hl.2]
    simp [hprogramLink, hvertex, hfragment]
  have hpass1 : (initShader loc env1 envStage s).1.shaderPass = (0, 0) := by
    rw [initShader_second_failure loc env1 envStage s hmode hfirst hr0]
    simp only [hrs]
  have hpass2 : (initShader loc env1 envLink s).1.shaderPass = (env1.glCreateProgram, 0) := by
    rw [initShader_second_failure loc env1 envLink s hmode hfirst hl0]
    simp only [hls]
  refine ⟨⟨hpass1, ?_, ?_⟩, hpass2, hp1, ?_⟩
  · rw [initShader_second_failure loc env1 envStage s hmode hfirst hr0]
    simp only
    rw [createShader_stage_failure_calls envStage _ _ _ hprogram hstage]
    simp [deleteShader, hmode]
  · simp [enableShader, hmode1, hpass1]
  · simp [enableShader, hmode2, hpass2, hp1, Nat.pos_of_ne_zero hp1]

/-- Witness for C18: the first program is program 1; for the second program either the
fragment shader source is missing, or both stages are created and the linker log is not
empty. -/
theorem second_program_failure_shaderPass_witness :
    ((initShader exampleLocations (exampleShaderEnv 1) exampleMissingFragment
        { State.initial Nat SymMat with useDeferredShading := true }).1.shaderPass = (0, 0) ∧
      Call.glDeleteProgram 1 ∈ (initShader exampleLocations (exampleShaderEnv 1)
        exampleMissingFragment
        { State.initial Nat SymMat with useDeferredShading := true }).2 ∧
      enableShader 0 (initShader exampleLocations (exampleShaderEnv 1) exampleMissingFragment
        { State.initial Nat SymMat with useDeferredShading := true }).1 = some (false, [])) ∧
    ((initShader exampleLocations (exampleShaderEnv 1) exampleLinkFailure
        { State.initial Nat SymMat with useDeferredShading := true }).1.shaderPass = (1, 0) ∧
      enableShader 0 (initShader exampleLocations (exampleShaderEnv 1) exampleLinkFailure
        { State.initial Nat SymMat with useDeferredShading := true }).1 =
          some (true, [Call.glUseProgram 1])) :=
  have h := second_program_failure_shaderPass exampleLocations (exampleShaderEnv 1)
    exampleMissingFragment exampleLinkFailure
    { State.initial Nat SymMat with useDeferredShading := true } rfl (by decide) (by decide)
    (Or.inr (by decide)) (by decide) (by decide) (by decide) (by decide)
  ⟨h.1, h.2.1, h.2.2.2⟩

/-- Counterexample to C11 as stated: when the first program cannot be created, start-up ends
with a zero handle (`shaderProgram` in forward mode, `shaderPass[0]` in deferred mode) and
`main` returns right after start-up although GLUT has events to deliver: `glutMainLoop` is
never called and no `render()` is issued, in forward mode and in deferred mode. -/
theorem main_returns_without_loop_when_program_zero :
    (∃ s c, main_init exampleNoProgramEnv ["Ex09"] = some (s, c) ∧
      s.useDeferredShading = false ∧ s.shaderProgram = 0 ∧
      main exampleNoProgramEnv ["Ex09"] = .exit c ∧
      Call.glutMainLoop ∉ c ∧ c.countP Call.isRender = 0) ∧
    (∃ s c, main_init exampleNoProgramEnv ["Ex09", "1"] = some (s, c) ∧
      s.useDeferredShading = true ∧ s.shaderPass = (0, 0) ∧
      main exampleNoProgramEnv ["Ex09", "1"] = .exit c ∧
      Call.glutMainLoop ∉ c ∧ c.countP Call.isRender = 0) := by
  refine ⟨⟨_, _, rfl, rfl, rfl, rfl, ?_⟩, ⟨_, _, rfl, rfl, rfl, rfl, ?_⟩⟩
  · exact not_mem_of_noLoopCalls _
      (main_init_noLoopCalls exampleNoProgramEnv ["Ex09"] _ _ rfl)
  · exact not_mem_of_noLoopCalls _
      (main_init_noLoopCalls exampleNoProgramEnv ["Ex09", "1"] _ _ rfl)

/-- C11, amended: start-up issues no call of the render loop, and `main` enters the loop
exactly when the handle `enableShader()` tests (`shaderProgram` in forward mode,
`shaderPass[0]` in deferred mode) is non-zero: with a zero handle `main` returns right after
start-up, with a non-zero handle it selects that program and calls `glutMainLoop`.  In every
state the loop reaches, the program handles are those of start-up and a frame is rendered
without undefined behaviour, selecting exactly `shaderProgram` (forward mode, 441 `render()`
calls) or `shaderPass[0]` then `shaderPass[1]` (deferred mode, 442 `render()` calls); so once
the loop is entered the null program is selected in a frame exactly in deferred mode with
`shaderPass[1]` zero.  The loop as a whole is free of undefined behaviour when every mouse
event passes an assigned `mouseState`; `mouseEvent` for a press of a button other than the
left or the right one does not. -/
theorem main_enters_loop_iff_first_program [GlmOps M] (env : MainEnv F M)
    (argv : List String) (s : State F M) (c : List (Call F M))
    (hinit : main_init env argv = some (s, c)) :
    NoLoopCalls c ∧
    (firstPassProgram s = 0 → main env argv = .exit c) ∧
    (firstPassProgram s ≠ 0 → (∀ e ∈ env.events, e.mouseStateAssigned = true) →
      mainLoop env.events s ≠ .undefined ∧
      (main env argv).calls = c ++ [Call.glUseProgram (firstPassProgram s)] ++
        Call.glutMainLoop :: (mainLoop env.events s).calls) ∧
    ((∀ e ∈ env.events, e.mouseStateAssigned = true) → main env argv ≠ .undefined) ∧
    (∀ (events : List (Event M)) (s1 : State F M) (c1 : List (Call F M)),
      mainLoop events s = .running s1 c1 →
      s1.shaderSetup = s.shaderSetup ∧
      ∀ projection modelview, ∃ s2 c2, updateGL projection modelview s1 = some (s2, c2) ∧
        usedPrograms c2 = framePrograms s ∧
        c2.countP Call.isRender = if s.useDeferredShading then 442 else 441) ∧
    (firstPassProgram s ≠ 0 →
      (0 ∈ framePrograms s ↔ s.useDeferredShading = true ∧ s.shaderPass.2 = 0)) ∧
    (∀ (button state x y : Int) (s1 : State F M),
      mouseEvent_mouseState button state = none →
      mouseEvent button state x y s1 = .undefined ∧
      ∀ rest, mainLoop (.mouse button state x y :: rest) s1 = .undefined) := by
  have hready := main_init_runReady env argv s c hinit
  refine ⟨main_init_noLoopCalls env argv s c hinit, main_of_zero_program env argv s c hinit,
    main_of_nonzero_program env argv s c hinit, main_defined env argv, ?_, ?_, ?_⟩
  · intro events s1 c1 hrun
    obtain ⟨hr1, hk1⟩ := mainLoop_shaderSetup events s s1 c1 hready hrun
    refine ⟨hk1, fun projection modelview => ?_⟩
    obtain ⟨s2, c2, hu, -, -, hprog, hcount⟩ := updateGL_frame projection modelview s1 hr1
    have hmode : s1.useDeferredShading = s.useDeferredShading := congrArg (·.1) hk1
    have hprogram : s1.shaderProgram = s.shaderProgram := congrArg (·.2.1) hk1
    have hpass : s1.shaderPass = s.shaderPass := congrArg (·.2.2.1) hk1
    refine ⟨s2, c2, hu, ?_, ?_⟩
    · rw [hprog]
      simp only [framePrograms, hmode, hprogram, hpass]
    · rw [hcount, hmode]
  · intro hnonzero
    unfold firstPassProgram at hnonzero
    unfold framePrograms
    cases hmode : s.useDeferredShading with
    | false =>
      simp only [hmode, Bool.false_eq_true, if_false] at hnonzero
      simp [Ne.symm hnonzero]
    | true =>
      simp only [hmode, if_true] at hnonzero
      simp [Ne.symm hnonzero, eq_comm]
  · intro button state x y s1 hnone
    refine ⟨by simp [mouseEvent, hnone], fun rest => ?_⟩
    simp [mainLoop, dispatch, mouseEvent, hnone]

/-- Witness for C11 (amended): deferred mode, the first program is program 1 and the second
fails at link time, so `shaderPass` is `(1, 0)`; `main` binds program 1 and enters the render
loop, a frame selects program 1 and then the null program, and a press of the middle mouse
button is undefined. -/
theorem main_enters_loop_iff_first_program_witness :
    ∃ s c, main_init exampleSecondLinkFailureEnv ["Ex09", "1"] = some (s, c) ∧
      s.shaderPass = (1, 0) ∧
      main exampleSecondLinkFailureEnv ["Ex09", "1"] ≠ .undefined ∧
      (main exampleSecondLinkFailureEnv ["Ex09", "1"]).calls =
        c ++ [Call.glUseProgram 1] ++
          Call.glutMainLoop :: (mainLoop exampleSecondLinkFailureEnv.events s).calls ∧
      (∃ s2 c2, updateGL (.camera 0) (.camera 1) s = some (s2, c2) ∧
        usedPrograms c2 = [1, 0] ∧ c2.countP Call.isRender = 442) ∧
      mouseEvent 1 0 5 5 s = .undefined := by
  have hevents : ∀ e ∈ exampleSecondLinkFailureEnv.events, e.mouseStateAssigned = true := by
    intro e he
    simp only [exampleSecondLinkFailureEnv, List.mem_cons, List.mem_singleton,
      List.not_mem_nil, or_false] at he
    rcases he with rfl | rfl | rfl | rfl | rfl <;> rfl
  have h := main_enters_loop_iff_first_program exampleSecondLinkFailureEnv ["Ex09", "1"] _ _ rfl
  obtain ⟨s2, c2, hu, hprog, hcount⟩ := (h.2.2.2.2.1 [] _ [] rfl).2 (.camera 0) (.camera 1)
  exact ⟨_, _, rfl, rfl, h.2.2.2.1 hevents, (h.2.2.1 (by decide) hevents).2,
    ⟨s2, c2, hu, hprog, hcount⟩, (h.2.2.2.2.2.2 1 0 5 5 _ rfl).1⟩

/-- C14: in deferred mode with both programs created, the location `uniformLocations["projection"]`
is the one resolved against `shaderPass[0]`, and `main` enters the render loop with
`shaderPass[0]` in use.  In the first frame `updateGL` uploads the projection matrix to that
location while `shaderPass[0]` is in use; but every frame ends with `shaderPass[1]` in use, and
`updateGL` uploads before `renderScene` selects `shaderPass[0]` again, so in the second frame
the upload to the same location is issued while `shaderPass[1]` is in use. -/
theorem projection_upload_under_pass2_program [GlmOps M] (env : MainEnv F M)
    (argv : List String) (s : State F M) (c : List (Call F M)) (p1 m1 p2 m2 : M)
    (hinit : main_init env argv = some (s, c)) (hmode : s.useDeferredShading = true)
    (h1 : s.shaderPass.1 ≠ 0) (h2 : s.shaderPass.2 ≠ 0) :
    s.uniformLocations "projection" = env.glGetUniformLocation s.shaderPass.1 "projection" ∧
    enableShader 0 s = some (true, [Call.glUseProgram s.shaderPass.1]) ∧
    ∃ s1 s2 post1 post2,
      updateGL p1 m1 s =
        some (s1, [Call.glClear, Call.glViewport s.windowWidth s.windowHeight] ++
          Call.glUniformMatrix4fv (s.uniformLocations "projection") p1 :: post1) ∧
      updateGL p2 m2 s1 =
        some (s2, [Call.glClear, Call.glViewport s.windowWidth s.windowHeight] ++
          Call.glUniformMatrix4fv (s.uniformLocations "projection") p2 :: post2) ∧
      mainLoop [.display p1 m1, .display p2 m2] s =
        .running s2
          (([Call.glClear, Call.glViewport s.windowWidth s.windowHeight] ++
            Call.glUniformMatrix4fv (s.uniformLocations "projection") p1 :: post1) ++
          ([Call.glClear, Call.glViewport s.windowWidth s.windowHeight] ++
            Call.glUniformMatrix4fv (s.uniformLocations "projection") p2 :: post2)) ∧
      (∀ b, boundProgram b (([Call.glUseProgram s.shaderPass.1] ++
        [Call.glClear, Call.glViewport s.windowWidth s.windowHeight]) : List (Call F M)) =
          s.shaderPass.1) ∧
      (∀ b, boundProgram b ([Call.glUseProgram s.shaderPass.1] ++
        ([Call.glClear, Call.glViewport s.windowWidth s.windowHeight] ++
          Call.glUniformMatrix4fv (s.uniformLocations "projection") p1 :: post1) ++
        [Call.glClear, Call.glViewport s.windowWidth s.windowHeight]) = s.shaderPass.2) := by
  have hready := main_init_runReady env argv s c hinit
  obtain ⟨s1, post1, hu1, hr1, hm1, -, hloc1, hw1, hh1, hb1⟩ :=
    updateGL_deferred_frame p1 m1 s hready hmode
  obtain ⟨s2, post2, hu2, -, -, -, -, -, -, -⟩ := updateGL_deferred_frame p2 m2 s1 hr1 hm1
  rw [hloc1, hw1, hh1] at hu2
  refine ⟨main_init_projection_location env argv s c hinit hmode h1 h2, ?_,
    s1, s2, post1, post2, hu1, hu2, ?_, fun b => rfl, ?_⟩
  · rw [enableShader_zero]
    simp [firstPassProgram, hmode, h1, Nat.pos_of_ne_zero h1]
  · simp [mainLoop, dispatch, hu1, hu2]
  · intro b
    have hframe : ∀ x, boundProgram x
        ([Call.glClear, Call.glViewport s.windowWidth s.windowHeight] ++
          Call.glUniformMatrix4fv (s.uniformLocations "projection") p1 :: post1) =
        s.shaderPass.2 := by
      intro x
      rw [boundProgram_append, boundProgram_cons]
      exact hb1 _
    rw [boundProgram_append, boundProgram_append, hframe]
    rfl

/-- Witness for C14: the program is run with the argument `1` in the example environment;
start-up yields programs 1 and 2 and the projection location 110 of program 1; two frames
are displayed, and when the second frame uploads to location 110 program 2 is in use. -/
theorem projection_upload_under_pass2_program_witness :
    ∃ c s1 s2 post1 post2,
      main_init exampleEnv ["Ex09", "1"] = some (exampleDeferred, c) ∧
      exampleDeferred.shaderPass = (1, 2) ∧
      exampleLocations 1 "projection" = 110 ∧ exampleLocations 2 "projection" = 210 ∧
      updateGL (.camera 0) (.camera 1) exampleDeferred =
        some (s1, [Call.glClear, Call.glViewport 512 512] ++
          Call.glUniformMatrix4fv 110 (.camera 0) :: post1) ∧
      updateGL (.camera 2) (.camera 3) s1 =
        some (s2, [Call.glClear, Call.glViewport 512 512] ++
          Call.glUniformMatrix4fv 110 (.camera 2) :: post2) ∧
      boundProgram 0 ([Call.glUseProgram 1] ++
        ([Call.glClear, Call.glViewport 512 512] ++
          Call.glUniformMatrix4fv 110 (.camera 0) :: post1) ++
        [Call.glClear, Call.glViewport 512 512]) = 2 := by
  obtain ⟨-, -, s1, s2, post1, post2, hu1, hu2, -, -, hsecond⟩ :=
    projection_upload_under_pass2_program exampleEnv ["Ex09", "1"] exampleDeferred _
      (.camera 0) (.camera 1) (.camera 2) (.camera 3) rfl rfl (by decide) (by decide)
  exact ⟨_, s1, s2, post1, post2, rfl, rfl, by decide, by decide, hu1, hu2, hsecond 0⟩

end Claims

end Ex09
